import Mathlib

/-!
Verification development for the polycube enumerator.

The definitions below are a shallow embedding of the Rust sources:
`src/point.rs`, `src/orientation.rs`, `src/mapper.rs`,
`src/block_arrangement.rs`, `src/block_arrangement/block_variation.rs`,
`src/block_hash.rs` and `src/main.rs`.  Machine integers (`i32`) are
modelled as `Int` (all values involved are tiny), `usize` indices as
`Nat`, fallible operations (`expect` / `unwrap` / `panic!`) as `Option`
with `none` for the aborting path, and `Result<(), PlacementError>` as
`Except PlacementError Unit` paired with the post state.
-/

namespace Polycubes

/-- Element of the additive cyclic group {0°, 90°, 180°, 270°}
(`RotationAmount` in `orientation.rs`). -/
inductive RotationAmount where
  | Zero
  | Ninety
  | OneEighty
  | TwoSeventy
deriving DecidableEq, Repr

namespace RotationAmount

/-- Addition table of `RotationAmount` (`impl Add for RotationAmount`). -/
def add : RotationAmount → RotationAmount → RotationAmount
  | Zero, r => r
  | r, Zero => r
  | Ninety, Ninety => OneEighty
  | Ninety, OneEighty => TwoSeventy
  | OneEighty, Ninety => TwoSeventy
  | OneEighty, OneEighty => Zero
  | TwoSeventy, Ninety => Zero
  | Ninety, TwoSeventy => Zero
  | TwoSeventy, TwoSeventy => OneEighty
  | OneEighty, TwoSeventy => Ninety
  | TwoSeventy, OneEighty => Ninety

/-- Subtraction table of `RotationAmount` (`impl Sub for RotationAmount`). -/
def sub : RotationAmount → RotationAmount → RotationAmount
  | r, Zero => r
  | Ninety, Ninety => Zero
  | OneEighty, OneEighty => Zero
  | TwoSeventy, TwoSeventy => Zero
  | Zero, TwoSeventy => Ninety
  | OneEighty, Ninety => Ninety
  | TwoSeventy, OneEighty => Ninety
  | Zero, OneEighty => OneEighty
  | Ninety, TwoSeventy => OneEighty
  | TwoSeventy, Ninety => OneEighty
  | Zero, Ninety => TwoSeventy
  | Ninety, OneEighty => TwoSeventy
  | OneEighty, TwoSeventy => TwoSeventy

/-- `RotationAmount::inverse`: `Zero - self`. -/
def inverse (r : RotationAmount) : RotationAmount := sub Zero r

/-- Number of applications of the 2-dimensional clockwise rotation that a
`RotationAmount` stands for (the `match` at the head of `Point3D::rotate`). -/
def iterations : RotationAmount → Nat
  | Zero => 0
  | Ninety => 1
  | OneEighty => 2
  | TwoSeventy => 3

end RotationAmount

/-- Axis selector (`Axis3D` in `point.rs`). -/
inductive Axis3D where
  | X
  | Y
  | Z
deriving DecidableEq, Repr

/-- Per-axis rotation amounts plus per-axis mirror flags
(`Orientation` in `orientation.rs`; `mapper.rs` carries an identical
historical copy). -/
structure Orientation where
  x_rot : RotationAmount
  y_rot : RotationAmount
  z_rot : RotationAmount
  x_mir : Bool
  y_mir : Bool
  z_mir : Bool
deriving DecidableEq, Repr

namespace Orientation

/-- `Orientation::default()`: no rotation, no mirroring. -/
def default : Orientation :=
  ⟨.Zero, .Zero, .Zero, false, false, false⟩

/-- `Orientation::negative` in `mapper.rs` (identical to
`Orientation::additive_complement` in `orientation.rs`): keeps the mirror
flags and replaces each rotation amount by `Zero - amount`. -/
def negative (o : Orientation) : Orientation :=
  ⟨RotationAmount.sub .Zero o.x_rot, RotationAmount.sub .Zero o.y_rot,
   RotationAmount.sub .Zero o.z_rot, o.x_mir, o.y_mir, o.z_mir⟩

end Orientation

/-- The list of all 4³·2³ = 512 orientations, in the order produced by
`OrientationIterator` (`orientation.rs`): `z_mir` varies fastest, then
`y_mir`, `x_mir`, `z_rot`, `y_rot`, and `x_rot` slowest; the first element
is the default orientation.  The iterator's own test pins the count 512. -/
def orientationList : List Orientation :=
  let rots : List RotationAmount := [.Zero, .Ninety, .OneEighty, .TwoSeventy]
  let mirs : List Bool := [false, true]
  rots.flatMap fun xr =>
    rots.flatMap fun yr =>
      rots.flatMap fun zr =>
        mirs.flatMap fun xm =>
          mirs.flatMap fun ym =>
            mirs.map fun zm => ⟨xr, yr, zr, xm, ym, zm⟩

/-- A 3D lattice point (`Point3D<i32>` in `point.rs`). -/
structure Point3D where
  x : Int
  y : Int
  z : Int
deriving DecidableEq, Repr

namespace Point3D

/-- `Point3D::default()`: the origin. -/
def origin : Point3D := ⟨0, 0, 0⟩

/-- Componentwise addition (`impl Add for Point3D`). -/
def add (a b : Point3D) : Point3D := ⟨a.x + b.x, a.y + b.y, a.z + b.z⟩

/-- Componentwise subtraction (`impl Sub for Point3D`). -/
def sub (a b : Point3D) : Point3D := ⟨a.x - b.x, a.y - b.y, a.z - b.z⟩

/-- One step of `Point3D::rotate_2d`: a clockwise 90° rotation of a
coordinate pair (`x' = -y`, `y' = x`). -/
def rot2d (p : Int × Int) : Int × Int := (-p.2, p.1)

/-- Iterated `rotate_2d` (the `for _i in 0..rotations` loop). -/
def rot2dIter : Nat → Int × Int → Int × Int
  | 0, q => q
  | n + 1, q => rot2dIter n (rot2d q)

/-- `Point3D::rotate`: applies `amount.iterations` clockwise 2D rotations to
the coordinate pair orthogonal to `axis`. -/
def rotate (p : Point3D) (axis : Axis3D) (amount : RotationAmount) : Point3D :=
  let n := amount.iterations
  match axis with
  | .X => let q := rot2dIter n (p.y, p.z); ⟨p.x, q.1, q.2⟩
  | .Y => let q := rot2dIter n (p.x, p.z); ⟨q.1, p.y, q.2⟩
  | .Z => let q := rot2dIter n (p.x, p.y); ⟨q.1, q.2, p.z⟩

/-- `Point3D::mirror`: negates the coordinate along `axis`. -/
def mirror (p : Point3D) (axis : Axis3D) : Point3D :=
  match axis with
  | .X => ⟨-p.x, p.y, p.z⟩
  | .Y => ⟨p.x, -p.y, p.z⟩
  | .Z => ⟨p.x, p.y, -p.z⟩

/-- `Point3D::apply_orientation`: mirrors for X, Y, Z in order, then
rotations for X, Y, Z in order. -/
def applyOrientation (p : Point3D) (o : Orientation) : Point3D :=
  let p := if o.x_mir then p.mirror .X else p
  let p := if o.y_mir then p.mirror .Y else p
  let p := if o.z_mir then p.mirror .Z else p
  let p := p.rotate .X o.x_rot
  let p := p.rotate .Y o.y_rot
  p.rotate .Z o.z_rot

/-- `Point3D::apply_inverse_orientation`: rotations in reverse order with
inverted amounts, then mirrors in reverse order. -/
def applyInverseOrientation (p : Point3D) (o : Orientation) : Point3D :=
  let p := p.rotate .Z o.z_rot.inverse
  let p := p.rotate .Y o.y_rot.inverse
  let p := p.rotate .X o.x_rot.inverse
  let p := if o.z_mir then p.mirror .Z else p
  let p := if o.y_mir then p.mirror .Y else p
  if o.x_mir then p.mirror .X else p

end Point3D

/-- Modelled from the spec: the bounded extent owned by a `Mapper`
(§3 "BoundedExtent", §4.2).  The revision of `Finite3DDimension` that
`mapper.rs` and `block_arrangement.rs` compile against is not present under
`src/` (its one-argument constructor and `arm_size` accessor are only
called there; `point.rs` holds a later six-extent revision).  It stores a
single symmetric arm size; the storage linearization in `Mapper::unresolve`
offsets every component by `arm_size` into a row of width `2 * arm_size`,
which forces the addressable box `-arm <= v <= arm - 1` per axis and the
cell count `(2 * arm)^3` (the mapper's own round-trip test walks every
index `0..size()`). -/
structure Finite3DDimension where
  arm_size : Nat
deriving DecidableEq, Repr

namespace Finite3DDimension

/-- Modelled from the spec: number of addressable cells, `(2 * arm)^3`. -/
def size (d : Finite3DDimension) : Nat :=
  (2 * d.arm_size) * (2 * d.arm_size) * (2 * d.arm_size)

/-- Modelled from the spec: a point is in bounds when every component lies
in `-arm <= v <= arm - 1` (the exact set of points owning a storage slot
under the linearization of `Mapper::unresolve`). -/
def in_bounds (d : Finite3DDimension) (p : Point3D) : Bool :=
  decide (-(d.arm_size : Int) ≤ p.x) && decide (p.x < (d.arm_size : Int)) &&
  decide (-(d.arm_size : Int) ≤ p.y) && decide (p.y < (d.arm_size : Int)) &&
  decide (-(d.arm_size : Int) ≤ p.z) && decide (p.z < (d.arm_size : Int))

end Finite3DDimension

/-- A bounded-lattice coordinate mapper (`Mapper` in `mapper.rs`): a
dimension plus the orientation applied at the point-to-index boundary. -/
structure Mapper where
  dimension : Finite3DDimension
  orientation : Orientation
deriving DecidableEq, Repr

namespace Mapper

/-- `Mapper::new`: default orientation. -/
def new (d : Finite3DDimension) : Mapper := ⟨d, Orientation.default⟩

/-- `Mapper::set_orientation` (a `getset` setter). -/
def set_orientation (m : Mapper) (o : Orientation) : Mapper :=
  { m with orientation := o }

/-- `Mapper::unresolve`: `None` out of bounds; otherwise applies
`apply_orientation` with `orientation.negative()`, offsets each component
by `arm_size` (the Rust `as usize` cast, non-negative for every in-bounds
input since components of the reoriented point stay within `[-arm, arm]`)
and linearizes with row width `2 * arm_size`. -/
def unresolve (m : Mapper) (point : Point3D) : Option Nat :=
  if m.dimension.in_bounds point then
    let q := point.applyOrientation m.orientation.negative
    let arm : Int := m.dimension.arm_size
    let ux := (q.x + arm).toNat
    let uy := (q.y + arm).toNat
    let uz := (q.z + arm).toNat
    let w := 2 * m.dimension.arm_size
    some (ux + w * (uy + w * uz))
  else none

/-- The pre-orientation stage of `Mapper::resolve`: invert the
linearization and re-center each component by `arm_size`. -/
def storagePoint (m : Mapper) (index : Nat) : Point3D :=
  let w := 2 * m.dimension.arm_size
  let z := index / (w * w)
  let y := (index / w) % w
  let x := index % w
  let arm : Int := m.dimension.arm_size
  ⟨(x : Int) - arm, (y : Int) - arm, (z : Int) - arm⟩

/-- `Mapper::resolve`: inverts the linearization, re-centers by `arm_size`,
applies the forward orientation, and guards the result against the bounds. -/
def resolve (m : Mapper) (index : Nat) : Option Point3D :=
  let p := (m.storagePoint index).applyOrientation m.orientation
  if m.dimension.in_bounds p then some p else none

end Mapper

/-- `PlacementError` in `block_arrangement.rs`. -/
inductive PlacementError where
  | NotAdjacentToBlock
deriving DecidableEq, Repr

/-- A bit-indexed shape (`BlockArrangement` in `block_arrangement.rs`).
The `FixedBitSet` is modelled as the strictly sorted list of set bit
indices, so `bitset.ones()` is traversal of the list. -/
structure BlockArrangement where
  bits : List Nat
  num_blocks : Nat
  center_off_mass : Point3D
  mapper : Mapper
deriving DecidableEq, Repr

/-- Membership test of the bit set (`bitset[index]` through the
`FixedBitSet` `Index` impl, which reads `false` for any bit outside the
set, including indices beyond the capacity). -/
def bitsetGet (bits : List Nat) (index : Nat) : Bool :=
  bits.contains index

/-- Setting a bit (`bitset.set(index, true)`): a no-op when the bit is
already set, otherwise a sorted insertion. -/
def bitsetSet (bits : List Nat) (index : Nat) : List Nat :=
  if bitsetGet bits index then bits
  else
    match bits with
    | [] => [index]
    | b :: rest => if index < b then index :: b :: rest else b :: bitsetSet rest index

/-- Truncation-toward-zero integer division, the semantics of Rust `i32`
division used by `center_of_mass` (divisor always positive here). -/
def tdiv (a : Int) (b : Nat) : Int :=
  if 0 ≤ a then (a.toNat / b : Nat) else -(((-a).toNat / b : Nat))

namespace BlockArrangement

/-- `BlockArrangement::NEIGHBOR_OFFSETS`: the 6 face offsets, in source
order. -/
def NEIGHBOR_OFFSETS : List Point3D :=
  [⟨0, 0, -1⟩, ⟨0, 0, 1⟩, ⟨0, -1, 0⟩, ⟨0, 1, 0⟩, ⟨-1, 0, 0⟩, ⟨1, 0, 0⟩]

/-- `BlockArrangement::center_of_mass` restated over a mapper and a bit
list: resolves every set bit (`none` models the `expect` panic, also on an
empty set), sums the points and divides componentwise by their number with
truncation toward zero. -/
def centerOfMassOf (m : Mapper) (bits : List Nat) : Option Point3D :=
  (bits.mapM m.resolve).bind fun ps =>
    match ps with
    | [] => none
    | _ =>
      let s := ps.foldl Point3D.add Point3D.origin
      some ⟨tdiv s.x ps.length, tdiv s.y ps.length, tdiv s.z ps.length⟩

/-- `BlockArrangement::with_capacity`: a fresh arrangement over an arm-size
`cap` dimension holding the single origin block (`set_origin_block`), with
the default centroid. -/
def with_capacity (cap : Nat) : Option BlockArrangement :=
  let dim : Finite3DDimension := ⟨cap⟩
  let m := Mapper.new dim
  (m.unresolve Point3D.origin).map fun index =>
    { bits := [index], num_blocks := 1, center_off_mass := Point3D.origin, mapper := m }

/-- `BlockArrangement::new`: capacity 1. -/
def new : Option BlockArrangement := with_capacity 1

/-- `BlockArrangement::is_set`: resolve the point to an index and read the
bit, defaulting to `false` when the point is out of bounds. -/
def is_set (ba : BlockArrangement) (point : Point3D) : Bool :=
  ((ba.mapper.unresolve point).map (bitsetGet ba.bits)).getD false

/-- `BlockArrangement::is_set_relative_to_center_of_mass`. -/
def is_set_relative_to_center_of_mass (ba : BlockArrangement) (point : Point3D) : Bool :=
  ba.is_set (point.add ba.center_off_mass)

/-- `BlockArrangement::has_neighbors`: true iff one of the 6 face-adjacent
offsets lands on an in-bounds index whose bit is set. -/
def has_neighbors (ba : BlockArrangement) (point : Point3D) : Bool :=
  ((NEIGHBOR_OFFSETS.map (fun o => o.add point)).filterMap ba.mapper.unresolve).any
    (bitsetGet ba.bits)

/-- `BlockArrangement::grow`: rebuild into a fresh `with_capacity cap`
arrangement, remapping every set bit through `resolve` then `unresolve`
(`none` models either `expect` panicking), and carry the block count over. -/
def grow (ba : BlockArrangement) (cap : Nat) : Option BlockArrangement :=
  (with_capacity cap).bind fun nb =>
    (ba.bits.mapM ba.mapper.resolve).bind fun ps =>
      (ps.mapM nb.mapper.unresolve).map fun idxs =>
        { nb with bits := idxs.foldl bitsetSet nb.bits, num_blocks := ba.num_blocks }

/-- `BlockArrangement::add_block_at`.  The returned pair is the `Result`
together with the post state; `none` models a panic (`unwrap_or_else` on a
failed `unresolve`, or `expect` inside `update_center_of_mass`). -/
def add_block_at (ba : BlockArrangement) (point : Point3D) :
    Option (Except PlacementError Unit × BlockArrangement) :=
  if ¬ ba.has_neighbors point then some (.error .NotAdjacentToBlock, ba)
  else
    (if ¬ ba.mapper.dimension.in_bounds point then ba.grow (ba.num_blocks + 1)
     else some ba).bind fun ba1 =>
      (ba1.mapper.unresolve point).bind fun index =>
        let num := if bitsetGet ba1.bits index then ba1.num_blocks else ba1.num_blocks + 1
        let bits := bitsetSet ba1.bits index
        (centerOfMassOf ba1.mapper bits).map fun c =>
          (.ok (), { bits := bits, num_blocks := num, center_off_mass := c,
                     mapper := ba1.mapper })

/-- `BlockArrangement::set_orientation`: swap the mapper's orientation and
recompute the centroid (`none` models the `expect` panic inside
`update_center_of_mass`). -/
def set_orientation (ba : BlockArrangement) (o : Orientation) : Option BlockArrangement :=
  let m := ba.mapper.set_orientation o
  (centerOfMassOf m ba.bits).map fun c =>
    { ba with mapper := m, center_off_mass := c }

end BlockArrangement

namespace BlockArrangement

/-- The body of the `.all(..)` chain inside `PartialEq for BlockArrangement`:
walk the set bits in order, resolve each under the probe mapper (`none`
models the `expect` panic) and check the predicate, short-circuiting on the
first failing element exactly as the lazy Rust iterator does. -/
def allResolveCheck (m : Mapper) (f : Point3D → Bool) : List Nat → Option Bool
  | [] => some true
  | i :: rest =>
    match m.resolve i with
    | none => none
    | some p => if f p then allResolveCheck m f rest else some false

/-- One orientation probe of `PartialEq for BlockArrangement`: the block
counts must agree (the Rust `&&` short-circuits before any resolve when
they differ) and every set bit of `self`, resolved under the probe
orientation and offset by the oriented centroid, must be an occupied
centroid-relative coordinate of `other`. -/
def eqCheckOrient (a b : BlockArrangement) (o : Orientation) : Option Bool :=
  let m := a.mapper.set_orientation o
  let ocom := a.center_off_mass.applyOrientation o
  if a.num_blocks = b.num_blocks then
    allResolveCheck m
      (fun p => b.is_set_relative_to_center_of_mass (p.sub ocom)) a.bits
  else some false

/-- `impl PartialEq for BlockArrangement`: `any` over the 512 orientations
of `OrientationIterator`, in iterator order, short-circuiting on the first
`true`; `none` models the `expect` panic aborting the whole comparison. -/
def eqRunAux (a b : BlockArrangement) : List Orientation → Option Bool
  | [] => some false
  | o :: os =>
    match eqCheckOrient a b o with
    | none => none
    | some true => some true
    | some false => eqRunAux a b os

/-- The full equality test `a == b` of `BlockArrangement`. -/
def beq (a b : BlockArrangement) : Option Bool :=
  eqRunAux a b orientationList

/-- `BlockArrangement::center_mass_iter`: every set bit resolved and offset
by the stored centroid (`none` models the `expect` panic). -/
def center_mass_iter (ba : BlockArrangement) : Option (List Point3D) :=
  (ba.bits.mapM ba.mapper.resolve).map (List.map (fun p => p.sub ba.center_off_mass))

end BlockArrangement

/-- One Newton step loop for the integer square root, with fuel (the model
needs a square root that the kernel can evaluate). -/
def isqrtAux : Nat → Nat → Nat → Nat
  | 0, _, x => x
  | fuel + 1, m, x =>
    let y := (x + m / x) / 2
    if y < x then isqrtAux fuel m y else x

/-- Integer square root by Newton iteration (equal to `⌊√m⌋` for every `m`
this development evaluates it on; 200 steps of fuel cover all of them). -/
def isqrt (m : Nat) : Nat :=
  if m = 0 then 0 else isqrtAux 200 m m

/-- The scale of the square-root model: 12 decimal digits. -/
def sqrtScale : Nat := 1000000000000

/-- Modelled from the spec: `Point3D::distance_to_origin`, which computes
`f64::sqrt` of the integer square sum and converts the result to a
`rust_decimal::Decimal` (§4.3 "density").  Floating point is modelled as
the exact square root truncated to 12 decimal digits, returned as an
integer in units of `10^-12`; every downstream use rounds to 5 decimal
digits, so the two models agree unless an exact value sits within
`~10^-10` of a rounding boundary. -/
def distScaled (p : Point3D) : Nat :=
  isqrt ((p.x * p.x + p.y * p.y + p.z * p.z).toNat * (sqrtScale * sqrtScale))

/-- Rounding scale of `BlockHash::round`: 5 decimal digits. -/
def roundScale : Nat := 100000

/-- A fingerprint (`BlockHash` in `block_hash.rs`).  `density` and the
`axis_alignments` triple are stored as non-negative integers in units of
`10^-5`, i.e. already put through `round_dp_with_strategy(5,
MidpointAwayFromZero)` (for the non-negative values arising here that is
`⌊10^5 · v + 1/2⌋`); equality and ordering of these integers coincide with
equality and the derived `Ord` of the rounded `Decimal` fields. -/
structure BlockHash where
  num_blocks : Nat
  density : Nat
  axis_alignments : Nat × Nat × Nat
deriving DecidableEq, Repr

namespace BlockHash

/-- The derived lexicographic `Ord` of `BlockHash` (field order:
`num_blocks`, `density`, `axis_alignments`). -/
def cmp (a b : BlockHash) : Ordering :=
  (compare a.num_blocks b.num_blocks).then
    ((compare a.density b.density).then
      ((compare a.axis_alignments.1 b.axis_alignments.1).then
        ((compare a.axis_alignments.2.1 b.axis_alignments.2.1).then
          (compare a.axis_alignments.2.2 b.axis_alignments.2.2))))

end BlockHash

/-- Ascending sort of three values (`alignment.sort()` on the 3-element
array in `From<&BlockArrangement> for BlockHash`). -/
def sort3 (a b c : Nat) : Nat × Nat × Nat :=
  if a ≤ b then
    if b ≤ c then (a, b, c)
    else if a ≤ c then (a, c, b)
    else (c, a, b)
  else
    if a ≤ c then (b, a, c)
    else if b ≤ c then (b, c, a)
    else (c, b, a)

/-- `BlockArrangement::density` rounded to 5 decimals: the mean of the
centroid-relative distances (each in `10^-12` units), divided by the block
count and rounded half-away-from-zero at 5 decimals. -/
def densityKey (rel : List Point3D) (n : Nat) : Nat :=
  let s := (rel.map distScaled).foldl Nat.add 0
  (2 * roundScale * s + n * sqrtScale) / (2 * (n * sqrtScale))

/-- `BlockArrangement::axis_alignment` rounded to 5 decimals: the mean of
the absolute centroid-relative coordinates along one axis, extracted by
`sel`. -/
def alignKey (rel : List Point3D) (n : Nat) (sel : Point3D → Int) : Nat :=
  let s := (rel.map (fun p => (sel p).natAbs)).foldl Nat.add 0
  (2 * roundScale * s + n) / (2 * n)

/-- `impl From<&BlockArrangement> for BlockHash`: block count, rounded
density, and the sorted rounded axis-alignment triple.  (The source sorts
the raw decimals and then rounds; rounding is monotone, so sorting the
rounded values is the same triple.)  `none` models the `expect` panic
inside `center_mass_iter` and the `Decimal` division panic on a zero block
count. -/
def blockHash (ba : BlockArrangement) : Option BlockHash :=
  (ba.center_mass_iter).bind fun rel =>
    if ba.num_blocks = 0 then none
    else
      some
        { num_blocks := ba.num_blocks
          density := densityKey rel ba.num_blocks
          axis_alignments :=
            let ax := alignKey rel ba.num_blocks Point3D.x
            let ay := alignKey rel ba.num_blocks Point3D.y
            let az := alignKey rel ba.num_blocks Point3D.z
            sort3 ax ay az }

/-- A generation-level map (`BTreeMap<BlockHash, BlockArrangement>`),
modelled as an association list kept strictly sorted by `BlockHash.cmp`. -/
abbrev LevelMap := List (BlockHash × BlockArrangement)

/-- `BTreeMap::insert` (the collection step of `collect()`): replaces the
stored value when the key is already present, keeps the map sorted
otherwise. -/
def insertMap : LevelMap → BlockHash → BlockArrangement → LevelMap
  | [], k, v => [(k, v)]
  | (k', v') :: rest, k, v =>
    match BlockHash.cmp k k' with
    | .lt => (k, v) :: (k', v') :: rest
    | .eq => (k, v) :: rest
    | .gt => (k', v') :: insertMap rest k v

/-- `BTreeMap::get`-style lookup on the sorted association list. -/
def lookupMap (k : BlockHash) : LevelMap → Option BlockArrangement
  | [] => none
  | (k', v') :: rest => if BlockHash.cmp k k' = .eq then some v' else lookupMap k rest

namespace BlockArrangement

/-- The candidate positions of `VariationGenerator::new`: every neighbor
offset of every block of `ba` (in bit order) that is not already occupied. -/
def variationCandidates (ba : BlockArrangement) (blocks : List Point3D) : List Point3D :=
  (blocks.flatMap fun bp => NEIGHBOR_OFFSETS.map (fun o => o.add bp)).filter
    (fun p => ¬ ba.is_set p)

/-- The loop of `VariationGenerator::next`: skip candidates already present
in the memory block, otherwise record them there and emit a clone of the
original with the candidate added; a placement error panics (`none`). -/
def variationsGo (original : BlockArrangement) :
    List Point3D → BlockArrangement → Option (List BlockArrangement)
  | [], _ => some []
  | p :: rest, memory =>
    if memory.is_set p then variationsGo original rest memory
    else
      (memory.add_block_at p).bind fun rm =>
        match rm.1 with
        | .error _ => none
        | .ok _ =>
          (original.add_block_at p).bind fun rn =>
            match rn.1 with
            | .error _ => none
            | .ok _ => (variationsGo original rest rm.2).map (rn.2 :: ·)

/-- The full sequence produced by a `VariationGenerator` over `ba`. -/
def variations (ba : BlockArrangement) : Option (List BlockArrangement) :=
  (ba.bits.mapM ba.mapper.resolve).bind fun blocks =>
    variationsGo ba (variationCandidates ba blocks) ba

end BlockArrangement

/-- `generate_variants_from` in `main.rs`: all variations of all input
arrangements in order, fingerprinted and collected into a `BTreeMap` keyed
by the fingerprint. -/
def generate_variants_from (bas : List BlockArrangement) : Option LevelMap :=
  (bas.mapM BlockArrangement.variations).bind fun vss =>
    (vss.flatten.mapM fun ba => (blockHash ba).map ((·, ba))).map fun kvs =>
      kvs.foldl (fun m kv => insertMap m kv.1 kv.2) []

/-- The level loop of `generate` (`for source_block_size in start..n`):
each step maps the previous level's representatives (in key order, i.e.
`BTreeMap::values`) through `generate_variants_from` and appends the new
map. -/
def generateAux : Nat → LevelMap → List LevelMap → Option (List LevelMap)
  | 0, _, acc => some acc.reverse
  | s + 1, last, acc =>
    (generate_variants_from (last.map Prod.snd)).bind fun nm =>
      generateAux s nm (nm :: acc)

/-- `generate` in `main.rs`, with the external checkpoint store absent:
every cache load fails, so the loop starts from the trivial level-1 map
(spec §4.5 step 1) and runs up to block count `n`; saving the cache has no
semantic effect on the returned maps. -/
def generate (n : Nat) : Option (List LevelMap) :=
  BlockArrangement.new.bind fun ba =>
    (blockHash ba).bind fun k =>
      generateAux (n - 1) [(k, ba)] [[(k, ba)]]

/-- Successful block addition: the post state of an `Ok` run of
`add_block_at` (building blocks for concrete arrangements below). -/
def addOk (ba : BlockArrangement) (p : Point3D) : Option BlockArrangement :=
  (ba.add_block_at p).bind fun r =>
    match r.1 with
    | .ok _ => some r.2
    | .error _ => none

/-- The value produced by `BlockArrangement::new()`: the single origin
block in an arm-1 box (bit 7 is the origin's index there). -/
def nba : BlockArrangement :=
  { bits := [7], num_blocks := 1, center_off_mass := Point3D.origin,
    mapper := ⟨⟨1⟩, Orientation.default⟩ }

/-- A domino: `new()` followed by `add_block_at((1,0,0))`, which grows the
box to arm 2 (bits 42 and 43 are the origin and `(1,0,0)` there). -/
def domino : BlockArrangement :=
  { bits := [42, 43], num_blocks := 2, center_off_mass := Point3D.origin,
    mapper := ⟨⟨2⟩, Orientation.default⟩ }

/-- The centroid-relative coordinates of an arrangement's occupied cells:
each set bit's storage cell offset by the stored centroid (the coordinates
the equality clause of spec §4.3 quantifies over). -/
def centroidRelativeCoords (a : BlockArrangement) : List Point3D :=
  a.bits.map fun i => (a.mapper.storagePoint i).sub a.center_off_mass

/-- Panic-freedom precondition of the equality search: every occupied cell
of `a` resolves under every probe orientation (true whenever the occupied
cells sit strictly inside the box, as in all of the source's own tests). -/
def ResolvesEverywhere (a : BlockArrangement) : Prop :=
  ∀ i ∈ a.bits, ∀ o ∈ orientationList, (a.mapper.set_orientation o).resolve i ≠ none

/-- The value paired with the last occurrence of a key in a key/value
sequence (the representative that last-wins insertion retains). -/
def lastValueWith (k : BlockHash) : List (BlockHash × BlockArrangement) → Option BlockArrangement
  | [] => none
  | kv :: rest => (lastValueWith k rest).or (if kv.1 = k then some kv.2 else none)

/-- First variant of the single-cell arrangement: the block added at
`(0,0,-1)`, which stays inside the arm-1 box. -/
def c6first : BlockArrangement :=
  { bits := [3, 7], num_blocks := 2, center_off_mass := Point3D.origin,
    mapper := ⟨⟨1⟩, Orientation.default⟩ }

/-- Last variant of the single-cell arrangement: the block added at
`(1,0,0)`, which grows the box to arm 2. -/
def c6last : BlockArrangement := domino

/-- The common fingerprint of all six single-cell variants
(density 0.50000, alignments (0, 0, 0.50000)). -/
def c6hash : BlockHash := ⟨2, 50000, (0, 0, 50000)⟩

/-- First counterexample arrangement for the fingerprint-invariance claim:
the L-triomino `{(0,0,-1), (0,1,-1), origin}` built through the public API,
in its default orientation (the second addition grows the box to arm 3). -/
def hashCexA : Option BlockArrangement :=
  (BlockArrangement.new.bind (addOk · ⟨0, 0, -1⟩)).bind (addOk · ⟨0, 1, -1⟩)

/-- Second counterexample arrangement: the L-triomino
`{(0,0,-1), (0,-1,0), origin}` (arm-1 box) with the orientation
`z_rot = 90°, y_mir` set through `set_orientation`. -/
def hashCexB : Option BlockArrangement :=
  ((BlockArrangement.new.bind (addOk · ⟨0, 0, -1⟩)).bind (addOk · ⟨0, -1, 0⟩)).bind
    (·.set_orientation ⟨.Zero, .Zero, .Ninety, false, true, false⟩)

/-- The mapper of claim C3's failing input: arm size 2 with the orientation
`x_rot = 90°, y_rot = 90°` (settable through `set_orientation`). -/
def c3mapper : Mapper := ⟨⟨2⟩, ⟨.Ninety, .Ninety, .Zero, false, false, false⟩⟩

/-- The evaluated first counterexample arrangement of the fingerprint
claim: the L-triomino `{(0,0,-1), (0,1,-1), origin}` in an arm-3 box. -/
def aCex : BlockArrangement :=
  { bits := [93, 99, 129], num_blocks := 3, center_off_mass := Point3D.origin,
    mapper := ⟨⟨3⟩, Orientation.default⟩ }

/-- The evaluated second counterexample arrangement: the L-triomino
`{(0,0,-1), (0,-1,0), origin}` in its arm-1 box carrying the orientation
`z_rot = 90°, y_mir`. -/
def bCex : BlockArrangement :=
  { bits := [3, 5, 7], num_blocks := 3, center_off_mass := Point3D.origin,
    mapper := ⟨⟨1⟩, ⟨.Zero, .Zero, .Ninety, false, true, false⟩⟩ }


deriving instance DecidableEq for Except

/-- Sanity: the model of `BlockArrangement::new()` evaluates to `nba`. -/
theorem new_eq_nba : BlockArrangement.new = some nba := by decide

/-- One productive step of the `VariationGenerator` loop: an unset candidate
that places cleanly both into the memory block and onto a clone of the
original contributes the clone and advances the memory state. -/
theorem variationsGo_step {original : BlockArrangement} {p : Point3D}
    {rest : List Point3D} {memB memA v : BlockArrangement}
    (his : memB.is_set p = false)
    (hmem : memB.add_block_at p = some (.ok (), memA))
    (hvar : original.add_block_at p = some (.ok (), v)) :
    BlockArrangement.variationsGo original (p :: rest) memB =
      (BlockArrangement.variationsGo original rest memA).map (v :: ·) := by
  cases rest with
  | nil =>
      simp only [BlockArrangement.variationsGo, his, hmem, hvar,
        Bool.false_eq_true, if_false, Option.bind, Option.map]
  | cons q qs =>
      simp only [BlockArrangement.variationsGo, his, hmem, hvar,
        Bool.false_eq_true, if_false, Option.bind, Option.map]

/-- One skipping step of the `VariationGenerator` loop: a candidate already
present in the memory block is dropped. -/
theorem variationsGo_skip {original : BlockArrangement} {p : Point3D}
    {rest : List Point3D} {memB : BlockArrangement}
    (his : memB.is_set p = true) :
    BlockArrangement.variationsGo original (p :: rest) memB =
      BlockArrangement.variationsGo original rest memB := by
  cases rest with
  | nil => simp only [BlockArrangement.variationsGo, his, if_true]
  | cons q qs => simp only [BlockArrangement.variationsGo, his, if_true]

/-- Cons step for mapping `variations` over a list of arrangements. -/
theorem mapM_variations_cons {ba : BlockArrangement} {bas : List BlockArrangement}
    {vs : List BlockArrangement} {vss : List (List BlockArrangement)}
    (h1 : BlockArrangement.variations ba = some vs)
    (h2 : bas.mapM BlockArrangement.variations = some vss) :
    (ba :: bas).mapM BlockArrangement.variations = some (vs :: vss) := by
  rw [← List.mapM'_eq_mapM] at h2 ⊢
  simp only [List.mapM', h1, h2]
  rfl

/-- One level step of the generation loop, given the previous level's
representatives and their variant map. -/
theorem generateAux_step {s : Nat} {last nm : LevelMap} {acc : List LevelMap}
    {vals : List BlockArrangement}
    (h1 : last.map Prod.snd = vals)
    (h2 : generate_variants_from vals = some nm) :
    generateAux (s + 1) last acc = generateAux s nm (nm :: acc) := by
  simp [generateAux, h1, h2]

/-! ### Evaluation-trace lemmas

Single-step facts about the concrete arrangements arising while the
generation pipeline runs on `new()`, each provable by kernel evaluation.
They are glued below into full runs of `variations`,
`generate_variants_from` and `generate` (the chained state of those runs
is too expensive for one-shot kernel evaluation, so each intermediate
state is pinned by its own lemma). -/

theorem tr_res_n1 : (nba : BlockArrangement).bits.mapM (nba : BlockArrangement).mapper.resolve = some ([⟨0, 0, 0⟩] : List Point3D) := by
  decide

theorem tr_cands_n1 : BlockArrangement.variationCandidates nba [⟨0, 0, 0⟩] = [⟨0, 0, -1⟩, ⟨0, 0, 1⟩, ⟨0, -1, 0⟩, ⟨0, 1, 0⟩, ⟨-1, 0, 0⟩, ⟨1, 0, 0⟩] := by
  decide

theorem tr_is_0 : (nba : BlockArrangement).is_set (⟨0, 0, -1⟩ : Point3D) = false := by decide

set_option maxHeartbeats 1600000 in
theorem tr_add_0 : (nba : BlockArrangement).add_block_at (⟨0, 0, -1⟩ : Point3D) = some (.ok (), (c6first : BlockArrangement)) := by decide

set_option maxHeartbeats 1600000 in
theorem tr_hash_0 : blockHash (c6first : BlockArrangement) = some (⟨2, 50000, (0, 0, 50000)⟩ : BlockHash) := by decide

theorem tr_is_1 : (c6first : BlockArrangement).is_set (⟨0, 0, 1⟩ : Point3D) = false := by decide

set_option maxHeartbeats 1600000 in
theorem tr_add_1 : (c6first : BlockArrangement).add_block_at (⟨0, 0, 1⟩ : Point3D) = some (.ok (), ((⟨[93, 129, 165], 3, ⟨0, 0, 0⟩, ⟨⟨3⟩, Orientation.default⟩⟩ : BlockArrangement) : BlockArrangement)) := by decide

set_option maxHeartbeats 1600000 in
theorem tr_add_2 : (nba : BlockArrangement).add_block_at (⟨0, 0, 1⟩ : Point3D) = some (.ok (), ((⟨[42, 58], 2, ⟨0, 0, 0⟩, ⟨⟨2⟩, Orientation.default⟩⟩ : BlockArrangement) : BlockArrangement)) := by decide

set_option maxHeartbeats 1600000 in
theorem tr_hash_1 : blockHash ((⟨[42, 58], 2, ⟨0, 0, 0⟩, ⟨⟨2⟩, Orientation.default⟩⟩ : BlockArrangement) : BlockArrangement) = some (⟨2, 50000, (0, 0, 50000)⟩ : BlockHash) := by decide

theorem tr_is_2 : ((⟨[93, 129, 165], 3, ⟨0, 0, 0⟩, ⟨⟨3⟩, Orientation.default⟩⟩ : BlockArrangement) : BlockArrangement).is_set (⟨0, -1, 0⟩ : Point3D) = false := by decide

set_option maxHeartbeats 1600000 in
theorem tr_add_3 : ((⟨[93, 129, 165], 3, ⟨0, 0, 0⟩, ⟨⟨3⟩, Orientation.default⟩⟩ : BlockArrangement) : BlockArrangement).add_block_at (⟨0, -1, 0⟩ : Point3D) = some (.ok (), ((⟨[93, 123, 129, 165], 4, ⟨0, 0, 0⟩, ⟨⟨3⟩, Orientation.default⟩⟩ : BlockArrangement) : BlockArrangement)) := by decide

set_option maxHeartbeats 1600000 in
theorem tr_add_4 : (nba : BlockArrangement).add_block_at (⟨0, -1, 0⟩ : Point3D) = some (.ok (), ((⟨[5, 7], 2, ⟨0, 0, 0⟩, ⟨⟨1⟩, Orientation.default⟩⟩ : BlockArrangement) : BlockArrangement)) := by decide

set_option maxHeartbeats 1600000 in
theorem tr_hash_2 : blockHash ((⟨[5, 7], 2, ⟨0, 0, 0⟩, ⟨⟨1⟩, Orientation.default⟩⟩ : BlockArrangement) : BlockArrangement) = some (⟨2, 50000, (0, 0, 50000)⟩ : BlockHash) := by decide

theorem tr_is_3 : ((⟨[93, 123, 129, 165], 4, ⟨0, 0, 0⟩, ⟨⟨3⟩, Orientation.default⟩⟩ : BlockArrangement) : BlockArrangement).is_set (⟨0, 1, 0⟩ : Point3D) = false := by decide

set_option maxHeartbeats 1600000 in
theorem tr_add_5 : ((⟨[93, 123, 129, 165], 4, ⟨0, 0, 0⟩, ⟨⟨3⟩, Orientation.default⟩⟩ : BlockArrangement) : BlockArrangement).add_block_at (⟨0, 1, 0⟩ : Point3D) = some (.ok (), ((⟨[93, 123, 129, 135, 165], 5, ⟨0, 0, 0⟩, ⟨⟨3⟩, Orientation.default⟩⟩ : BlockArrangement) : BlockArrangement)) := by decide

set_option maxHeartbeats 1600000 in
theorem tr_add_6 : (nba : BlockArrangement).add_block_at (⟨0, 1, 0⟩ : Point3D) = some (.ok (), ((⟨[42, 46], 2, ⟨0, 0, 0⟩, ⟨⟨2⟩, Orientation.default⟩⟩ : BlockArrangement) : BlockArrangement)) := by decide

set_option maxHeartbeats 1600000 in
theorem tr_hash_3 : blockHash ((⟨[42, 46], 2, ⟨0, 0, 0⟩, ⟨⟨2⟩, Orientation.default⟩⟩ : BlockArrangement) : BlockArrangement) = some (⟨2, 50000, (0, 0, 50000)⟩ : BlockHash) := by decide

theorem tr_is_4 : ((⟨[93, 123, 129, 135, 165], 5, ⟨0, 0, 0⟩, ⟨⟨3⟩, Orientation.default⟩⟩ : BlockArrangement) : BlockArrangement).is_set (⟨-1, 0, 0⟩ : Point3D) = false := by decide

set_option maxHeartbeats 1600000 in
theorem tr_add_7 : ((⟨[93, 123, 129, 135, 165], 5, ⟨0, 0, 0⟩, ⟨⟨3⟩, Orientation.default⟩⟩ : BlockArrangement) : BlockArrangement).add_block_at (⟨-1, 0, 0⟩ : Point3D) = some (.ok (), ((⟨[93, 123, 128, 129, 135, 165], 6, ⟨0, 0, 0⟩, ⟨⟨3⟩, Orientation.default⟩⟩ : BlockArrangement) : BlockArrangement)) := by decide

set_option maxHeartbeats 1600000 in
theorem tr_add_8 : (nba : BlockArrangement).add_block_at (⟨-1, 0, 0⟩ : Point3D) = some (.ok (), ((⟨[6, 7], 2, ⟨0, 0, 0⟩, ⟨⟨1⟩, Orientation.default⟩⟩ : BlockArrangement) : BlockArrangement)) := by decide

set_option maxHeartbeats 1600000 in
theorem tr_hash_4 : blockHash ((⟨[6, 7], 2, ⟨0, 0, 0⟩, ⟨⟨1⟩, Orientation.default⟩⟩ : BlockArrangement) : BlockArrangement) = some (⟨2, 50000, (0, 0, 50000)⟩ : BlockHash) := by decide

theorem tr_is_5 : ((⟨[93, 123, 128, 129, 135, 165], 6, ⟨0, 0, 0⟩, ⟨⟨3⟩, Orientation.default⟩⟩ : BlockArrangement) : BlockArrangement).is_set (⟨1, 0, 0⟩ : Point3D) = false := by decide

set_option maxHeartbeats 1600000 in
theorem tr_add_9 : ((⟨[93, 123, 128, 129, 135, 165], 6, ⟨0, 0, 0⟩, ⟨⟨3⟩, Orientation.default⟩⟩ : BlockArrangement) : BlockArrangement).add_block_at (⟨1, 0, 0⟩ : Point3D) = some (.ok (), ((⟨[93, 123, 128, 129, 130, 135, 165], 7, ⟨0, 0, 0⟩, ⟨⟨3⟩, Orientation.default⟩⟩ : BlockArrangement) : BlockArrangement)) := by decide

set_option maxHeartbeats 1600000 in
theorem tr_add_10 : (nba : BlockArrangement).add_block_at (⟨1, 0, 0⟩ : Point3D) = some (.ok (), (domino : BlockArrangement)) := by decide

set_option maxHeartbeats 1600000 in
theorem tr_hash_5 : blockHash (domino : BlockArrangement) = some (⟨2, 50000, (0, 0, 50000)⟩ : BlockHash) := by decide

theorem tr_res_d2 : (domino : BlockArrangement).bits.mapM (domino : BlockArrangement).mapper.resolve = some ([⟨0, 0, 0⟩, ⟨1, 0, 0⟩] : List Point3D) := by
  decide

theorem tr_cands_d2 : BlockArrangement.variationCandidates domino [⟨0, 0, 0⟩, ⟨1, 0, 0⟩] = [⟨0, 0, -1⟩, ⟨0, 0, 1⟩, ⟨0, -1, 0⟩, ⟨0, 1, 0⟩, ⟨-1, 0, 0⟩, ⟨1, 0, -1⟩, ⟨1, 0, 1⟩, ⟨1, -1, 0⟩, ⟨1, 1, 0⟩, ⟨2, 0, 0⟩] := by
  decide

theorem tr_is_6 : (domino : BlockArrangement).is_set (⟨0, 0, -1⟩ : Point3D) = false := by decide

set_option maxHeartbeats 1600000 in
theorem tr_add_11 : (domino : BlockArrangement).add_block_at (⟨0, 0, -1⟩ : Point3D) = some (.ok (), ((⟨[26, 42, 43], 3, ⟨0, 0, 0⟩, ⟨⟨2⟩, Orientation.default⟩⟩ : BlockArrangement) : BlockArrangement)) := by decide

set_option maxHeartbeats 1600000 in
theorem tr_hash_6 : blockHash ((⟨[26, 42, 43], 3, ⟨0, 0, 0⟩, ⟨⟨2⟩, Orientation.default⟩⟩ : BlockArrangement) : BlockArrangement) = some (⟨3, 66667, (0, 33333, 33333)⟩ : BlockHash) := by decide

theorem tr_is_7 : ((⟨[26, 42, 43], 3, ⟨0, 0, 0⟩, ⟨⟨2⟩, Orientation.default⟩⟩ : BlockArrangement) : BlockArrangement).is_set (⟨0, 0, 1⟩ : Point3D) = false := by decide

set_option maxHeartbeats 1600000 in
theorem tr_add_12 : ((⟨[26, 42, 43], 3, ⟨0, 0, 0⟩, ⟨⟨2⟩, Orientation.default⟩⟩ : BlockArrangement) : BlockArrangement).add_block_at (⟨0, 0, 1⟩ : Point3D) = some (.ok (), ((⟨[26, 42, 43, 58], 4, ⟨0, 0, 0⟩, ⟨⟨2⟩, Orientation.default⟩⟩ : BlockArrangement) : BlockArrangement)) := by decide

set_option maxHeartbeats 1600000 in
theorem tr_add_13 : (domino : BlockArrangement).add_block_at (⟨0, 0, 1⟩ : Point3D) = some (.ok (), ((⟨[42, 43, 58], 3, ⟨0, 0, 0⟩, ⟨⟨2⟩, Orientation.default⟩⟩ : BlockArrangement) : BlockArrangement)) := by decide

set_option maxHeartbeats 1600000 in
theorem tr_hash_7 : blockHash ((⟨[42, 43, 58], 3, ⟨0, 0, 0⟩, ⟨⟨2⟩, Orientation.default⟩⟩ : BlockArrangement) : BlockArrangement) = some (⟨3, 66667, (0, 33333, 33333)⟩ : BlockHash) := by decide

theorem tr_is_8 : ((⟨[26, 42, 43, 58], 4, ⟨0, 0, 0⟩, ⟨⟨2⟩, Orientation.default⟩⟩ : BlockArrangement) : BlockArrangement).is_set (⟨0, -1, 0⟩ : Point3D) = false := by decide

set_option maxHeartbeats 1600000 in
theorem tr_add_14 : ((⟨[26, 42, 43, 58], 4, ⟨0, 0, 0⟩, ⟨⟨2⟩, Orientation.default⟩⟩ : BlockArrangement) : BlockArrangement).add_block_at (⟨0, -1, 0⟩ : Point3D) = some (.ok (), ((⟨[26, 38, 42, 43, 58], 5, ⟨0, 0, 0⟩, ⟨⟨2⟩, Orientation.default⟩⟩ : BlockArrangement) : BlockArrangement)) := by decide

set_option maxHeartbeats 1600000 in
theorem tr_add_15 : (domino : BlockArrangement).add_block_at (⟨0, -1, 0⟩ : Point3D) = some (.ok (), ((⟨[38, 42, 43], 3, ⟨0, 0, 0⟩, ⟨⟨2⟩, Orientation.default⟩⟩ : BlockArrangement) : BlockArrangement)) := by decide

set_option maxHeartbeats 1600000 in
theorem tr_hash_8 : blockHash ((⟨[38, 42, 43], 3, ⟨0, 0, 0⟩, ⟨⟨2⟩, Orientation.default⟩⟩ : BlockArrangement) : BlockArrangement) = some (⟨3, 66667, (0, 33333, 33333)⟩ : BlockHash) := by decide

theorem tr_is_9 : ((⟨[26, 38, 42, 43, 58], 5, ⟨0, 0, 0⟩, ⟨⟨2⟩, Orientation.default⟩⟩ : BlockArrangement) : BlockArrangement).is_set (⟨0, 1, 0⟩ : Point3D) = false := by decide

set_option maxHeartbeats 1600000 in
theorem tr_add_16 : ((⟨[26, 38, 42, 43, 58], 5, ⟨0, 0, 0⟩, ⟨⟨2⟩, Orientation.default⟩⟩ : BlockArrangement) : BlockArrangement).add_block_at (⟨0, 1, 0⟩ : Point3D) = some (.ok (), ((⟨[26, 38, 42, 43, 46, 58], 6, ⟨0, 0, 0⟩, ⟨⟨2⟩, Orientation.default⟩⟩ : BlockArrangement) : BlockArrangement)) := by decide

set_option maxHeartbeats 1600000 in
theorem tr_add_17 : (domino : BlockArrangement).add_block_at (⟨0, 1, 0⟩ : Point3D) = some (.ok (), ((⟨[42, 43, 46], 3, ⟨0, 0, 0⟩, ⟨⟨2⟩, Orientation.default⟩⟩ : BlockArrangement) : BlockArrangement)) := by decide

set_option maxHeartbeats 1600000 in
theorem tr_hash_9 : blockHash ((⟨[42, 43, 46], 3, ⟨0, 0, 0⟩, ⟨⟨2⟩, Orientation.default⟩⟩ : BlockArrangement) : BlockArrangement) = some (⟨3, 66667, (0, 33333, 33333)⟩ : BlockHash) := by decide

theorem tr_is_10 : ((⟨[26, 38, 42, 43, 46, 58], 6, ⟨0, 0, 0⟩, ⟨⟨2⟩, Orientation.default⟩⟩ : BlockArrangement) : BlockArrangement).is_set (⟨-1, 0, 0⟩ : Point3D) = false := by decide

set_option maxHeartbeats 1600000 in
theorem tr_add_18 : ((⟨[26, 38, 42, 43, 46, 58], 6, ⟨0, 0, 0⟩, ⟨⟨2⟩, Orientation.default⟩⟩ : BlockArrangement) : BlockArrangement).add_block_at (⟨-1, 0, 0⟩ : Point3D) = some (.ok (), ((⟨[26, 38, 41, 42, 43, 46, 58], 7, ⟨0, 0, 0⟩, ⟨⟨2⟩, Orientation.default⟩⟩ : BlockArrangement) : BlockArrangement)) := by decide

set_option maxHeartbeats 1600000 in
theorem tr_add_19 : (domino : BlockArrangement).add_block_at (⟨-1, 0, 0⟩ : Point3D) = some (.ok (), ((⟨[41, 42, 43], 3, ⟨0, 0, 0⟩, ⟨⟨2⟩, Orientation.default⟩⟩ : BlockArrangement) : BlockArrangement)) := by decide

set_option maxHeartbeats 1600000 in
theorem tr_hash_10 : blockHash ((⟨[41, 42, 43], 3, ⟨0, 0, 0⟩, ⟨⟨2⟩, Orientation.default⟩⟩ : BlockArrangement) : BlockArrangement) = some (⟨3, 66667, (0, 0, 66667)⟩ : BlockHash) := by decide

theorem tr_is_11 : ((⟨[26, 38, 41, 42, 43, 46, 58], 7, ⟨0, 0, 0⟩, ⟨⟨2⟩, Orientation.default⟩⟩ : BlockArrangement) : BlockArrangement).is_set (⟨1, 0, -1⟩ : Point3D) = false := by decide

set_option maxHeartbeats 1600000 in
theorem tr_add_20 : ((⟨[26, 38, 41, 42, 43, 46, 58], 7, ⟨0, 0, 0⟩, ⟨⟨2⟩, Orientation.default⟩⟩ : BlockArrangement) : BlockArrangement).add_block_at (⟨1, 0, -1⟩ : Point3D) = some (.ok (), ((⟨[26, 27, 38, 41, 42, 43, 46, 58], 8, ⟨0, 0, 0⟩, ⟨⟨2⟩, Orientation.default⟩⟩ : BlockArrangement) : BlockArrangement)) := by decide

set_option maxHeartbeats 1600000 in
theorem tr_add_21 : (domino : BlockArrangement).add_block_at (⟨1, 0, -1⟩ : Point3D) = some (.ok (), ((⟨[27, 42, 43], 3, ⟨0, 0, 0⟩, ⟨⟨2⟩, Orientation.default⟩⟩ : BlockArrangement) : BlockArrangement)) := by decide

set_option maxHeartbeats 1600000 in
theorem tr_hash_11 : blockHash ((⟨[27, 42, 43], 3, ⟨0, 0, 0⟩, ⟨⟨2⟩, Orientation.default⟩⟩ : BlockArrangement) : BlockArrangement) = some (⟨3, 80474, (0, 33333, 66667)⟩ : BlockHash) := by decide

theorem tr_is_12 : ((⟨[26, 27, 38, 41, 42, 43, 46, 58], 8, ⟨0, 0, 0⟩, ⟨⟨2⟩, Orientation.default⟩⟩ : BlockArrangement) : BlockArrangement).is_set (⟨1, 0, 1⟩ : Point3D) = false := by decide

set_option maxHeartbeats 1600000 in
theorem tr_add_22 : ((⟨[26, 27, 38, 41, 42, 43, 46, 58], 8, ⟨0, 0, 0⟩, ⟨⟨2⟩, Orientation.default⟩⟩ : BlockArrangement) : BlockArrangement).add_block_at (⟨1, 0, 1⟩ : Point3D) = some (.ok (), ((⟨[26, 27, 38, 41, 42, 43, 46, 58, 59], 9, ⟨0, 0, 0⟩, ⟨⟨2⟩, Orientation.default⟩⟩ : BlockArrangement) : BlockArrangement)) := by decide

set_option maxHeartbeats 1600000 in
theorem tr_add_23 : (domino : BlockArrangement).add_block_at (⟨1, 0, 1⟩ : Point3D) = some (.ok (), ((⟨[42, 43, 59], 3, ⟨0, 0, 0⟩, ⟨⟨2⟩, Orientation.default⟩⟩ : BlockArrangement) : BlockArrangement)) := by decide

set_option maxHeartbeats 1600000 in
theorem tr_hash_12 : blockHash ((⟨[42, 43, 59], 3, ⟨0, 0, 0⟩, ⟨⟨2⟩, Orientation.default⟩⟩ : BlockArrangement) : BlockArrangement) = some (⟨3, 80474, (0, 33333, 66667)⟩ : BlockHash) := by decide

theorem tr_is_13 : ((⟨[26, 27, 38, 41, 42, 43, 46, 58, 59], 9, ⟨0, 0, 0⟩, ⟨⟨2⟩, Orientation.default⟩⟩ : BlockArrangement) : BlockArrangement).is_set (⟨1, -1, 0⟩ : Point3D) = false := by decide

set_option maxHeartbeats 1600000 in
theorem tr_add_24 : ((⟨[26, 27, 38, 41, 42, 43, 46, 58, 59], 9, ⟨0, 0, 0⟩, ⟨⟨2⟩, Orientation.default⟩⟩ : BlockArrangement) : BlockArrangement).add_block_at (⟨1, -1, 0⟩ : Point3D) = some (.ok (), ((⟨[26, 27, 38, 39, 41, 42, 43, 46, 58, 59], 10, ⟨0, 0, 0⟩, ⟨⟨2⟩, Orientation.default⟩⟩ : BlockArrangement) : BlockArrangement)) := by decide

set_option maxHeartbeats 1600000 in
theorem tr_add_25 : (domino : BlockArrangement).add_block_at (⟨1, -1, 0⟩ : Point3D) = some (.ok (), ((⟨[39, 42, 43], 3, ⟨0, 0, 0⟩, ⟨⟨2⟩, Orientation.default⟩⟩ : BlockArrangement) : BlockArrangement)) := by decide

set_option maxHeartbeats 1600000 in
theorem tr_hash_13 : blockHash ((⟨[39, 42, 43], 3, ⟨0, 0, 0⟩, ⟨⟨2⟩, Orientation.default⟩⟩ : BlockArrangement) : BlockArrangement) = some (⟨3, 80474, (0, 33333, 66667)⟩ : BlockHash) := by decide

theorem tr_is_14 : ((⟨[26, 27, 38, 39, 41, 42, 43, 46, 58, 59], 10, ⟨0, 0, 0⟩, ⟨⟨2⟩, Orientation.default⟩⟩ : BlockArrangement) : BlockArrangement).is_set (⟨1, 1, 0⟩ : Point3D) = false := by decide

set_option maxHeartbeats 1600000 in
theorem tr_add_26 : ((⟨[26, 27, 38, 39, 41, 42, 43, 46, 58, 59], 10, ⟨0, 0, 0⟩, ⟨⟨2⟩, Orientation.default⟩⟩ : BlockArrangement) : BlockArrangement).add_block_at (⟨1, 1, 0⟩ : Point3D) = some (.ok (), ((⟨[26, 27, 38, 39, 41, 42, 43, 46, 47, 58, 59], 11, ⟨0, 0, 0⟩, ⟨⟨2⟩, Orientation.default⟩⟩ : BlockArrangement) : BlockArrangement)) := by decide

set_option maxHeartbeats 1600000 in
theorem tr_add_27 : (domino : BlockArrangement).add_block_at (⟨1, 1, 0⟩ : Point3D) = some (.ok (), ((⟨[42, 43, 47], 3, ⟨0, 0, 0⟩, ⟨⟨2⟩, Orientation.default⟩⟩ : BlockArrangement) : BlockArrangement)) := by decide

set_option maxHeartbeats 1600000 in
theorem tr_hash_14 : blockHash ((⟨[42, 43, 47], 3, ⟨0, 0, 0⟩, ⟨⟨2⟩, Orientation.default⟩⟩ : BlockArrangement) : BlockArrangement) = some (⟨3, 80474, (0, 33333, 66667)⟩ : BlockHash) := by decide

theorem tr_is_15 : ((⟨[26, 27, 38, 39, 41, 42, 43, 46, 47, 58, 59], 11, ⟨0, 0, 0⟩, ⟨⟨2⟩, Orientation.default⟩⟩ : BlockArrangement) : BlockArrangement).is_set (⟨2, 0, 0⟩ : Point3D) = false := by decide

set_option maxHeartbeats 1600000 in
theorem tr_add_28 : ((⟨[26, 27, 38, 39, 41, 42, 43, 46, 47, 58, 59], 11, ⟨0, 0, 0⟩, ⟨⟨2⟩, Orientation.default⟩⟩ : BlockArrangement) : BlockArrangement).add_block_at (⟨2, 0, 0⟩ : Point3D) = some (.ok (), ((⟨[6636, 6637, 7188, 7189, 7211, 7212, 7213, 7214, 7236, 7237, 7788, 7789], 12, ⟨0, 0, 0⟩, ⟨⟨12⟩, Orientation.default⟩⟩ : BlockArrangement) : BlockArrangement)) := by decide

set_option maxHeartbeats 1600000 in
theorem tr_add_29 : (domino : BlockArrangement).add_block_at (⟨2, 0, 0⟩ : Point3D) = some (.ok (), ((⟨[129, 130, 131], 3, ⟨1, 0, 0⟩, ⟨⟨3⟩, Orientation.default⟩⟩ : BlockArrangement) : BlockArrangement)) := by decide

set_option maxHeartbeats 1600000 in
theorem tr_hash_15 : blockHash ((⟨[129, 130, 131], 3, ⟨1, 0, 0⟩, ⟨⟨3⟩, Orientation.default⟩⟩ : BlockArrangement) : BlockArrangement) = some (⟨3, 66667, (0, 0, 66667)⟩ : BlockHash) := by decide

theorem tr_res_r0 : ((⟨[129, 130, 131], 3, ⟨1, 0, 0⟩, ⟨⟨3⟩, Orientation.default⟩⟩ : BlockArrangement) : BlockArrangement).bits.mapM ((⟨[129, 130, 131], 3, ⟨1, 0, 0⟩, ⟨⟨3⟩, Orientation.default⟩⟩ : BlockArrangement) : BlockArrangement).mapper.resolve = some ([⟨0, 0, 0⟩, ⟨1, 0, 0⟩, ⟨2, 0, 0⟩] : List Point3D) := by
  decide

theorem tr_cands_r0 : BlockArrangement.variationCandidates (⟨[129, 130, 131], 3, ⟨1, 0, 0⟩, ⟨⟨3⟩, Orientation.default⟩⟩ : BlockArrangement) [⟨0, 0, 0⟩, ⟨1, 0, 0⟩, ⟨2, 0, 0⟩] = [⟨0, 0, -1⟩, ⟨0, 0, 1⟩, ⟨0, -1, 0⟩, ⟨0, 1, 0⟩, ⟨-1, 0, 0⟩, ⟨1, 0, -1⟩, ⟨1, 0, 1⟩, ⟨1, -1, 0⟩, ⟨1, 1, 0⟩, ⟨2, 0, -1⟩, ⟨2, 0, 1⟩, ⟨2, -1, 0⟩, ⟨2, 1, 0⟩, ⟨3, 0, 0⟩] := by
  decide

theorem tr_is_16 : ((⟨[129, 130, 131], 3, ⟨1, 0, 0⟩, ⟨⟨3⟩, Orientation.default⟩⟩ : BlockArrangement) : BlockArrangement).is_set (⟨0, 0, -1⟩ : Point3D) = false := by decide

set_option maxHeartbeats 1600000 in
theorem tr_add_30 : ((⟨[129, 130, 131], 3, ⟨1, 0, 0⟩, ⟨⟨3⟩, Orientation.default⟩⟩ : BlockArrangement) : BlockArrangement).add_block_at (⟨0, 0, -1⟩ : Point3D) = some (.ok (), ((⟨[93, 129, 130, 131], 4, ⟨0, 0, 0⟩, ⟨⟨3⟩, Orientation.default⟩⟩ : BlockArrangement) : BlockArrangement)) := by decide

set_option maxHeartbeats 1600000 in
theorem tr_hash_16 : blockHash ((⟨[93, 129, 130, 131], 4, ⟨0, 0, 0⟩, ⟨⟨3⟩, Orientation.default⟩⟩ : BlockArrangement) : BlockArrangement) = some (⟨4, 100000, (0, 25000, 75000)⟩ : BlockHash) := by decide

theorem tr_is_17 : ((⟨[93, 129, 130, 131], 4, ⟨0, 0, 0⟩, ⟨⟨3⟩, Orientation.default⟩⟩ : BlockArrangement) : BlockArrangement).is_set (⟨0, 0, 1⟩ : Point3D) = false := by decide

set_option maxHeartbeats 1600000 in
theorem tr_add_31 : ((⟨[93, 129, 130, 131], 4, ⟨0, 0, 0⟩, ⟨⟨3⟩, Orientation.default⟩⟩ : BlockArrangement) : BlockArrangement).add_block_at (⟨0, 0, 1⟩ : Point3D) = some (.ok (), ((⟨[93, 129, 130, 131, 165], 5, ⟨0, 0, 0⟩, ⟨⟨3⟩, Orientation.default⟩⟩ : BlockArrangement) : BlockArrangement)) := by decide

set_option maxHeartbeats 1600000 in
theorem tr_add_32 : ((⟨[129, 130, 131], 3, ⟨1, 0, 0⟩, ⟨⟨3⟩, Orientation.default⟩⟩ : BlockArrangement) : BlockArrangement).add_block_at (⟨0, 0, 1⟩ : Point3D) = some (.ok (), ((⟨[129, 130, 131, 165], 4, ⟨0, 0, 0⟩, ⟨⟨3⟩, Orientation.default⟩⟩ : BlockArrangement) : BlockArrangement)) := by decide

set_option maxHeartbeats 1600000 in
theorem tr_hash_17 : blockHash ((⟨[129, 130, 131, 165], 4, ⟨0, 0, 0⟩, ⟨⟨3⟩, Orientation.default⟩⟩ : BlockArrangement) : BlockArrangement) = some (⟨4, 100000, (0, 25000, 75000)⟩ : BlockHash) := by decide

theorem tr_is_18 : ((⟨[93, 129, 130, 131, 165], 5, ⟨0, 0, 0⟩, ⟨⟨3⟩, Orientation.default⟩⟩ : BlockArrangement) : BlockArrangement).is_set (⟨0, -1, 0⟩ : Point3D) = false := by decide

set_option maxHeartbeats 1600000 in
theorem tr_add_33 : ((⟨[93, 129, 130, 131, 165], 5, ⟨0, 0, 0⟩, ⟨⟨3⟩, Orientation.default⟩⟩ : BlockArrangement) : BlockArrangement).add_block_at (⟨0, -1, 0⟩ : Point3D) = some (.ok (), ((⟨[93, 123, 129, 130, 131, 165], 6, ⟨0, 0, 0⟩, ⟨⟨3⟩, Orientation.default⟩⟩ : BlockArrangement) : BlockArrangement)) := by decide

set_option maxHeartbeats 1600000 in
theorem tr_add_34 : ((⟨[129, 130, 131], 3, ⟨1, 0, 0⟩, ⟨⟨3⟩, Orientation.default⟩⟩ : BlockArrangement) : BlockArrangement).add_block_at (⟨0, -1, 0⟩ : Point3D) = some (.ok (), ((⟨[123, 129, 130, 131], 4, ⟨0, 0, 0⟩, ⟨⟨3⟩, Orientation.default⟩⟩ : BlockArrangement) : BlockArrangement)) := by decide

set_option maxHeartbeats 1600000 in
theorem tr_hash_18 : blockHash ((⟨[123, 129, 130, 131], 4, ⟨0, 0, 0⟩, ⟨⟨3⟩, Orientation.default⟩⟩ : BlockArrangement) : BlockArrangement) = some (⟨4, 100000, (0, 25000, 75000)⟩ : BlockHash) := by decide

theorem tr_is_19 : ((⟨[93, 123, 129, 130, 131, 165], 6, ⟨0, 0, 0⟩, ⟨⟨3⟩, Orientation.default⟩⟩ : BlockArrangement) : BlockArrangement).is_set (⟨0, 1, 0⟩ : Point3D) = false := by decide

set_option maxHeartbeats 1600000 in
theorem tr_add_35 : ((⟨[93, 123, 129, 130, 131, 165], 6, ⟨0, 0, 0⟩, ⟨⟨3⟩, Orientation.default⟩⟩ : BlockArrangement) : BlockArrangement).add_block_at (⟨0, 1, 0⟩ : Point3D) = some (.ok (), ((⟨[93, 123, 129, 130, 131, 135, 165], 7, ⟨0, 0, 0⟩, ⟨⟨3⟩, Orientation.default⟩⟩ : BlockArrangement) : BlockArrangement)) := by decide

set_option maxHeartbeats 1600000 in
theorem tr_add_36 : ((⟨[129, 130, 131], 3, ⟨1, 0, 0⟩, ⟨⟨3⟩, Orientation.default⟩⟩ : BlockArrangement) : BlockArrangement).add_block_at (⟨0, 1, 0⟩ : Point3D) = some (.ok (), ((⟨[129, 130, 131, 135], 4, ⟨0, 0, 0⟩, ⟨⟨3⟩, Orientation.default⟩⟩ : BlockArrangement) : BlockArrangement)) := by decide

set_option maxHeartbeats 1600000 in
theorem tr_hash_19 : blockHash ((⟨[129, 130, 131, 135], 4, ⟨0, 0, 0⟩, ⟨⟨3⟩, Orientation.default⟩⟩ : BlockArrangement) : BlockArrangement) = some (⟨4, 100000, (0, 25000, 75000)⟩ : BlockHash) := by decide

theorem tr_is_20 : ((⟨[93, 123, 129, 130, 131, 135, 165], 7, ⟨0, 0, 0⟩, ⟨⟨3⟩, Orientation.default⟩⟩ : BlockArrangement) : BlockArrangement).is_set (⟨-1, 0, 0⟩ : Point3D) = false := by decide

set_option maxHeartbeats 1600000 in
theorem tr_add_37 : ((⟨[93, 123, 129, 130, 131, 135, 165], 7, ⟨0, 0, 0⟩, ⟨⟨3⟩, Orientation.default⟩⟩ : BlockArrangement) : BlockArrangement).add_block_at (⟨-1, 0, 0⟩ : Point3D) = some (.ok (), ((⟨[93, 123, 128, 129, 130, 131, 135, 165], 8, ⟨0, 0, 0⟩, ⟨⟨3⟩, Orientation.default⟩⟩ : BlockArrangement) : BlockArrangement)) := by decide

set_option maxHeartbeats 1600000 in
theorem tr_add_38 : ((⟨[129, 130, 131], 3, ⟨1, 0, 0⟩, ⟨⟨3⟩, Orientation.default⟩⟩ : BlockArrangement) : BlockArrangement).add_block_at (⟨-1, 0, 0⟩ : Point3D) = some (.ok (), ((⟨[128, 129, 130, 131], 4, ⟨0, 0, 0⟩, ⟨⟨3⟩, Orientation.default⟩⟩ : BlockArrangement) : BlockArrangement)) := by decide

set_option maxHeartbeats 1600000 in
theorem tr_hash_20 : blockHash ((⟨[128, 129, 130, 131], 4, ⟨0, 0, 0⟩, ⟨⟨3⟩, Orientation.default⟩⟩ : BlockArrangement) : BlockArrangement) = some (⟨4, 100000, (0, 0, 100000)⟩ : BlockHash) := by decide

theorem tr_is_21 : ((⟨[93, 123, 128, 129, 130, 131, 135, 165], 8, ⟨0, 0, 0⟩, ⟨⟨3⟩, Orientation.default⟩⟩ : BlockArrangement) : BlockArrangement).is_set (⟨1, 0, -1⟩ : Point3D) = false := by decide

set_option maxHeartbeats 1600000 in
theorem tr_add_39 : ((⟨[93, 123, 128, 129, 130, 131, 135, 165], 8, ⟨0, 0, 0⟩, ⟨⟨3⟩, Orientation.default⟩⟩ : BlockArrangement) : BlockArrangement).add_block_at (⟨1, 0, -1⟩ : Point3D) = some (.ok (), ((⟨[93, 94, 123, 128, 129, 130, 131, 135, 165], 9, ⟨0, 0, 0⟩, ⟨⟨3⟩, Orientation.default⟩⟩ : BlockArrangement) : BlockArrangement)) := by decide

set_option maxHeartbeats 1600000 in
theorem tr_add_40 : ((⟨[129, 130, 131], 3, ⟨1, 0, 0⟩, ⟨⟨3⟩, Orientation.default⟩⟩ : BlockArrangement) : BlockArrangement).add_block_at (⟨1, 0, -1⟩ : Point3D) = some (.ok (), ((⟨[94, 129, 130, 131], 4, ⟨1, 0, 0⟩, ⟨⟨3⟩, Orientation.default⟩⟩ : BlockArrangement) : BlockArrangement)) := by decide

set_option maxHeartbeats 1600000 in
theorem tr_hash_21 : blockHash ((⟨[94, 129, 130, 131], 4, ⟨1, 0, 0⟩, ⟨⟨3⟩, Orientation.default⟩⟩ : BlockArrangement) : BlockArrangement) = some (⟨4, 75000, (0, 25000, 50000)⟩ : BlockHash) := by decide

theorem tr_is_22 : ((⟨[93, 94, 123, 128, 129, 130, 131, 135, 165], 9, ⟨0, 0, 0⟩, ⟨⟨3⟩, Orientation.default⟩⟩ : BlockArrangement) : BlockArrangement).is_set (⟨1, 0, 1⟩ : Point3D) = false := by decide

set_option maxHeartbeats 1600000 in
theorem tr_add_41 : ((⟨[93, 94, 123, 128, 129, 130, 131, 135, 165], 9, ⟨0, 0, 0⟩, ⟨⟨3⟩, Orientation.default⟩⟩ : BlockArrangement) : BlockArrangement).add_block_at (⟨1, 0, 1⟩ : Point3D) = some (.ok (), ((⟨[93, 94, 123, 128, 129, 130, 131, 135, 165, 166], 10, ⟨0, 0, 0⟩, ⟨⟨3⟩, Orientation.default⟩⟩ : BlockArrangement) : BlockArrangement)) := by decide

set_option maxHeartbeats 1600000 in
theorem tr_add_42 : ((⟨[129, 130, 131], 3, ⟨1, 0, 0⟩, ⟨⟨3⟩, Orientation.default⟩⟩ : BlockArrangement) : BlockArrangement).add_block_at (⟨1, 0, 1⟩ : Point3D) = some (.ok (), ((⟨[129, 130, 131, 166], 4, ⟨1, 0, 0⟩, ⟨⟨3⟩, Orientation.default⟩⟩ : BlockArrangement) : BlockArrangement)) := by decide

set_option maxHeartbeats 1600000 in
theorem tr_hash_22 : blockHash ((⟨[129, 130, 131, 166], 4, ⟨1, 0, 0⟩, ⟨⟨3⟩, Orientation.default⟩⟩ : BlockArrangement) : BlockArrangement) = some (⟨4, 75000, (0, 25000, 50000)⟩ : BlockHash) := by decide

theorem tr_is_23 : ((⟨[93, 94, 123, 128, 129, 130, 131, 135, 165, 166], 10, ⟨0, 0, 0⟩, ⟨⟨3⟩, Orientation.default⟩⟩ : BlockArrangement) : BlockArrangement).is_set (⟨1, -1, 0⟩ : Point3D) = false := by decide

set_option maxHeartbeats 1600000 in
theorem tr_add_43 : ((⟨[93, 94, 123, 128, 129, 130, 131, 135, 165, 166], 10, ⟨0, 0, 0⟩, ⟨⟨3⟩, Orientation.default⟩⟩ : BlockArrangement) : BlockArrangement).add_block_at (⟨1, -1, 0⟩ : Point3D) = some (.ok (), ((⟨[93, 94, 123, 124, 128, 129, 130, 131, 135, 165, 166], 11, ⟨0, 0, 0⟩, ⟨⟨3⟩, Orientation.default⟩⟩ : BlockArrangement) : BlockArrangement)) := by decide

set_option maxHeartbeats 1600000 in
theorem tr_add_44 : ((⟨[129, 130, 131], 3, ⟨1, 0, 0⟩, ⟨⟨3⟩, Orientation.default⟩⟩ : BlockArrangement) : BlockArrangement).add_block_at (⟨1, -1, 0⟩ : Point3D) = some (.ok (), ((⟨[124, 129, 130, 131], 4, ⟨1, 0, 0⟩, ⟨⟨3⟩, Orientation.default⟩⟩ : BlockArrangement) : BlockArrangement)) := by decide

set_option maxHeartbeats 1600000 in
theorem tr_hash_23 : blockHash ((⟨[124, 129, 130, 131], 4, ⟨1, 0, 0⟩, ⟨⟨3⟩, Orientation.default⟩⟩ : BlockArrangement) : BlockArrangement) = some (⟨4, 75000, (0, 25000, 50000)⟩ : BlockHash) := by decide

theorem tr_is_24 : ((⟨[93, 94, 123, 124, 128, 129, 130, 131, 135, 165, 166], 11, ⟨0, 0, 0⟩, ⟨⟨3⟩, Orientation.default⟩⟩ : BlockArrangement) : BlockArrangement).is_set (⟨1, 1, 0⟩ : Point3D) = false := by decide

set_option maxHeartbeats 1600000 in
theorem tr_add_45 : ((⟨[93, 94, 123, 124, 128, 129, 130, 131, 135, 165, 166], 11, ⟨0, 0, 0⟩, ⟨⟨3⟩, Orientation.default⟩⟩ : BlockArrangement) : BlockArrangement).add_block_at (⟨1, 1, 0⟩ : Point3D) = some (.ok (), ((⟨[93, 94, 123, 124, 128, 129, 130, 131, 135, 136, 165, 166], 12, ⟨0, 0, 0⟩, ⟨⟨3⟩, Orientation.default⟩⟩ : BlockArrangement) : BlockArrangement)) := by decide

set_option maxHeartbeats 1600000 in
theorem tr_add_46 : ((⟨[129, 130, 131], 3, ⟨1, 0, 0⟩, ⟨⟨3⟩, Orientation.default⟩⟩ : BlockArrangement) : BlockArrangement).add_block_at (⟨1, 1, 0⟩ : Point3D) = some (.ok (), ((⟨[129, 130, 131, 136], 4, ⟨1, 0, 0⟩, ⟨⟨3⟩, Orientation.default⟩⟩ : BlockArrangement) : BlockArrangement)) := by decide

set_option maxHeartbeats 1600000 in
theorem tr_hash_24 : blockHash ((⟨[129, 130, 131, 136], 4, ⟨1, 0, 0⟩, ⟨⟨3⟩, Orientation.default⟩⟩ : BlockArrangement) : BlockArrangement) = some (⟨4, 75000, (0, 25000, 50000)⟩ : BlockHash) := by decide

theorem tr_is_25 : ((⟨[93, 94, 123, 124, 128, 129, 130, 131, 135, 136, 165, 166], 12, ⟨0, 0, 0⟩, ⟨⟨3⟩, Orientation.default⟩⟩ : BlockArrangement) : BlockArrangement).is_set (⟨2, 0, -1⟩ : Point3D) = false := by decide

set_option maxHeartbeats 1600000 in
theorem tr_add_47 : ((⟨[93, 94, 123, 124, 128, 129, 130, 131, 135, 136, 165, 166], 12, ⟨0, 0, 0⟩, ⟨⟨3⟩, Orientation.default⟩⟩ : BlockArrangement) : BlockArrangement).add_block_at (⟨2, 0, -1⟩ : Point3D) = some (.ok (), ((⟨[93, 94, 95, 123, 124, 128, 129, 130, 131, 135, 136, 165, 166], 13, ⟨0, 0, 0⟩, ⟨⟨3⟩, Orientation.default⟩⟩ : BlockArrangement) : BlockArrangement)) := by decide

set_option maxHeartbeats 1600000 in
theorem tr_add_48 : ((⟨[129, 130, 131], 3, ⟨1, 0, 0⟩, ⟨⟨3⟩, Orientation.default⟩⟩ : BlockArrangement) : BlockArrangement).add_block_at (⟨2, 0, -1⟩ : Point3D) = some (.ok (), ((⟨[95, 129, 130, 131], 4, ⟨1, 0, 0⟩, ⟨⟨3⟩, Orientation.default⟩⟩ : BlockArrangement) : BlockArrangement)) := by decide

set_option maxHeartbeats 1600000 in
theorem tr_hash_25 : blockHash ((⟨[95, 129, 130, 131], 4, ⟨1, 0, 0⟩, ⟨⟨3⟩, Orientation.default⟩⟩ : BlockArrangement) : BlockArrangement) = some (⟨4, 85355, (0, 25000, 75000)⟩ : BlockHash) := by decide

theorem tr_is_26 : ((⟨[93, 94, 95, 123, 124, 128, 129, 130, 131, 135, 136, 165, 166], 13, ⟨0, 0, 0⟩, ⟨⟨3⟩, Orientation.default⟩⟩ : BlockArrangement) : BlockArrangement).is_set (⟨2, 0, 1⟩ : Point3D) = false := by decide

set_option maxHeartbeats 1600000 in
theorem tr_add_49 : ((⟨[93, 94, 95, 123, 124, 128, 129, 130, 131, 135, 136, 165, 166], 13, ⟨0, 0, 0⟩, ⟨⟨3⟩, Orientation.default⟩⟩ : BlockArrangement) : BlockArrangement).add_block_at (⟨2, 0, 1⟩ : Point3D) = some (.ok (), ((⟨[93, 94, 95, 123, 124, 128, 129, 130, 131, 135, 136, 165, 166, 167], 14, ⟨0, 0, 0⟩, ⟨⟨3⟩, Orientation.default⟩⟩ : BlockArrangement) : BlockArrangement)) := by decide

set_option maxHeartbeats 1600000 in
theorem tr_add_50 : ((⟨[129, 130, 131], 3, ⟨1, 0, 0⟩, ⟨⟨3⟩, Orientation.default⟩⟩ : BlockArrangement) : BlockArrangement).add_block_at (⟨2, 0, 1⟩ : Point3D) = some (.ok (), ((⟨[129, 130, 131, 167], 4, ⟨1, 0, 0⟩, ⟨⟨3⟩, Orientation.default⟩⟩ : BlockArrangement) : BlockArrangement)) := by decide

set_option maxHeartbeats 1600000 in
theorem tr_hash_26 : blockHash ((⟨[129, 130, 131, 167], 4, ⟨1, 0, 0⟩, ⟨⟨3⟩, Orientation.default⟩⟩ : BlockArrangement) : BlockArrangement) = some (⟨4, 85355, (0, 25000, 75000)⟩ : BlockHash) := by decide

theorem tr_is_27 : ((⟨[93, 94, 95, 123, 124, 128, 129, 130, 131, 135, 136, 165, 166, 167], 14, ⟨0, 0, 0⟩, ⟨⟨3⟩, Orientation.default⟩⟩ : BlockArrangement) : BlockArrangement).is_set (⟨2, -1, 0⟩ : Point3D) = false := by decide

set_option maxHeartbeats 1600000 in
theorem tr_add_51 : ((⟨[93, 94, 95, 123, 124, 128, 129, 130, 131, 135, 136, 165, 166, 167], 14, ⟨0, 0, 0⟩, ⟨⟨3⟩, Orientation.default⟩⟩ : BlockArrangement) : BlockArrangement).add_block_at (⟨2, -1, 0⟩ : Point3D) = some (.ok (), ((⟨[93, 94, 95, 123, 124, 125, 128, 129, 130, 131, 135, 136, 165, 166, 167], 15, ⟨0, 0, 0⟩, ⟨⟨3⟩, Orientation.default⟩⟩ : BlockArrangement) : BlockArrangement)) := by decide

set_option maxHeartbeats 1600000 in
theorem tr_add_52 : ((⟨[129, 130, 131], 3, ⟨1, 0, 0⟩, ⟨⟨3⟩, Orientation.default⟩⟩ : BlockArrangement) : BlockArrangement).add_block_at (⟨2, -1, 0⟩ : Point3D) = some (.ok (), ((⟨[125, 129, 130, 131], 4, ⟨1, 0, 0⟩, ⟨⟨3⟩, Orientation.default⟩⟩ : BlockArrangement) : BlockArrangement)) := by decide

set_option maxHeartbeats 1600000 in
theorem tr_hash_27 : blockHash ((⟨[125, 129, 130, 131], 4, ⟨1, 0, 0⟩, ⟨⟨3⟩, Orientation.default⟩⟩ : BlockArrangement) : BlockArrangement) = some (⟨4, 85355, (0, 25000, 75000)⟩ : BlockHash) := by decide

theorem tr_is_28 : ((⟨[93, 94, 95, 123, 124, 125, 128, 129, 130, 131, 135, 136, 165, 166, 167], 15, ⟨0, 0, 0⟩, ⟨⟨3⟩, Orientation.default⟩⟩ : BlockArrangement) : BlockArrangement).is_set (⟨2, 1, 0⟩ : Point3D) = false := by decide

set_option maxHeartbeats 1600000 in
theorem tr_add_53 : ((⟨[93, 94, 95, 123, 124, 125, 128, 129, 130, 131, 135, 136, 165, 166, 167], 15, ⟨0, 0, 0⟩, ⟨⟨3⟩, Orientation.default⟩⟩ : BlockArrangement) : BlockArrangement).add_block_at (⟨2, 1, 0⟩ : Point3D) = some (.ok (), ((⟨[93, 94, 95, 123, 124, 125, 128, 129, 130, 131, 135, 136, 137, 165, 166, 167], 16, ⟨0, 0, 0⟩, ⟨⟨3⟩, Orientation.default⟩⟩ : BlockArrangement) : BlockArrangement)) := by decide

set_option maxHeartbeats 1600000 in
theorem tr_add_54 : ((⟨[129, 130, 131], 3, ⟨1, 0, 0⟩, ⟨⟨3⟩, Orientation.default⟩⟩ : BlockArrangement) : BlockArrangement).add_block_at (⟨2, 1, 0⟩ : Point3D) = some (.ok (), ((⟨[129, 130, 131, 137], 4, ⟨1, 0, 0⟩, ⟨⟨3⟩, Orientation.default⟩⟩ : BlockArrangement) : BlockArrangement)) := by decide

set_option maxHeartbeats 1600000 in
theorem tr_hash_28 : blockHash ((⟨[129, 130, 131, 137], 4, ⟨1, 0, 0⟩, ⟨⟨3⟩, Orientation.default⟩⟩ : BlockArrangement) : BlockArrangement) = some (⟨4, 85355, (0, 25000, 75000)⟩ : BlockHash) := by decide

theorem tr_is_29 : ((⟨[93, 94, 95, 123, 124, 125, 128, 129, 130, 131, 135, 136, 137, 165, 166, 167], 16, ⟨0, 0, 0⟩, ⟨⟨3⟩, Orientation.default⟩⟩ : BlockArrangement) : BlockArrangement).is_set (⟨3, 0, 0⟩ : Point3D) = false := by decide

set_option maxHeartbeats 1600000 in
theorem tr_add_55 : ((⟨[93, 94, 95, 123, 124, 125, 128, 129, 130, 131, 135, 136, 137, 165, 166, 167], 16, ⟨0, 0, 0⟩, ⟨⟨3⟩, Orientation.default⟩⟩ : BlockArrangement) : BlockArrangement).add_block_at (⟨3, 0, 0⟩ : Point3D) = some (.ok (), ((⟨[19091, 19092, 19093, 20213, 20214, 20215, 20246, 20247, 20248, 20249, 20250, 20281, 20282, 20283, 21403, 21404, 21405], 17, ⟨1, 0, 0⟩, ⟨⟨17⟩, Orientation.default⟩⟩ : BlockArrangement) : BlockArrangement)) := by decide

set_option maxHeartbeats 1600000 in
theorem tr_add_56 : ((⟨[129, 130, 131], 3, ⟨1, 0, 0⟩, ⟨⟨3⟩, Orientation.default⟩⟩ : BlockArrangement) : BlockArrangement).add_block_at (⟨3, 0, 0⟩ : Point3D) = some (.ok (), ((⟨[292, 293, 294, 295], 4, ⟨1, 0, 0⟩, ⟨⟨4⟩, Orientation.default⟩⟩ : BlockArrangement) : BlockArrangement)) := by decide

set_option maxHeartbeats 1600000 in
theorem tr_hash_29 : blockHash ((⟨[292, 293, 294, 295], 4, ⟨1, 0, 0⟩, ⟨⟨4⟩, Orientation.default⟩⟩ : BlockArrangement) : BlockArrangement) = some (⟨4, 100000, (0, 0, 100000)⟩ : BlockHash) := by decide

theorem tr_res_r1 : ((⟨[42, 43, 46], 3, ⟨0, 0, 0⟩, ⟨⟨2⟩, Orientation.default⟩⟩ : BlockArrangement) : BlockArrangement).bits.mapM ((⟨[42, 43, 46], 3, ⟨0, 0, 0⟩, ⟨⟨2⟩, Orientation.default⟩⟩ : BlockArrangement) : BlockArrangement).mapper.resolve = some ([⟨0, 0, 0⟩, ⟨1, 0, 0⟩, ⟨0, 1, 0⟩] : List Point3D) := by
  decide

theorem tr_cands_r1 : BlockArrangement.variationCandidates (⟨[42, 43, 46], 3, ⟨0, 0, 0⟩, ⟨⟨2⟩, Orientation.default⟩⟩ : BlockArrangement) [⟨0, 0, 0⟩, ⟨1, 0, 0⟩, ⟨0, 1, 0⟩] = [⟨0, 0, -1⟩, ⟨0, 0, 1⟩, ⟨0, -1, 0⟩, ⟨-1, 0, 0⟩, ⟨1, 0, -1⟩, ⟨1, 0, 1⟩, ⟨1, -1, 0⟩, ⟨1, 1, 0⟩, ⟨2, 0, 0⟩, ⟨0, 1, -1⟩, ⟨0, 1, 1⟩, ⟨0, 2, 0⟩, ⟨-1, 1, 0⟩, ⟨1, 1, 0⟩] := by
  decide

theorem tr_is_30 : ((⟨[42, 43, 46], 3, ⟨0, 0, 0⟩, ⟨⟨2⟩, Orientation.default⟩⟩ : BlockArrangement) : BlockArrangement).is_set (⟨0, 0, -1⟩ : Point3D) = false := by decide

set_option maxHeartbeats 1600000 in
theorem tr_add_57 : ((⟨[42, 43, 46], 3, ⟨0, 0, 0⟩, ⟨⟨2⟩, Orientation.default⟩⟩ : BlockArrangement) : BlockArrangement).add_block_at (⟨0, 0, -1⟩ : Point3D) = some (.ok (), ((⟨[26, 42, 43, 46], 4, ⟨0, 0, 0⟩, ⟨⟨2⟩, Orientation.default⟩⟩ : BlockArrangement) : BlockArrangement)) := by decide

set_option maxHeartbeats 1600000 in
theorem tr_hash_30 : blockHash ((⟨[26, 42, 43, 46], 4, ⟨0, 0, 0⟩, ⟨⟨2⟩, Orientation.default⟩⟩ : BlockArrangement) : BlockArrangement) = some (⟨4, 75000, (25000, 25000, 25000)⟩ : BlockHash) := by decide

theorem tr_is_31 : ((⟨[26, 42, 43, 46], 4, ⟨0, 0, 0⟩, ⟨⟨2⟩, Orientation.default⟩⟩ : BlockArrangement) : BlockArrangement).is_set (⟨0, 0, 1⟩ : Point3D) = false := by decide

set_option maxHeartbeats 1600000 in
theorem tr_add_58 : ((⟨[26, 42, 43, 46], 4, ⟨0, 0, 0⟩, ⟨⟨2⟩, Orientation.default⟩⟩ : BlockArrangement) : BlockArrangement).add_block_at (⟨0, 0, 1⟩ : Point3D) = some (.ok (), ((⟨[26, 42, 43, 46, 58], 5, ⟨0, 0, 0⟩, ⟨⟨2⟩, Orientation.default⟩⟩ : BlockArrangement) : BlockArrangement)) := by decide

set_option maxHeartbeats 1600000 in
theorem tr_add_59 : ((⟨[42, 43, 46], 3, ⟨0, 0, 0⟩, ⟨⟨2⟩, Orientation.default⟩⟩ : BlockArrangement) : BlockArrangement).add_block_at (⟨0, 0, 1⟩ : Point3D) = some (.ok (), ((⟨[42, 43, 46, 58], 4, ⟨0, 0, 0⟩, ⟨⟨2⟩, Orientation.default⟩⟩ : BlockArrangement) : BlockArrangement)) := by decide

set_option maxHeartbeats 1600000 in
theorem tr_hash_31 : blockHash ((⟨[42, 43, 46, 58], 4, ⟨0, 0, 0⟩, ⟨⟨2⟩, Orientation.default⟩⟩ : BlockArrangement) : BlockArrangement) = some (⟨4, 75000, (25000, 25000, 25000)⟩ : BlockHash) := by decide

theorem tr_is_32 : ((⟨[26, 42, 43, 46, 58], 5, ⟨0, 0, 0⟩, ⟨⟨2⟩, Orientation.default⟩⟩ : BlockArrangement) : BlockArrangement).is_set (⟨0, -1, 0⟩ : Point3D) = false := by decide

set_option maxHeartbeats 1600000 in
theorem tr_add_60 : ((⟨[26, 42, 43, 46, 58], 5, ⟨0, 0, 0⟩, ⟨⟨2⟩, Orientation.default⟩⟩ : BlockArrangement) : BlockArrangement).add_block_at (⟨0, -1, 0⟩ : Point3D) = some (.ok (), ((⟨[26, 38, 42, 43, 46, 58], 6, ⟨0, 0, 0⟩, ⟨⟨2⟩, Orientation.default⟩⟩ : BlockArrangement) : BlockArrangement)) := by decide

set_option maxHeartbeats 1600000 in
theorem tr_add_61 : ((⟨[42, 43, 46], 3, ⟨0, 0, 0⟩, ⟨⟨2⟩, Orientation.default⟩⟩ : BlockArrangement) : BlockArrangement).add_block_at (⟨0, -1, 0⟩ : Point3D) = some (.ok (), ((⟨[38, 42, 43, 46], 4, ⟨0, 0, 0⟩, ⟨⟨2⟩, Orientation.default⟩⟩ : BlockArrangement) : BlockArrangement)) := by decide

set_option maxHeartbeats 1600000 in
theorem tr_hash_32 : blockHash ((⟨[38, 42, 43, 46], 4, ⟨0, 0, 0⟩, ⟨⟨2⟩, Orientation.default⟩⟩ : BlockArrangement) : BlockArrangement) = some (⟨4, 75000, (0, 25000, 50000)⟩ : BlockHash) := by decide

set_option maxHeartbeats 1600000 in
theorem tr_add_62 : ((⟨[42, 43, 46], 3, ⟨0, 0, 0⟩, ⟨⟨2⟩, Orientation.default⟩⟩ : BlockArrangement) : BlockArrangement).add_block_at (⟨-1, 0, 0⟩ : Point3D) = some (.ok (), ((⟨[41, 42, 43, 46], 4, ⟨0, 0, 0⟩, ⟨⟨2⟩, Orientation.default⟩⟩ : BlockArrangement) : BlockArrangement)) := by decide

set_option maxHeartbeats 1600000 in
theorem tr_hash_33 : blockHash ((⟨[41, 42, 43, 46], 4, ⟨0, 0, 0⟩, ⟨⟨2⟩, Orientation.default⟩⟩ : BlockArrangement) : BlockArrangement) = some (⟨4, 75000, (0, 25000, 50000)⟩ : BlockHash) := by decide

set_option maxHeartbeats 1600000 in
theorem tr_add_63 : ((⟨[42, 43, 46], 3, ⟨0, 0, 0⟩, ⟨⟨2⟩, Orientation.default⟩⟩ : BlockArrangement) : BlockArrangement).add_block_at (⟨1, 0, -1⟩ : Point3D) = some (.ok (), ((⟨[27, 42, 43, 46], 4, ⟨0, 0, 0⟩, ⟨⟨2⟩, Orientation.default⟩⟩ : BlockArrangement) : BlockArrangement)) := by decide

set_option maxHeartbeats 1600000 in
theorem tr_hash_34 : blockHash ((⟨[27, 42, 43, 46], 4, ⟨0, 0, 0⟩, ⟨⟨2⟩, Orientation.default⟩⟩ : BlockArrangement) : BlockArrangement) = some (⟨4, 85355, (25000, 25000, 50000)⟩ : BlockHash) := by decide

set_option maxHeartbeats 1600000 in
theorem tr_add_64 : ((⟨[42, 43, 46], 3, ⟨0, 0, 0⟩, ⟨⟨2⟩, Orientation.default⟩⟩ : BlockArrangement) : BlockArrangement).add_block_at (⟨1, 0, 1⟩ : Point3D) = some (.ok (), ((⟨[42, 43, 46, 59], 4, ⟨0, 0, 0⟩, ⟨⟨2⟩, Orientation.default⟩⟩ : BlockArrangement) : BlockArrangement)) := by decide

set_option maxHeartbeats 1600000 in
theorem tr_hash_35 : blockHash ((⟨[42, 43, 46, 59], 4, ⟨0, 0, 0⟩, ⟨⟨2⟩, Orientation.default⟩⟩ : BlockArrangement) : BlockArrangement) = some (⟨4, 85355, (25000, 25000, 50000)⟩ : BlockHash) := by decide

set_option maxHeartbeats 1600000 in
theorem tr_add_65 : ((⟨[42, 43, 46], 3, ⟨0, 0, 0⟩, ⟨⟨2⟩, Orientation.default⟩⟩ : BlockArrangement) : BlockArrangement).add_block_at (⟨1, -1, 0⟩ : Point3D) = some (.ok (), ((⟨[39, 42, 43, 46], 4, ⟨0, 0, 0⟩, ⟨⟨2⟩, Orientation.default⟩⟩ : BlockArrangement) : BlockArrangement)) := by decide

set_option maxHeartbeats 1600000 in
theorem tr_hash_36 : blockHash ((⟨[39, 42, 43, 46], 4, ⟨0, 0, 0⟩, ⟨⟨2⟩, Orientation.default⟩⟩ : BlockArrangement) : BlockArrangement) = some (⟨4, 85355, (0, 50000, 50000)⟩ : BlockHash) := by decide

set_option maxHeartbeats 1600000 in
theorem tr_add_66 : ((⟨[42, 43, 46], 3, ⟨0, 0, 0⟩, ⟨⟨2⟩, Orientation.default⟩⟩ : BlockArrangement) : BlockArrangement).add_block_at (⟨1, 1, 0⟩ : Point3D) = some (.ok (), ((⟨[42, 43, 46, 47], 4, ⟨0, 0, 0⟩, ⟨⟨2⟩, Orientation.default⟩⟩ : BlockArrangement) : BlockArrangement)) := by decide

set_option maxHeartbeats 1600000 in
theorem tr_hash_37 : blockHash ((⟨[42, 43, 46, 47], 4, ⟨0, 0, 0⟩, ⟨⟨2⟩, Orientation.default⟩⟩ : BlockArrangement) : BlockArrangement) = some (⟨4, 85355, (0, 50000, 50000)⟩ : BlockHash) := by decide

set_option maxHeartbeats 1600000 in
theorem tr_add_67 : ((⟨[42, 43, 46], 3, ⟨0, 0, 0⟩, ⟨⟨2⟩, Orientation.default⟩⟩ : BlockArrangement) : BlockArrangement).add_block_at (⟨2, 0, 0⟩ : Point3D) = some (.ok (), ((⟨[292, 293, 294, 300], 4, ⟨0, 0, 0⟩, ⟨⟨4⟩, Orientation.default⟩⟩ : BlockArrangement) : BlockArrangement)) := by decide

set_option maxHeartbeats 1600000 in
theorem tr_hash_38 : blockHash ((⟨[292, 293, 294, 300], 4, ⟨0, 0, 0⟩, ⟨⟨4⟩, Orientation.default⟩⟩ : BlockArrangement) : BlockArrangement) = some (⟨4, 100000, (0, 25000, 75000)⟩ : BlockHash) := by decide

theorem tr_is_33 : ((⟨[6636, 6637, 7188, 7189, 7211, 7212, 7213, 7214, 7236, 7237, 7788, 7789], 12, ⟨0, 0, 0⟩, ⟨⟨12⟩, Orientation.default⟩⟩ : BlockArrangement) : BlockArrangement).is_set (⟨0, 1, -1⟩ : Point3D) = false := by decide

set_option maxHeartbeats 1600000 in
theorem tr_add_68 : ((⟨[6636, 6637, 7188, 7189, 7211, 7212, 7213, 7214, 7236, 7237, 7788, 7789], 12, ⟨0, 0, 0⟩, ⟨⟨12⟩, Orientation.default⟩⟩ : BlockArrangement) : BlockArrangement).add_block_at (⟨0, 1, -1⟩ : Point3D) = some (.ok (), ((⟨[6636, 6637, 6660, 7188, 7189, 7211, 7212, 7213, 7214, 7236, 7237, 7788, 7789], 13, ⟨0, 0, 0⟩, ⟨⟨12⟩, Orientation.default⟩⟩ : BlockArrangement) : BlockArrangement)) := by decide

set_option maxHeartbeats 1600000 in
theorem tr_add_69 : ((⟨[42, 43, 46], 3, ⟨0, 0, 0⟩, ⟨⟨2⟩, Orientation.default⟩⟩ : BlockArrangement) : BlockArrangement).add_block_at (⟨0, 1, -1⟩ : Point3D) = some (.ok (), ((⟨[30, 42, 43, 46], 4, ⟨0, 0, 0⟩, ⟨⟨2⟩, Orientation.default⟩⟩ : BlockArrangement) : BlockArrangement)) := by decide

set_option maxHeartbeats 1600000 in
theorem tr_hash_39 : blockHash ((⟨[30, 42, 43, 46], 4, ⟨0, 0, 0⟩, ⟨⟨2⟩, Orientation.default⟩⟩ : BlockArrangement) : BlockArrangement) = some (⟨4, 85355, (25000, 25000, 50000)⟩ : BlockHash) := by decide

theorem tr_is_34 : ((⟨[6636, 6637, 6660, 7188, 7189, 7211, 7212, 7213, 7214, 7236, 7237, 7788, 7789], 13, ⟨0, 0, 0⟩, ⟨⟨12⟩, Orientation.default⟩⟩ : BlockArrangement) : BlockArrangement).is_set (⟨0, 1, 1⟩ : Point3D) = false := by decide

set_option maxHeartbeats 1600000 in
theorem tr_add_70 : ((⟨[6636, 6637, 6660, 7188, 7189, 7211, 7212, 7213, 7214, 7236, 7237, 7788, 7789], 13, ⟨0, 0, 0⟩, ⟨⟨12⟩, Orientation.default⟩⟩ : BlockArrangement) : BlockArrangement).add_block_at (⟨0, 1, 1⟩ : Point3D) = some (.ok (), ((⟨[6636, 6637, 6660, 7188, 7189, 7211, 7212, 7213, 7214, 7236, 7237, 7788, 7789, 7812], 14, ⟨0, 0, 0⟩, ⟨⟨12⟩, Orientation.default⟩⟩ : BlockArrangement) : BlockArrangement)) := by decide

set_option maxHeartbeats 1600000 in
theorem tr_add_71 : ((⟨[42, 43, 46], 3, ⟨0, 0, 0⟩, ⟨⟨2⟩, Orientation.default⟩⟩ : BlockArrangement) : BlockArrangement).add_block_at (⟨0, 1, 1⟩ : Point3D) = some (.ok (), ((⟨[42, 43, 46, 62], 4, ⟨0, 0, 0⟩, ⟨⟨2⟩, Orientation.default⟩⟩ : BlockArrangement) : BlockArrangement)) := by decide

set_option maxHeartbeats 1600000 in
theorem tr_hash_40 : blockHash ((⟨[42, 43, 46, 62], 4, ⟨0, 0, 0⟩, ⟨⟨2⟩, Orientation.default⟩⟩ : BlockArrangement) : BlockArrangement) = some (⟨4, 85355, (25000, 25000, 50000)⟩ : BlockHash) := by decide

theorem tr_is_35 : ((⟨[6636, 6637, 6660, 7188, 7189, 7211, 7212, 7213, 7214, 7236, 7237, 7788, 7789, 7812], 14, ⟨0, 0, 0⟩, ⟨⟨12⟩, Orientation.default⟩⟩ : BlockArrangement) : BlockArrangement).is_set (⟨0, 2, 0⟩ : Point3D) = false := by decide

set_option maxHeartbeats 1600000 in
theorem tr_add_72 : ((⟨[6636, 6637, 6660, 7188, 7189, 7211, 7212, 7213, 7214, 7236, 7237, 7788, 7789, 7812], 14, ⟨0, 0, 0⟩, ⟨⟨12⟩, Orientation.default⟩⟩ : BlockArrangement) : BlockArrangement).add_block_at (⟨0, 2, 0⟩ : Point3D) = some (.ok (), ((⟨[6636, 6637, 6660, 7188, 7189, 7211, 7212, 7213, 7214, 7236, 7237, 7260, 7788, 7789, 7812], 15, ⟨0, 0, 0⟩, ⟨⟨12⟩, Orientation.default⟩⟩ : BlockArrangement) : BlockArrangement)) := by decide

set_option maxHeartbeats 1600000 in
theorem tr_add_73 : ((⟨[42, 43, 46], 3, ⟨0, 0, 0⟩, ⟨⟨2⟩, Orientation.default⟩⟩ : BlockArrangement) : BlockArrangement).add_block_at (⟨0, 2, 0⟩ : Point3D) = some (.ok (), ((⟨[292, 293, 300, 308], 4, ⟨0, 0, 0⟩, ⟨⟨4⟩, Orientation.default⟩⟩ : BlockArrangement) : BlockArrangement)) := by decide

set_option maxHeartbeats 1600000 in
theorem tr_hash_41 : blockHash ((⟨[292, 293, 300, 308], 4, ⟨0, 0, 0⟩, ⟨⟨4⟩, Orientation.default⟩⟩ : BlockArrangement) : BlockArrangement) = some (⟨4, 100000, (0, 25000, 75000)⟩ : BlockHash) := by decide

theorem tr_is_36 : ((⟨[6636, 6637, 6660, 7188, 7189, 7211, 7212, 7213, 7214, 7236, 7237, 7260, 7788, 7789, 7812], 15, ⟨0, 0, 0⟩, ⟨⟨12⟩, Orientation.default⟩⟩ : BlockArrangement) : BlockArrangement).is_set (⟨-1, 1, 0⟩ : Point3D) = false := by decide

set_option maxHeartbeats 1600000 in
theorem tr_add_74 : ((⟨[6636, 6637, 6660, 7188, 7189, 7211, 7212, 7213, 7214, 7236, 7237, 7260, 7788, 7789, 7812], 15, ⟨0, 0, 0⟩, ⟨⟨12⟩, Orientation.default⟩⟩ : BlockArrangement) : BlockArrangement).add_block_at (⟨-1, 1, 0⟩ : Point3D) = some (.ok (), ((⟨[6636, 6637, 6660, 7188, 7189, 7211, 7212, 7213, 7214, 7235, 7236, 7237, 7260, 7788, 7789, 7812], 16, ⟨0, 0, 0⟩, ⟨⟨12⟩, Orientation.default⟩⟩ : BlockArrangement) : BlockArrangement)) := by decide

set_option maxHeartbeats 1600000 in
theorem tr_add_75 : ((⟨[42, 43, 46], 3, ⟨0, 0, 0⟩, ⟨⟨2⟩, Orientation.default⟩⟩ : BlockArrangement) : BlockArrangement).add_block_at (⟨-1, 1, 0⟩ : Point3D) = some (.ok (), ((⟨[42, 43, 45, 46], 4, ⟨0, 0, 0⟩, ⟨⟨2⟩, Orientation.default⟩⟩ : BlockArrangement) : BlockArrangement)) := by decide

set_option maxHeartbeats 1600000 in
theorem tr_hash_42 : blockHash ((⟨[42, 43, 45, 46], 4, ⟨0, 0, 0⟩, ⟨⟨2⟩, Orientation.default⟩⟩ : BlockArrangement) : BlockArrangement) = some (⟨4, 85355, (0, 50000, 50000)⟩ : BlockHash) := by decide

theorem tr_is_37 : ((⟨[6636, 6637, 6660, 7188, 7189, 7211, 7212, 7213, 7214, 7235, 7236, 7237, 7260, 7788, 7789, 7812], 16, ⟨0, 0, 0⟩, ⟨⟨12⟩, Orientation.default⟩⟩ : BlockArrangement) : BlockArrangement).is_set (⟨1, 1, 0⟩ : Point3D) = true := by decide

theorem tr_res_r2 : ((⟨[42, 43, 47], 3, ⟨0, 0, 0⟩, ⟨⟨2⟩, Orientation.default⟩⟩ : BlockArrangement) : BlockArrangement).bits.mapM ((⟨[42, 43, 47], 3, ⟨0, 0, 0⟩, ⟨⟨2⟩, Orientation.default⟩⟩ : BlockArrangement) : BlockArrangement).mapper.resolve = some ([⟨0, 0, 0⟩, ⟨1, 0, 0⟩, ⟨1, 1, 0⟩] : List Point3D) := by
  decide

theorem tr_cands_r2 : BlockArrangement.variationCandidates (⟨[42, 43, 47], 3, ⟨0, 0, 0⟩, ⟨⟨2⟩, Orientation.default⟩⟩ : BlockArrangement) [⟨0, 0, 0⟩, ⟨1, 0, 0⟩, ⟨1, 1, 0⟩] = [⟨0, 0, -1⟩, ⟨0, 0, 1⟩, ⟨0, -1, 0⟩, ⟨0, 1, 0⟩, ⟨-1, 0, 0⟩, ⟨1, 0, -1⟩, ⟨1, 0, 1⟩, ⟨1, -1, 0⟩, ⟨2, 0, 0⟩, ⟨1, 1, -1⟩, ⟨1, 1, 1⟩, ⟨1, 2, 0⟩, ⟨0, 1, 0⟩, ⟨2, 1, 0⟩] := by
  decide

theorem tr_is_38 : ((⟨[42, 43, 47], 3, ⟨0, 0, 0⟩, ⟨⟨2⟩, Orientation.default⟩⟩ : BlockArrangement) : BlockArrangement).is_set (⟨0, 0, -1⟩ : Point3D) = false := by decide

set_option maxHeartbeats 1600000 in
theorem tr_add_76 : ((⟨[42, 43, 47], 3, ⟨0, 0, 0⟩, ⟨⟨2⟩, Orientation.default⟩⟩ : BlockArrangement) : BlockArrangement).add_block_at (⟨0, 0, -1⟩ : Point3D) = some (.ok (), ((⟨[26, 42, 43, 47], 4, ⟨0, 0, 0⟩, ⟨⟨2⟩, Orientation.default⟩⟩ : BlockArrangement) : BlockArrangement)) := by decide

set_option maxHeartbeats 1600000 in
theorem tr_hash_43 : blockHash ((⟨[26, 42, 43, 47], 4, ⟨0, 0, 0⟩, ⟨⟨2⟩, Orientation.default⟩⟩ : BlockArrangement) : BlockArrangement) = some (⟨4, 85355, (25000, 25000, 50000)⟩ : BlockHash) := by decide

theorem tr_is_39 : ((⟨[26, 42, 43, 47], 4, ⟨0, 0, 0⟩, ⟨⟨2⟩, Orientation.default⟩⟩ : BlockArrangement) : BlockArrangement).is_set (⟨0, 0, 1⟩ : Point3D) = false := by decide

set_option maxHeartbeats 1600000 in
theorem tr_add_77 : ((⟨[26, 42, 43, 47], 4, ⟨0, 0, 0⟩, ⟨⟨2⟩, Orientation.default⟩⟩ : BlockArrangement) : BlockArrangement).add_block_at (⟨0, 0, 1⟩ : Point3D) = some (.ok (), ((⟨[26, 42, 43, 47, 58], 5, ⟨0, 0, 0⟩, ⟨⟨2⟩, Orientation.default⟩⟩ : BlockArrangement) : BlockArrangement)) := by decide

set_option maxHeartbeats 1600000 in
theorem tr_add_78 : ((⟨[42, 43, 47], 3, ⟨0, 0, 0⟩, ⟨⟨2⟩, Orientation.default⟩⟩ : BlockArrangement) : BlockArrangement).add_block_at (⟨0, 0, 1⟩ : Point3D) = some (.ok (), ((⟨[42, 43, 47, 58], 4, ⟨0, 0, 0⟩, ⟨⟨2⟩, Orientation.default⟩⟩ : BlockArrangement) : BlockArrangement)) := by decide

set_option maxHeartbeats 1600000 in
theorem tr_hash_44 : blockHash ((⟨[42, 43, 47, 58], 4, ⟨0, 0, 0⟩, ⟨⟨2⟩, Orientation.default⟩⟩ : BlockArrangement) : BlockArrangement) = some (⟨4, 85355, (25000, 25000, 50000)⟩ : BlockHash) := by decide

theorem tr_is_40 : ((⟨[26, 42, 43, 47, 58], 5, ⟨0, 0, 0⟩, ⟨⟨2⟩, Orientation.default⟩⟩ : BlockArrangement) : BlockArrangement).is_set (⟨0, -1, 0⟩ : Point3D) = false := by decide

set_option maxHeartbeats 1600000 in
theorem tr_add_79 : ((⟨[26, 42, 43, 47, 58], 5, ⟨0, 0, 0⟩, ⟨⟨2⟩, Orientation.default⟩⟩ : BlockArrangement) : BlockArrangement).add_block_at (⟨0, -1, 0⟩ : Point3D) = some (.ok (), ((⟨[26, 38, 42, 43, 47, 58], 6, ⟨0, 0, 0⟩, ⟨⟨2⟩, Orientation.default⟩⟩ : BlockArrangement) : BlockArrangement)) := by decide

set_option maxHeartbeats 1600000 in
theorem tr_add_80 : ((⟨[42, 43, 47], 3, ⟨0, 0, 0⟩, ⟨⟨2⟩, Orientation.default⟩⟩ : BlockArrangement) : BlockArrangement).add_block_at (⟨0, -1, 0⟩ : Point3D) = some (.ok (), ((⟨[38, 42, 43, 47], 4, ⟨0, 0, 0⟩, ⟨⟨2⟩, Orientation.default⟩⟩ : BlockArrangement) : BlockArrangement)) := by decide

set_option maxHeartbeats 1600000 in
theorem tr_hash_45 : blockHash ((⟨[38, 42, 43, 47], 4, ⟨0, 0, 0⟩, ⟨⟨2⟩, Orientation.default⟩⟩ : BlockArrangement) : BlockArrangement) = some (⟨4, 85355, (0, 50000, 50000)⟩ : BlockHash) := by decide

theorem tr_is_41 : ((⟨[26, 38, 42, 43, 47, 58], 6, ⟨0, 0, 0⟩, ⟨⟨2⟩, Orientation.default⟩⟩ : BlockArrangement) : BlockArrangement).is_set (⟨0, 1, 0⟩ : Point3D) = false := by decide

set_option maxHeartbeats 1600000 in
theorem tr_add_81 : ((⟨[26, 38, 42, 43, 47, 58], 6, ⟨0, 0, 0⟩, ⟨⟨2⟩, Orientation.default⟩⟩ : BlockArrangement) : BlockArrangement).add_block_at (⟨0, 1, 0⟩ : Point3D) = some (.ok (), ((⟨[26, 38, 42, 43, 46, 47, 58], 7, ⟨0, 0, 0⟩, ⟨⟨2⟩, Orientation.default⟩⟩ : BlockArrangement) : BlockArrangement)) := by decide

set_option maxHeartbeats 1600000 in
theorem tr_add_82 : ((⟨[42, 43, 47], 3, ⟨0, 0, 0⟩, ⟨⟨2⟩, Orientation.default⟩⟩ : BlockArrangement) : BlockArrangement).add_block_at (⟨0, 1, 0⟩ : Point3D) = some (.ok (), ((⟨[42, 43, 46, 47], 4, ⟨0, 0, 0⟩, ⟨⟨2⟩, Orientation.default⟩⟩ : BlockArrangement) : BlockArrangement)) := by decide

theorem tr_is_42 : ((⟨[26, 38, 42, 43, 46, 47, 58], 7, ⟨0, 0, 0⟩, ⟨⟨2⟩, Orientation.default⟩⟩ : BlockArrangement) : BlockArrangement).is_set (⟨-1, 0, 0⟩ : Point3D) = false := by decide

set_option maxHeartbeats 1600000 in
theorem tr_add_83 : ((⟨[26, 38, 42, 43, 46, 47, 58], 7, ⟨0, 0, 0⟩, ⟨⟨2⟩, Orientation.default⟩⟩ : BlockArrangement) : BlockArrangement).add_block_at (⟨-1, 0, 0⟩ : Point3D) = some (.ok (), ((⟨[26, 38, 41, 42, 43, 46, 47, 58], 8, ⟨0, 0, 0⟩, ⟨⟨2⟩, Orientation.default⟩⟩ : BlockArrangement) : BlockArrangement)) := by decide

set_option maxHeartbeats 1600000 in
theorem tr_add_84 : ((⟨[42, 43, 47], 3, ⟨0, 0, 0⟩, ⟨⟨2⟩, Orientation.default⟩⟩ : BlockArrangement) : BlockArrangement).add_block_at (⟨-1, 0, 0⟩ : Point3D) = some (.ok (), ((⟨[41, 42, 43, 47], 4, ⟨0, 0, 0⟩, ⟨⟨2⟩, Orientation.default⟩⟩ : BlockArrangement) : BlockArrangement)) := by decide

set_option maxHeartbeats 1600000 in
theorem tr_hash_46 : blockHash ((⟨[41, 42, 43, 47], 4, ⟨0, 0, 0⟩, ⟨⟨2⟩, Orientation.default⟩⟩ : BlockArrangement) : BlockArrangement) = some (⟨4, 85355, (0, 25000, 75000)⟩ : BlockHash) := by decide

theorem tr_is_43 : ((⟨[26, 38, 41, 42, 43, 46, 47, 58], 8, ⟨0, 0, 0⟩, ⟨⟨2⟩, Orientation.default⟩⟩ : BlockArrangement) : BlockArrangement).is_set (⟨1, 0, -1⟩ : Point3D) = false := by decide

set_option maxHeartbeats 1600000 in
theorem tr_add_85 : ((⟨[26, 38, 41, 42, 43, 46, 47, 58], 8, ⟨0, 0, 0⟩, ⟨⟨2⟩, Orientation.default⟩⟩ : BlockArrangement) : BlockArrangement).add_block_at (⟨1, 0, -1⟩ : Point3D) = some (.ok (), ((⟨[26, 27, 38, 41, 42, 43, 46, 47, 58], 9, ⟨0, 0, 0⟩, ⟨⟨2⟩, Orientation.default⟩⟩ : BlockArrangement) : BlockArrangement)) := by decide

set_option maxHeartbeats 1600000 in
theorem tr_add_86 : ((⟨[42, 43, 47], 3, ⟨0, 0, 0⟩, ⟨⟨2⟩, Orientation.default⟩⟩ : BlockArrangement) : BlockArrangement).add_block_at (⟨1, 0, -1⟩ : Point3D) = some (.ok (), ((⟨[27, 42, 43, 47], 4, ⟨0, 0, 0⟩, ⟨⟨2⟩, Orientation.default⟩⟩ : BlockArrangement) : BlockArrangement)) := by decide

set_option maxHeartbeats 1600000 in
theorem tr_hash_47 : blockHash ((⟨[27, 42, 43, 47], 4, ⟨0, 0, 0⟩, ⟨⟨2⟩, Orientation.default⟩⟩ : BlockArrangement) : BlockArrangement) = some (⟨4, 95711, (25000, 25000, 75000)⟩ : BlockHash) := by decide

theorem tr_is_44 : ((⟨[26, 27, 38, 41, 42, 43, 46, 47, 58], 9, ⟨0, 0, 0⟩, ⟨⟨2⟩, Orientation.default⟩⟩ : BlockArrangement) : BlockArrangement).is_set (⟨1, 0, 1⟩ : Point3D) = false := by decide

set_option maxHeartbeats 1600000 in
theorem tr_add_87 : ((⟨[26, 27, 38, 41, 42, 43, 46, 47, 58], 9, ⟨0, 0, 0⟩, ⟨⟨2⟩, Orientation.default⟩⟩ : BlockArrangement) : BlockArrangement).add_block_at (⟨1, 0, 1⟩ : Point3D) = some (.ok (), ((⟨[26, 27, 38, 41, 42, 43, 46, 47, 58, 59], 10, ⟨0, 0, 0⟩, ⟨⟨2⟩, Orientation.default⟩⟩ : BlockArrangement) : BlockArrangement)) := by decide

set_option maxHeartbeats 1600000 in
theorem tr_add_88 : ((⟨[42, 43, 47], 3, ⟨0, 0, 0⟩, ⟨⟨2⟩, Orientation.default⟩⟩ : BlockArrangement) : BlockArrangement).add_block_at (⟨1, 0, 1⟩ : Point3D) = some (.ok (), ((⟨[42, 43, 47, 59], 4, ⟨0, 0, 0⟩, ⟨⟨2⟩, Orientation.default⟩⟩ : BlockArrangement) : BlockArrangement)) := by decide

set_option maxHeartbeats 1600000 in
theorem tr_hash_48 : blockHash ((⟨[42, 43, 47, 59], 4, ⟨0, 0, 0⟩, ⟨⟨2⟩, Orientation.default⟩⟩ : BlockArrangement) : BlockArrangement) = some (⟨4, 95711, (25000, 25000, 75000)⟩ : BlockHash) := by decide

theorem tr_is_45 : ((⟨[26, 27, 38, 41, 42, 43, 46, 47, 58, 59], 10, ⟨0, 0, 0⟩, ⟨⟨2⟩, Orientation.default⟩⟩ : BlockArrangement) : BlockArrangement).is_set (⟨1, -1, 0⟩ : Point3D) = false := by decide

set_option maxHeartbeats 1600000 in
theorem tr_add_89 : ((⟨[26, 27, 38, 41, 42, 43, 46, 47, 58, 59], 10, ⟨0, 0, 0⟩, ⟨⟨2⟩, Orientation.default⟩⟩ : BlockArrangement) : BlockArrangement).add_block_at (⟨1, -1, 0⟩ : Point3D) = some (.ok (), ((⟨[26, 27, 38, 39, 41, 42, 43, 46, 47, 58, 59], 11, ⟨0, 0, 0⟩, ⟨⟨2⟩, Orientation.default⟩⟩ : BlockArrangement) : BlockArrangement)) := by decide

set_option maxHeartbeats 1600000 in
theorem tr_add_90 : ((⟨[42, 43, 47], 3, ⟨0, 0, 0⟩, ⟨⟨2⟩, Orientation.default⟩⟩ : BlockArrangement) : BlockArrangement).add_block_at (⟨1, -1, 0⟩ : Point3D) = some (.ok (), ((⟨[39, 42, 43, 47], 4, ⟨0, 0, 0⟩, ⟨⟨2⟩, Orientation.default⟩⟩ : BlockArrangement) : BlockArrangement)) := by decide

set_option maxHeartbeats 1600000 in
theorem tr_hash_49 : blockHash ((⟨[39, 42, 43, 47], 4, ⟨0, 0, 0⟩, ⟨⟨2⟩, Orientation.default⟩⟩ : BlockArrangement) : BlockArrangement) = some (⟨4, 95711, (0, 50000, 75000)⟩ : BlockHash) := by decide

set_option maxHeartbeats 1600000 in
theorem tr_add_91 : ((⟨[42, 43, 47], 3, ⟨0, 0, 0⟩, ⟨⟨2⟩, Orientation.default⟩⟩ : BlockArrangement) : BlockArrangement).add_block_at (⟨2, 0, 0⟩ : Point3D) = some (.ok (), ((⟨[292, 293, 294, 301], 4, ⟨1, 0, 0⟩, ⟨⟨4⟩, Orientation.default⟩⟩ : BlockArrangement) : BlockArrangement)) := by decide

set_option maxHeartbeats 1600000 in
theorem tr_hash_50 : blockHash ((⟨[292, 293, 294, 301], 4, ⟨1, 0, 0⟩, ⟨⟨4⟩, Orientation.default⟩⟩ : BlockArrangement) : BlockArrangement) = some (⟨4, 75000, (0, 25000, 50000)⟩ : BlockHash) := by decide

theorem tr_is_46 : ((⟨[6636, 6637, 7188, 7189, 7211, 7212, 7213, 7214, 7236, 7237, 7788, 7789], 12, ⟨0, 0, 0⟩, ⟨⟨12⟩, Orientation.default⟩⟩ : BlockArrangement) : BlockArrangement).is_set (⟨1, 1, -1⟩ : Point3D) = false := by decide

set_option maxHeartbeats 1600000 in
theorem tr_add_92 : ((⟨[6636, 6637, 7188, 7189, 7211, 7212, 7213, 7214, 7236, 7237, 7788, 7789], 12, ⟨0, 0, 0⟩, ⟨⟨12⟩, Orientation.default⟩⟩ : BlockArrangement) : BlockArrangement).add_block_at (⟨1, 1, -1⟩ : Point3D) = some (.ok (), ((⟨[6636, 6637, 6661, 7188, 7189, 7211, 7212, 7213, 7214, 7236, 7237, 7788, 7789], 13, ⟨0, 0, 0⟩, ⟨⟨12⟩, Orientation.default⟩⟩ : BlockArrangement) : BlockArrangement)) := by decide

set_option maxHeartbeats 1600000 in
theorem tr_add_93 : ((⟨[42, 43, 47], 3, ⟨0, 0, 0⟩, ⟨⟨2⟩, Orientation.default⟩⟩ : BlockArrangement) : BlockArrangement).add_block_at (⟨1, 1, -1⟩ : Point3D) = some (.ok (), ((⟨[31, 42, 43, 47], 4, ⟨0, 0, 0⟩, ⟨⟨2⟩, Orientation.default⟩⟩ : BlockArrangement) : BlockArrangement)) := by decide

set_option maxHeartbeats 1600000 in
theorem tr_hash_51 : blockHash ((⟨[31, 42, 43, 47], 4, ⟨0, 0, 0⟩, ⟨⟨2⟩, Orientation.default⟩⟩ : BlockArrangement) : BlockArrangement) = some (⟨4, 103657, (25000, 50000, 75000)⟩ : BlockHash) := by decide

theorem tr_is_47 : ((⟨[6636, 6637, 6661, 7188, 7189, 7211, 7212, 7213, 7214, 7236, 7237, 7788, 7789], 13, ⟨0, 0, 0⟩, ⟨⟨12⟩, Orientation.default⟩⟩ : BlockArrangement) : BlockArrangement).is_set (⟨1, 1, 1⟩ : Point3D) = false := by decide

set_option maxHeartbeats 1600000 in
theorem tr_add_94 : ((⟨[6636, 6637, 6661, 7188, 7189, 7211, 7212, 7213, 7214, 7236, 7237, 7788, 7789], 13, ⟨0, 0, 0⟩, ⟨⟨12⟩, Orientation.default⟩⟩ : BlockArrangement) : BlockArrangement).add_block_at (⟨1, 1, 1⟩ : Point3D) = some (.ok (), ((⟨[6636, 6637, 6661, 7188, 7189, 7211, 7212, 7213, 7214, 7236, 7237, 7788, 7789, 7813], 14, ⟨0, 0, 0⟩, ⟨⟨12⟩, Orientation.default⟩⟩ : BlockArrangement) : BlockArrangement)) := by decide

set_option maxHeartbeats 1600000 in
theorem tr_add_95 : ((⟨[42, 43, 47], 3, ⟨0, 0, 0⟩, ⟨⟨2⟩, Orientation.default⟩⟩ : BlockArrangement) : BlockArrangement).add_block_at (⟨1, 1, 1⟩ : Point3D) = some (.ok (), ((⟨[42, 43, 47, 63], 4, ⟨0, 0, 0⟩, ⟨⟨2⟩, Orientation.default⟩⟩ : BlockArrangement) : BlockArrangement)) := by decide

set_option maxHeartbeats 1600000 in
theorem tr_hash_52 : blockHash ((⟨[42, 43, 47, 63], 4, ⟨0, 0, 0⟩, ⟨⟨2⟩, Orientation.default⟩⟩ : BlockArrangement) : BlockArrangement) = some (⟨4, 103657, (25000, 50000, 75000)⟩ : BlockHash) := by decide

theorem tr_is_48 : ((⟨[6636, 6637, 6661, 7188, 7189, 7211, 7212, 7213, 7214, 7236, 7237, 7788, 7789, 7813], 14, ⟨0, 0, 0⟩, ⟨⟨12⟩, Orientation.default⟩⟩ : BlockArrangement) : BlockArrangement).is_set (⟨1, 2, 0⟩ : Point3D) = false := by decide

set_option maxHeartbeats 1600000 in
theorem tr_add_96 : ((⟨[6636, 6637, 6661, 7188, 7189, 7211, 7212, 7213, 7214, 7236, 7237, 7788, 7789, 7813], 14, ⟨0, 0, 0⟩, ⟨⟨12⟩, Orientation.default⟩⟩ : BlockArrangement) : BlockArrangement).add_block_at (⟨1, 2, 0⟩ : Point3D) = some (.ok (), ((⟨[6636, 6637, 6661, 7188, 7189, 7211, 7212, 7213, 7214, 7236, 7237, 7261, 7788, 7789, 7813], 15, ⟨0, 0, 0⟩, ⟨⟨12⟩, Orientation.default⟩⟩ : BlockArrangement) : BlockArrangement)) := by decide

set_option maxHeartbeats 1600000 in
theorem tr_add_97 : ((⟨[42, 43, 47], 3, ⟨0, 0, 0⟩, ⟨⟨2⟩, Orientation.default⟩⟩ : BlockArrangement) : BlockArrangement).add_block_at (⟨1, 2, 0⟩ : Point3D) = some (.ok (), ((⟨[292, 293, 301, 309], 4, ⟨0, 0, 0⟩, ⟨⟨4⟩, Orientation.default⟩⟩ : BlockArrangement) : BlockArrangement)) := by decide

set_option maxHeartbeats 1600000 in
theorem tr_hash_53 : blockHash ((⟨[292, 293, 301, 309], 4, ⟨0, 0, 0⟩, ⟨⟨4⟩, Orientation.default⟩⟩ : BlockArrangement) : BlockArrangement) = some (⟨4, 116257, (0, 75000, 75000)⟩ : BlockHash) := by decide

theorem tr_is_49 : ((⟨[6636, 6637, 6661, 7188, 7189, 7211, 7212, 7213, 7214, 7236, 7237, 7261, 7788, 7789, 7813], 15, ⟨0, 0, 0⟩, ⟨⟨12⟩, Orientation.default⟩⟩ : BlockArrangement) : BlockArrangement).is_set (⟨0, 1, 0⟩ : Point3D) = true := by decide

theorem tr_is_50 : ((⟨[6636, 6637, 6661, 7188, 7189, 7211, 7212, 7213, 7214, 7236, 7237, 7261, 7788, 7789, 7813], 15, ⟨0, 0, 0⟩, ⟨⟨12⟩, Orientation.default⟩⟩ : BlockArrangement) : BlockArrangement).is_set (⟨2, 1, 0⟩ : Point3D) = false := by decide

set_option maxHeartbeats 1600000 in
theorem tr_add_98 : ((⟨[6636, 6637, 6661, 7188, 7189, 7211, 7212, 7213, 7214, 7236, 7237, 7261, 7788, 7789, 7813], 15, ⟨0, 0, 0⟩, ⟨⟨12⟩, Orientation.default⟩⟩ : BlockArrangement) : BlockArrangement).add_block_at (⟨2, 1, 0⟩ : Point3D) = some (.ok (), ((⟨[6636, 6637, 6661, 7188, 7189, 7211, 7212, 7213, 7214, 7236, 7237, 7238, 7261, 7788, 7789, 7813], 16, ⟨0, 0, 0⟩, ⟨⟨12⟩, Orientation.default⟩⟩ : BlockArrangement) : BlockArrangement)) := by decide

set_option maxHeartbeats 1600000 in
theorem tr_add_99 : ((⟨[42, 43, 47], 3, ⟨0, 0, 0⟩, ⟨⟨2⟩, Orientation.default⟩⟩ : BlockArrangement) : BlockArrangement).add_block_at (⟨2, 1, 0⟩ : Point3D) = some (.ok (), ((⟨[292, 293, 301, 302], 4, ⟨1, 0, 0⟩, ⟨⟨4⟩, Orientation.default⟩⟩ : BlockArrangement) : BlockArrangement)) := by decide

set_option maxHeartbeats 1600000 in
theorem tr_hash_54 : blockHash ((⟨[292, 293, 301, 302], 4, ⟨1, 0, 0⟩, ⟨⟨4⟩, Orientation.default⟩⟩ : BlockArrangement) : BlockArrangement) = some (⟨4, 85355, (0, 50000, 50000)⟩ : BlockHash) := by decide

theorem tr_vars_n1 : BlockArrangement.variations nba = some ([c6first, ⟨[42, 58], 2, ⟨0, 0, 0⟩, ⟨⟨2⟩, Orientation.default⟩⟩, ⟨[5, 7], 2, ⟨0, 0, 0⟩, ⟨⟨1⟩, Orientation.default⟩⟩, ⟨[42, 46], 2, ⟨0, 0, 0⟩, ⟨⟨2⟩, Orientation.default⟩⟩, ⟨[6, 7], 2, ⟨0, 0, 0⟩, ⟨⟨1⟩, Orientation.default⟩⟩, domino] : List BlockArrangement) := by
  unfold BlockArrangement.variations
  rw [tr_res_n1, Option.some_bind', tr_cands_n1,
      variationsGo_step tr_is_0 tr_add_0 tr_add_0,
      variationsGo_step tr_is_1 tr_add_1 tr_add_2,
      variationsGo_step tr_is_2 tr_add_3 tr_add_4,
      variationsGo_step tr_is_3 tr_add_5 tr_add_6,
      variationsGo_step tr_is_4 tr_add_7 tr_add_8,
      variationsGo_step tr_is_5 tr_add_9 tr_add_10]
  rfl

theorem tr_vars_d2 : BlockArrangement.variations domino = some ([⟨[26, 42, 43], 3, ⟨0, 0, 0⟩, ⟨⟨2⟩, Orientation.default⟩⟩, ⟨[42, 43, 58], 3, ⟨0, 0, 0⟩, ⟨⟨2⟩, Orientation.default⟩⟩, ⟨[38, 42, 43], 3, ⟨0, 0, 0⟩, ⟨⟨2⟩, Orientation.default⟩⟩, ⟨[42, 43, 46], 3, ⟨0, 0, 0⟩, ⟨⟨2⟩, Orientation.default⟩⟩, ⟨[41, 42, 43], 3, ⟨0, 0, 0⟩, ⟨⟨2⟩, Orientation.default⟩⟩, ⟨[27, 42, 43], 3, ⟨0, 0, 0⟩, ⟨⟨2⟩, Orientation.default⟩⟩, ⟨[42, 43, 59], 3, ⟨0, 0, 0⟩, ⟨⟨2⟩, Orientation.default⟩⟩, ⟨[39, 42, 43], 3, ⟨0, 0, 0⟩, ⟨⟨2⟩, Orientation.default⟩⟩, ⟨[42, 43, 47], 3, ⟨0, 0, 0⟩, ⟨⟨2⟩, Orientation.default⟩⟩, ⟨[129, 130, 131], 3, ⟨1, 0, 0⟩, ⟨⟨3⟩, Orientation.default⟩⟩] : List BlockArrangement) := by
  unfold BlockArrangement.variations
  rw [tr_res_d2, Option.some_bind', tr_cands_d2,
      variationsGo_step tr_is_6 tr_add_11 tr_add_11,
      variationsGo_step tr_is_7 tr_add_12 tr_add_13,
      variationsGo_step tr_is_8 tr_add_14 tr_add_15,
      variationsGo_step tr_is_9 tr_add_16 tr_add_17,
      variationsGo_step tr_is_10 tr_add_18 tr_add_19,
      variationsGo_step tr_is_11 tr_add_20 tr_add_21,
      variationsGo_step tr_is_12 tr_add_22 tr_add_23,
      variationsGo_step tr_is_13 tr_add_24 tr_add_25,
      variationsGo_step tr_is_14 tr_add_26 tr_add_27,
      variationsGo_step tr_is_15 tr_add_28 tr_add_29]
  rfl

theorem tr_vars_r0 : BlockArrangement.variations (⟨[129, 130, 131], 3, ⟨1, 0, 0⟩, ⟨⟨3⟩, Orientation.default⟩⟩ : BlockArrangement) = some ([⟨[93, 129, 130, 131], 4, ⟨0, 0, 0⟩, ⟨⟨3⟩, Orientation.default⟩⟩, ⟨[129, 130, 131, 165], 4, ⟨0, 0, 0⟩, ⟨⟨3⟩, Orientation.default⟩⟩, ⟨[123, 129, 130, 131], 4, ⟨0, 0, 0⟩, ⟨⟨3⟩, Orientation.default⟩⟩, ⟨[129, 130, 131, 135], 4, ⟨0, 0, 0⟩, ⟨⟨3⟩, Orientation.default⟩⟩, ⟨[128, 129, 130, 131], 4, ⟨0, 0, 0⟩, ⟨⟨3⟩, Orientation.default⟩⟩, ⟨[94, 129, 130, 131], 4, ⟨1, 0, 0⟩, ⟨⟨3⟩, Orientation.default⟩⟩, ⟨[129, 130, 131, 166], 4, ⟨1, 0, 0⟩, ⟨⟨3⟩, Orientation.default⟩⟩, ⟨[124, 129, 130, 131], 4, ⟨1, 0, 0⟩, ⟨⟨3⟩, Orientation.default⟩⟩, ⟨[129, 130, 131, 136], 4, ⟨1, 0, 0⟩, ⟨⟨3⟩, Orientation.default⟩⟩, ⟨[95, 129, 130, 131], 4, ⟨1, 0, 0⟩, ⟨⟨3⟩, Orientation.default⟩⟩, ⟨[129, 130, 131, 167], 4, ⟨1, 0, 0⟩, ⟨⟨3⟩, Orientation.default⟩⟩, ⟨[125, 129, 130, 131], 4, ⟨1, 0, 0⟩, ⟨⟨3⟩, Orientation.default⟩⟩, ⟨[129, 130, 131, 137], 4, ⟨1, 0, 0⟩, ⟨⟨3⟩, Orientation.default⟩⟩, ⟨[292, 293, 294, 295], 4, ⟨1, 0, 0⟩, ⟨⟨4⟩, Orientation.default⟩⟩] : List BlockArrangement) := by
  unfold BlockArrangement.variations
  rw [tr_res_r0, Option.some_bind', tr_cands_r0,
      variationsGo_step tr_is_16 tr_add_30 tr_add_30,
      variationsGo_step tr_is_17 tr_add_31 tr_add_32,
      variationsGo_step tr_is_18 tr_add_33 tr_add_34,
      variationsGo_step tr_is_19 tr_add_35 tr_add_36,
      variationsGo_step tr_is_20 tr_add_37 tr_add_38,
      variationsGo_step tr_is_21 tr_add_39 tr_add_40,
      variationsGo_step tr_is_22 tr_add_41 tr_add_42,
      variationsGo_step tr_is_23 tr_add_43 tr_add_44,
      variationsGo_step tr_is_24 tr_add_45 tr_add_46,
      variationsGo_step tr_is_25 tr_add_47 tr_add_48,
      variationsGo_step tr_is_26 tr_add_49 tr_add_50,
      variationsGo_step tr_is_27 tr_add_51 tr_add_52,
      variationsGo_step tr_is_28 tr_add_53 tr_add_54,
      variationsGo_step tr_is_29 tr_add_55 tr_add_56]
  rfl

theorem tr_vars_r1 : BlockArrangement.variations (⟨[42, 43, 46], 3, ⟨0, 0, 0⟩, ⟨⟨2⟩, Orientation.default⟩⟩ : BlockArrangement) = some ([⟨[26, 42, 43, 46], 4, ⟨0, 0, 0⟩, ⟨⟨2⟩, Orientation.default⟩⟩, ⟨[42, 43, 46, 58], 4, ⟨0, 0, 0⟩, ⟨⟨2⟩, Orientation.default⟩⟩, ⟨[38, 42, 43, 46], 4, ⟨0, 0, 0⟩, ⟨⟨2⟩, Orientation.default⟩⟩, ⟨[41, 42, 43, 46], 4, ⟨0, 0, 0⟩, ⟨⟨2⟩, Orientation.default⟩⟩, ⟨[27, 42, 43, 46], 4, ⟨0, 0, 0⟩, ⟨⟨2⟩, Orientation.default⟩⟩, ⟨[42, 43, 46, 59], 4, ⟨0, 0, 0⟩, ⟨⟨2⟩, Orientation.default⟩⟩, ⟨[39, 42, 43, 46], 4, ⟨0, 0, 0⟩, ⟨⟨2⟩, Orientation.default⟩⟩, ⟨[42, 43, 46, 47], 4, ⟨0, 0, 0⟩, ⟨⟨2⟩, Orientation.default⟩⟩, ⟨[292, 293, 294, 300], 4, ⟨0, 0, 0⟩, ⟨⟨4⟩, Orientation.default⟩⟩, ⟨[30, 42, 43, 46], 4, ⟨0, 0, 0⟩, ⟨⟨2⟩, Orientation.default⟩⟩, ⟨[42, 43, 46, 62], 4, ⟨0, 0, 0⟩, ⟨⟨2⟩, Orientation.default⟩⟩, ⟨[292, 293, 300, 308], 4, ⟨0, 0, 0⟩, ⟨⟨4⟩, Orientation.default⟩⟩, ⟨[42, 43, 45, 46], 4, ⟨0, 0, 0⟩, ⟨⟨2⟩, Orientation.default⟩⟩] : List BlockArrangement) := by
  unfold BlockArrangement.variations
  rw [tr_res_r1, Option.some_bind', tr_cands_r1,
      variationsGo_step tr_is_30 tr_add_57 tr_add_57,
      variationsGo_step tr_is_31 tr_add_58 tr_add_59,
      variationsGo_step tr_is_32 tr_add_60 tr_add_61,
      variationsGo_step tr_is_10 tr_add_18 tr_add_62,
      variationsGo_step tr_is_11 tr_add_20 tr_add_63,
      variationsGo_step tr_is_12 tr_add_22 tr_add_64,
      variationsGo_step tr_is_13 tr_add_24 tr_add_65,
      variationsGo_step tr_is_14 tr_add_26 tr_add_66,
      variationsGo_step tr_is_15 tr_add_28 tr_add_67,
      variationsGo_step tr_is_33 tr_add_68 tr_add_69,
      variationsGo_step tr_is_34 tr_add_70 tr_add_71,
      variationsGo_step tr_is_35 tr_add_72 tr_add_73,
      variationsGo_step tr_is_36 tr_add_74 tr_add_75,
      variationsGo_skip tr_is_37]
  rfl

theorem tr_vars_r2 : BlockArrangement.variations (⟨[42, 43, 47], 3, ⟨0, 0, 0⟩, ⟨⟨2⟩, Orientation.default⟩⟩ : BlockArrangement) = some ([⟨[26, 42, 43, 47], 4, ⟨0, 0, 0⟩, ⟨⟨2⟩, Orientation.default⟩⟩, ⟨[42, 43, 47, 58], 4, ⟨0, 0, 0⟩, ⟨⟨2⟩, Orientation.default⟩⟩, ⟨[38, 42, 43, 47], 4, ⟨0, 0, 0⟩, ⟨⟨2⟩, Orientation.default⟩⟩, ⟨[42, 43, 46, 47], 4, ⟨0, 0, 0⟩, ⟨⟨2⟩, Orientation.default⟩⟩, ⟨[41, 42, 43, 47], 4, ⟨0, 0, 0⟩, ⟨⟨2⟩, Orientation.default⟩⟩, ⟨[27, 42, 43, 47], 4, ⟨0, 0, 0⟩, ⟨⟨2⟩, Orientation.default⟩⟩, ⟨[42, 43, 47, 59], 4, ⟨0, 0, 0⟩, ⟨⟨2⟩, Orientation.default⟩⟩, ⟨[39, 42, 43, 47], 4, ⟨0, 0, 0⟩, ⟨⟨2⟩, Orientation.default⟩⟩, ⟨[292, 293, 294, 301], 4, ⟨1, 0, 0⟩, ⟨⟨4⟩, Orientation.default⟩⟩, ⟨[31, 42, 43, 47], 4, ⟨0, 0, 0⟩, ⟨⟨2⟩, Orientation.default⟩⟩, ⟨[42, 43, 47, 63], 4, ⟨0, 0, 0⟩, ⟨⟨2⟩, Orientation.default⟩⟩, ⟨[292, 293, 301, 309], 4, ⟨0, 0, 0⟩, ⟨⟨4⟩, Orientation.default⟩⟩, ⟨[292, 293, 301, 302], 4, ⟨1, 0, 0⟩, ⟨⟨4⟩, Orientation.default⟩⟩] : List BlockArrangement) := by
  unfold BlockArrangement.variations
  rw [tr_res_r2, Option.some_bind', tr_cands_r2,
      variationsGo_step tr_is_38 tr_add_76 tr_add_76,
      variationsGo_step tr_is_39 tr_add_77 tr_add_78,
      variationsGo_step tr_is_40 tr_add_79 tr_add_80,
      variationsGo_step tr_is_41 tr_add_81 tr_add_82,
      variationsGo_step tr_is_42 tr_add_83 tr_add_84,
      variationsGo_step tr_is_43 tr_add_85 tr_add_86,
      variationsGo_step tr_is_44 tr_add_87 tr_add_88,
      variationsGo_step tr_is_45 tr_add_89 tr_add_90,
      variationsGo_step tr_is_15 tr_add_28 tr_add_91,
      variationsGo_step tr_is_46 tr_add_92 tr_add_93,
      variationsGo_step tr_is_47 tr_add_94 tr_add_95,
      variationsGo_step tr_is_48 tr_add_96 tr_add_97,
      variationsGo_skip tr_is_49,
      variationsGo_step tr_is_50 tr_add_98 tr_add_99]
  rfl

theorem tr_flat_L2 : ([[c6first, ⟨[42, 58], 2, ⟨0, 0, 0⟩, ⟨⟨2⟩, Orientation.default⟩⟩, ⟨[5, 7], 2, ⟨0, 0, 0⟩, ⟨⟨1⟩, Orientation.default⟩⟩, ⟨[42, 46], 2, ⟨0, 0, 0⟩, ⟨⟨2⟩, Orientation.default⟩⟩, ⟨[6, 7], 2, ⟨0, 0, 0⟩, ⟨⟨1⟩, Orientation.default⟩⟩, domino]] : List (List BlockArrangement)).flatten = [c6first, ⟨[42, 58], 2, ⟨0, 0, 0⟩, ⟨⟨2⟩, Orientation.default⟩⟩, ⟨[5, 7], 2, ⟨0, 0, 0⟩, ⟨⟨1⟩, Orientation.default⟩⟩, ⟨[42, 46], 2, ⟨0, 0, 0⟩, ⟨⟨2⟩, Orientation.default⟩⟩, ⟨[6, 7], 2, ⟨0, 0, 0⟩, ⟨⟨1⟩, Orientation.default⟩⟩, domino] := by decide

set_option maxHeartbeats 1600000 in
theorem tr_kv_L2 : ([c6first, ⟨[42, 58], 2, ⟨0, 0, 0⟩, ⟨⟨2⟩, Orientation.default⟩⟩, ⟨[5, 7], 2, ⟨0, 0, 0⟩, ⟨⟨1⟩, Orientation.default⟩⟩, ⟨[42, 46], 2, ⟨0, 0, 0⟩, ⟨⟨2⟩, Orientation.default⟩⟩, ⟨[6, 7], 2, ⟨0, 0, 0⟩, ⟨⟨1⟩, Orientation.default⟩⟩, domino] : List BlockArrangement).mapM (fun b => (blockHash b).map ((·, b))) = some [(⟨2, 50000, (0, 0, 50000)⟩, c6first), (⟨2, 50000, (0, 0, 50000)⟩, ⟨[42, 58], 2, ⟨0, 0, 0⟩, ⟨⟨2⟩, Orientation.default⟩⟩), (⟨2, 50000, (0, 0, 50000)⟩, ⟨[5, 7], 2, ⟨0, 0, 0⟩, ⟨⟨1⟩, Orientation.default⟩⟩), (⟨2, 50000, (0, 0, 50000)⟩, ⟨[42, 46], 2, ⟨0, 0, 0⟩, ⟨⟨2⟩, Orientation.default⟩⟩), (⟨2, 50000, (0, 0, 50000)⟩, ⟨[6, 7], 2, ⟨0, 0, 0⟩, ⟨⟨1⟩, Orientation.default⟩⟩), (⟨2, 50000, (0, 0, 50000)⟩, domino)] := by decide

set_option maxHeartbeats 1600000 in
theorem tr_fold_L2 : ([(⟨2, 50000, (0, 0, 50000)⟩, c6first), (⟨2, 50000, (0, 0, 50000)⟩, ⟨[42, 58], 2, ⟨0, 0, 0⟩, ⟨⟨2⟩, Orientation.default⟩⟩), (⟨2, 50000, (0, 0, 50000)⟩, ⟨[5, 7], 2, ⟨0, 0, 0⟩, ⟨⟨1⟩, Orientation.default⟩⟩), (⟨2, 50000, (0, 0, 50000)⟩, ⟨[42, 46], 2, ⟨0, 0, 0⟩, ⟨⟨2⟩, Orientation.default⟩⟩), (⟨2, 50000, (0, 0, 50000)⟩, ⟨[6, 7], 2, ⟨0, 0, 0⟩, ⟨⟨1⟩, Orientation.default⟩⟩), (⟨2, 50000, (0, 0, 50000)⟩, domino)] : List (BlockHash × BlockArrangement)).foldl (fun m kv => insertMap m kv.1 kv.2) ([] : LevelMap) = [(⟨2, 50000, (0, 0, 50000)⟩, domino)] := by decide

theorem tr_gvf_L2 : generate_variants_from ([nba] : List BlockArrangement) = some [(⟨2, 50000, (0, 0, 50000)⟩, domino)] := by
  unfold generate_variants_from
  have hv0 : (([] : List BlockArrangement)).mapM BlockArrangement.variations = some [] := rfl
  have hv1 := mapM_variations_cons tr_vars_n1 hv0
  rw [hv1, Option.some_bind', tr_flat_L2, tr_kv_L2, Option.map_some', tr_fold_L2]

theorem tr_flat_L3 : ([[⟨[26, 42, 43], 3, ⟨0, 0, 0⟩, ⟨⟨2⟩, Orientation.default⟩⟩, ⟨[42, 43, 58], 3, ⟨0, 0, 0⟩, ⟨⟨2⟩, Orientation.default⟩⟩, ⟨[38, 42, 43], 3, ⟨0, 0, 0⟩, ⟨⟨2⟩, Orientation.default⟩⟩, ⟨[42, 43, 46], 3, ⟨0, 0, 0⟩, ⟨⟨2⟩, Orientation.default⟩⟩, ⟨[41, 42, 43], 3, ⟨0, 0, 0⟩, ⟨⟨2⟩, Orientation.default⟩⟩, ⟨[27, 42, 43], 3, ⟨0, 0, 0⟩, ⟨⟨2⟩, Orientation.default⟩⟩, ⟨[42, 43, 59], 3, ⟨0, 0, 0⟩, ⟨⟨2⟩, Orientation.default⟩⟩, ⟨[39, 42, 43], 3, ⟨0, 0, 0⟩, ⟨⟨2⟩, Orientation.default⟩⟩, ⟨[42, 43, 47], 3, ⟨0, 0, 0⟩, ⟨⟨2⟩, Orientation.default⟩⟩, ⟨[129, 130, 131], 3, ⟨1, 0, 0⟩, ⟨⟨3⟩, Orientation.default⟩⟩]] : List (List BlockArrangement)).flatten = [⟨[26, 42, 43], 3, ⟨0, 0, 0⟩, ⟨⟨2⟩, Orientation.default⟩⟩, ⟨[42, 43, 58], 3, ⟨0, 0, 0⟩, ⟨⟨2⟩, Orientation.default⟩⟩, ⟨[38, 42, 43], 3, ⟨0, 0, 0⟩, ⟨⟨2⟩, Orientation.default⟩⟩, ⟨[42, 43, 46], 3, ⟨0, 0, 0⟩, ⟨⟨2⟩, Orientation.default⟩⟩, ⟨[41, 42, 43], 3, ⟨0, 0, 0⟩, ⟨⟨2⟩, Orientation.default⟩⟩, ⟨[27, 42, 43], 3, ⟨0, 0, 0⟩, ⟨⟨2⟩, Orientation.default⟩⟩, ⟨[42, 43, 59], 3, ⟨0, 0, 0⟩, ⟨⟨2⟩, Orientation.default⟩⟩, ⟨[39, 42, 43], 3, ⟨0, 0, 0⟩, ⟨⟨2⟩, Orientation.default⟩⟩, ⟨[42, 43, 47], 3, ⟨0, 0, 0⟩, ⟨⟨2⟩, Orientation.default⟩⟩, ⟨[129, 130, 131], 3, ⟨1, 0, 0⟩, ⟨⟨3⟩, Orientation.default⟩⟩] := by decide

set_option maxHeartbeats 1600000 in
theorem tr_kv_L3 : ([⟨[26, 42, 43], 3, ⟨0, 0, 0⟩, ⟨⟨2⟩, Orientation.default⟩⟩, ⟨[42, 43, 58], 3, ⟨0, 0, 0⟩, ⟨⟨2⟩, Orientation.default⟩⟩, ⟨[38, 42, 43], 3, ⟨0, 0, 0⟩, ⟨⟨2⟩, Orientation.default⟩⟩, ⟨[42, 43, 46], 3, ⟨0, 0, 0⟩, ⟨⟨2⟩, Orientation.default⟩⟩, ⟨[41, 42, 43], 3, ⟨0, 0, 0⟩, ⟨⟨2⟩, Orientation.default⟩⟩, ⟨[27, 42, 43], 3, ⟨0, 0, 0⟩, ⟨⟨2⟩, Orientation.default⟩⟩, ⟨[42, 43, 59], 3, ⟨0, 0, 0⟩, ⟨⟨2⟩, Orientation.default⟩⟩, ⟨[39, 42, 43], 3, ⟨0, 0, 0⟩, ⟨⟨2⟩, Orientation.default⟩⟩, ⟨[42, 43, 47], 3, ⟨0, 0, 0⟩, ⟨⟨2⟩, Orientation.default⟩⟩, ⟨[129, 130, 131], 3, ⟨1, 0, 0⟩, ⟨⟨3⟩, Orientation.default⟩⟩] : List BlockArrangement).mapM (fun b => (blockHash b).map ((·, b))) = some [(⟨3, 66667, (0, 33333, 33333)⟩, ⟨[26, 42, 43], 3, ⟨0, 0, 0⟩, ⟨⟨2⟩, Orientation.default⟩⟩), (⟨3, 66667, (0, 33333, 33333)⟩, ⟨[42, 43, 58], 3, ⟨0, 0, 0⟩, ⟨⟨2⟩, Orientation.default⟩⟩), (⟨3, 66667, (0, 33333, 33333)⟩, ⟨[38, 42, 43], 3, ⟨0, 0, 0⟩, ⟨⟨2⟩, Orientation.default⟩⟩), (⟨3, 66667, (0, 33333, 33333)⟩, ⟨[42, 43, 46], 3, ⟨0, 0, 0⟩, ⟨⟨2⟩, Orientation.default⟩⟩), (⟨3, 66667, (0, 0, 66667)⟩, ⟨[41, 42, 43], 3, ⟨0, 0, 0⟩, ⟨⟨2⟩, Orientation.default⟩⟩), (⟨3, 80474, (0, 33333, 66667)⟩, ⟨[27, 42, 43], 3, ⟨0, 0, 0⟩, ⟨⟨2⟩, Orientation.default⟩⟩), (⟨3, 80474, (0, 33333, 66667)⟩, ⟨[42, 43, 59], 3, ⟨0, 0, 0⟩, ⟨⟨2⟩, Orientation.default⟩⟩), (⟨3, 80474, (0, 33333, 66667)⟩, ⟨[39, 42, 43], 3, ⟨0, 0, 0⟩, ⟨⟨2⟩, Orientation.default⟩⟩), (⟨3, 80474, (0, 33333, 66667)⟩, ⟨[42, 43, 47], 3, ⟨0, 0, 0⟩, ⟨⟨2⟩, Orientation.default⟩⟩), (⟨3, 66667, (0, 0, 66667)⟩, ⟨[129, 130, 131], 3, ⟨1, 0, 0⟩, ⟨⟨3⟩, Orientation.default⟩⟩)] := by decide

set_option maxHeartbeats 1600000 in
theorem tr_fold_L3 : ([(⟨3, 66667, (0, 33333, 33333)⟩, ⟨[26, 42, 43], 3, ⟨0, 0, 0⟩, ⟨⟨2⟩, Orientation.default⟩⟩), (⟨3, 66667, (0, 33333, 33333)⟩, ⟨[42, 43, 58], 3, ⟨0, 0, 0⟩, ⟨⟨2⟩, Orientation.default⟩⟩), (⟨3, 66667, (0, 33333, 33333)⟩, ⟨[38, 42, 43], 3, ⟨0, 0, 0⟩, ⟨⟨2⟩, Orientation.default⟩⟩), (⟨3, 66667, (0, 33333, 33333)⟩, ⟨[42, 43, 46], 3, ⟨0, 0, 0⟩, ⟨⟨2⟩, Orientation.default⟩⟩), (⟨3, 66667, (0, 0, 66667)⟩, ⟨[41, 42, 43], 3, ⟨0, 0, 0⟩, ⟨⟨2⟩, Orientation.default⟩⟩), (⟨3, 80474, (0, 33333, 66667)⟩, ⟨[27, 42, 43], 3, ⟨0, 0, 0⟩, ⟨⟨2⟩, Orientation.default⟩⟩), (⟨3, 80474, (0, 33333, 66667)⟩, ⟨[42, 43, 59], 3, ⟨0, 0, 0⟩, ⟨⟨2⟩, Orientation.default⟩⟩), (⟨3, 80474, (0, 33333, 66667)⟩, ⟨[39, 42, 43], 3, ⟨0, 0, 0⟩, ⟨⟨2⟩, Orientation.default⟩⟩), (⟨3, 80474, (0, 33333, 66667)⟩, ⟨[42, 43, 47], 3, ⟨0, 0, 0⟩, ⟨⟨2⟩, Orientation.default⟩⟩), (⟨3, 66667, (0, 0, 66667)⟩, ⟨[129, 130, 131], 3, ⟨1, 0, 0⟩, ⟨⟨3⟩, Orientation.default⟩⟩)] : List (BlockHash × BlockArrangement)).foldl (fun m kv => insertMap m kv.1 kv.2) ([] : LevelMap) = [(⟨3, 66667, (0, 0, 66667)⟩, ⟨[129, 130, 131], 3, ⟨1, 0, 0⟩, ⟨⟨3⟩, Orientation.default⟩⟩), (⟨3, 66667, (0, 33333, 33333)⟩, ⟨[42, 43, 46], 3, ⟨0, 0, 0⟩, ⟨⟨2⟩, Orientation.default⟩⟩), (⟨3, 80474, (0, 33333, 66667)⟩, ⟨[42, 43, 47], 3, ⟨0, 0, 0⟩, ⟨⟨2⟩, Orientation.default⟩⟩)] := by decide

theorem tr_gvf_L3 : generate_variants_from ([domino] : List BlockArrangement) = some [(⟨3, 66667, (0, 0, 66667)⟩, ⟨[129, 130, 131], 3, ⟨1, 0, 0⟩, ⟨⟨3⟩, Orientation.default⟩⟩), (⟨3, 66667, (0, 33333, 33333)⟩, ⟨[42, 43, 46], 3, ⟨0, 0, 0⟩, ⟨⟨2⟩, Orientation.default⟩⟩), (⟨3, 80474, (0, 33333, 66667)⟩, ⟨[42, 43, 47], 3, ⟨0, 0, 0⟩, ⟨⟨2⟩, Orientation.default⟩⟩)] := by
  unfold generate_variants_from
  have hv0 : (([] : List BlockArrangement)).mapM BlockArrangement.variations = some [] := rfl
  have hv1 := mapM_variations_cons tr_vars_d2 hv0
  rw [hv1, Option.some_bind', tr_flat_L3, tr_kv_L3, Option.map_some', tr_fold_L3]

theorem tr_flat_L4 : ([[⟨[93, 129, 130, 131], 4, ⟨0, 0, 0⟩, ⟨⟨3⟩, Orientation.default⟩⟩, ⟨[129, 130, 131, 165], 4, ⟨0, 0, 0⟩, ⟨⟨3⟩, Orientation.default⟩⟩, ⟨[123, 129, 130, 131], 4, ⟨0, 0, 0⟩, ⟨⟨3⟩, Orientation.default⟩⟩, ⟨[129, 130, 131, 135], 4, ⟨0, 0, 0⟩, ⟨⟨3⟩, Orientation.default⟩⟩, ⟨[128, 129, 130, 131], 4, ⟨0, 0, 0⟩, ⟨⟨3⟩, Orientation.default⟩⟩, ⟨[94, 129, 130, 131], 4, ⟨1, 0, 0⟩, ⟨⟨3⟩, Orientation.default⟩⟩, ⟨[129, 130, 131, 166], 4, ⟨1, 0, 0⟩, ⟨⟨3⟩, Orientation.default⟩⟩, ⟨[124, 129, 130, 131], 4, ⟨1, 0, 0⟩, ⟨⟨3⟩, Orientation.default⟩⟩, ⟨[129, 130, 131, 136], 4, ⟨1, 0, 0⟩, ⟨⟨3⟩, Orientation.default⟩⟩, ⟨[95, 129, 130, 131], 4, ⟨1, 0, 0⟩, ⟨⟨3⟩, Orientation.default⟩⟩, ⟨[129, 130, 131, 167], 4, ⟨1, 0, 0⟩, ⟨⟨3⟩, Orientation.default⟩⟩, ⟨[125, 129, 130, 131], 4, ⟨1, 0, 0⟩, ⟨⟨3⟩, Orientation.default⟩⟩, ⟨[129, 130, 131, 137], 4, ⟨1, 0, 0⟩, ⟨⟨3⟩, Orientation.default⟩⟩, ⟨[292, 293, 294, 295], 4, ⟨1, 0, 0⟩, ⟨⟨4⟩, Orientation.default⟩⟩], [⟨[26, 42, 43, 46], 4, ⟨0, 0, 0⟩, ⟨⟨2⟩, Orientation.default⟩⟩, ⟨[42, 43, 46, 58], 4, ⟨0, 0, 0⟩, ⟨⟨2⟩, Orientation.default⟩⟩, ⟨[38, 42, 43, 46], 4, ⟨0, 0, 0⟩, ⟨⟨2⟩, Orientation.default⟩⟩, ⟨[41, 42, 43, 46], 4, ⟨0, 0, 0⟩, ⟨⟨2⟩, Orientation.default⟩⟩, ⟨[27, 42, 43, 46], 4, ⟨0, 0, 0⟩, ⟨⟨2⟩, Orientation.default⟩⟩, ⟨[42, 43, 46, 59], 4, ⟨0, 0, 0⟩, ⟨⟨2⟩, Orientation.default⟩⟩, ⟨[39, 42, 43, 46], 4, ⟨0, 0, 0⟩, ⟨⟨2⟩, Orientation.default⟩⟩, ⟨[42, 43, 46, 47], 4, ⟨0, 0, 0⟩, ⟨⟨2⟩, Orientation.default⟩⟩, ⟨[292, 293, 294, 300], 4, ⟨0, 0, 0⟩, ⟨⟨4⟩, Orientation.default⟩⟩, ⟨[30, 42, 43, 46], 4, ⟨0, 0, 0⟩, ⟨⟨2⟩, Orientation.default⟩⟩, ⟨[42, 43, 46, 62], 4, ⟨0, 0, 0⟩, ⟨⟨2⟩, Orientation.default⟩⟩, ⟨[292, 293, 300, 308], 4, ⟨0, 0, 0⟩, ⟨⟨4⟩, Orientation.default⟩⟩, ⟨[42, 43, 45, 46], 4, ⟨0, 0, 0⟩, ⟨⟨2⟩, Orientation.default⟩⟩], [⟨[26, 42, 43, 47], 4, ⟨0, 0, 0⟩, ⟨⟨2⟩, Orientation.default⟩⟩, ⟨[42, 43, 47, 58], 4, ⟨0, 0, 0⟩, ⟨⟨2⟩, Orientation.default⟩⟩, ⟨[38, 42, 43, 47], 4, ⟨0, 0, 0⟩, ⟨⟨2⟩, Orientation.default⟩⟩, ⟨[42, 43, 46, 47], 4, ⟨0, 0, 0⟩, ⟨⟨2⟩, Orientation.default⟩⟩, ⟨[41, 42, 43, 47], 4, ⟨0, 0, 0⟩, ⟨⟨2⟩, Orientation.default⟩⟩, ⟨[27, 42, 43, 47], 4, ⟨0, 0, 0⟩, ⟨⟨2⟩, Orientation.default⟩⟩, ⟨[42, 43, 47, 59], 4, ⟨0, 0, 0⟩, ⟨⟨2⟩, Orientation.default⟩⟩, ⟨[39, 42, 43, 47], 4, ⟨0, 0, 0⟩, ⟨⟨2⟩, Orientation.default⟩⟩, ⟨[292, 293, 294, 301], 4, ⟨1, 0, 0⟩, ⟨⟨4⟩, Orientation.default⟩⟩, ⟨[31, 42, 43, 47], 4, ⟨0, 0, 0⟩, ⟨⟨2⟩, Orientation.default⟩⟩, ⟨[42, 43, 47, 63], 4, ⟨0, 0, 0⟩, ⟨⟨2⟩, Orientation.default⟩⟩, ⟨[292, 293, 301, 309], 4, ⟨0, 0, 0⟩, ⟨⟨4⟩, Orientation.default⟩⟩, ⟨[292, 293, 301, 302], 4, ⟨1, 0, 0⟩, ⟨⟨4⟩, Orientation.default⟩⟩]] : List (List BlockArrangement)).flatten = [⟨[93, 129, 130, 131], 4, ⟨0, 0, 0⟩, ⟨⟨3⟩, Orientation.default⟩⟩, ⟨[129, 130, 131, 165], 4, ⟨0, 0, 0⟩, ⟨⟨3⟩, Orientation.default⟩⟩, ⟨[123, 129, 130, 131], 4, ⟨0, 0, 0⟩, ⟨⟨3⟩, Orientation.default⟩⟩, ⟨[129, 130, 131, 135], 4, ⟨0, 0, 0⟩, ⟨⟨3⟩, Orientation.default⟩⟩, ⟨[128, 129, 130, 131], 4, ⟨0, 0, 0⟩, ⟨⟨3⟩, Orientation.default⟩⟩, ⟨[94, 129, 130, 131], 4, ⟨1, 0, 0⟩, ⟨⟨3⟩, Orientation.default⟩⟩, ⟨[129, 130, 131, 166], 4, ⟨1, 0, 0⟩, ⟨⟨3⟩, Orientation.default⟩⟩, ⟨[124, 129, 130, 131], 4, ⟨1, 0, 0⟩, ⟨⟨3⟩, Orientation.default⟩⟩, ⟨[129, 130, 131, 136], 4, ⟨1, 0, 0⟩, ⟨⟨3⟩, Orientation.default⟩⟩, ⟨[95, 129, 130, 131], 4, ⟨1, 0, 0⟩, ⟨⟨3⟩, Orientation.default⟩⟩, ⟨[129, 130, 131, 167], 4, ⟨1, 0, 0⟩, ⟨⟨3⟩, Orientation.default⟩⟩, ⟨[125, 129, 130, 131], 4, ⟨1, 0, 0⟩, ⟨⟨3⟩, Orientation.default⟩⟩, ⟨[129, 130, 131, 137], 4, ⟨1, 0, 0⟩, ⟨⟨3⟩, Orientation.default⟩⟩, ⟨[292, 293, 294, 295], 4, ⟨1, 0, 0⟩, ⟨⟨4⟩, Orientation.default⟩⟩, ⟨[26, 42, 43, 46], 4, ⟨0, 0, 0⟩, ⟨⟨2⟩, Orientation.default⟩⟩, ⟨[42, 43, 46, 58], 4, ⟨0, 0, 0⟩, ⟨⟨2⟩, Orientation.default⟩⟩, ⟨[38, 42, 43, 46], 4, ⟨0, 0, 0⟩, ⟨⟨2⟩, Orientation.default⟩⟩, ⟨[41, 42, 43, 46], 4, ⟨0, 0, 0⟩, ⟨⟨2⟩, Orientation.default⟩⟩, ⟨[27, 42, 43, 46], 4, ⟨0, 0, 0⟩, ⟨⟨2⟩, Orientation.default⟩⟩, ⟨[42, 43, 46, 59], 4, ⟨0, 0, 0⟩, ⟨⟨2⟩, Orientation.default⟩⟩, ⟨[39, 42, 43, 46], 4, ⟨0, 0, 0⟩, ⟨⟨2⟩, Orientation.default⟩⟩, ⟨[42, 43, 46, 47], 4, ⟨0, 0, 0⟩, ⟨⟨2⟩, Orientation.default⟩⟩, ⟨[292, 293, 294, 300], 4, ⟨0, 0, 0⟩, ⟨⟨4⟩, Orientation.default⟩⟩, ⟨[30, 42, 43, 46], 4, ⟨0, 0, 0⟩, ⟨⟨2⟩, Orientation.default⟩⟩, ⟨[42, 43, 46, 62], 4, ⟨0, 0, 0⟩, ⟨⟨2⟩, Orientation.default⟩⟩, ⟨[292, 293, 300, 308], 4, ⟨0, 0, 0⟩, ⟨⟨4⟩, Orientation.default⟩⟩, ⟨[42, 43, 45, 46], 4, ⟨0, 0, 0⟩, ⟨⟨2⟩, Orientation.default⟩⟩, ⟨[26, 42, 43, 47], 4, ⟨0, 0, 0⟩, ⟨⟨2⟩, Orientation.default⟩⟩, ⟨[42, 43, 47, 58], 4, ⟨0, 0, 0⟩, ⟨⟨2⟩, Orientation.default⟩⟩, ⟨[38, 42, 43, 47], 4, ⟨0, 0, 0⟩, ⟨⟨2⟩, Orientation.default⟩⟩, ⟨[42, 43, 46, 47], 4, ⟨0, 0, 0⟩, ⟨⟨2⟩, Orientation.default⟩⟩, ⟨[41, 42, 43, 47], 4, ⟨0, 0, 0⟩, ⟨⟨2⟩, Orientation.default⟩⟩, ⟨[27, 42, 43, 47], 4, ⟨0, 0, 0⟩, ⟨⟨2⟩, Orientation.default⟩⟩, ⟨[42, 43, 47, 59], 4, ⟨0, 0, 0⟩, ⟨⟨2⟩, Orientation.default⟩⟩, ⟨[39, 42, 43, 47], 4, ⟨0, 0, 0⟩, ⟨⟨2⟩, Orientation.default⟩⟩, ⟨[292, 293, 294, 301], 4, ⟨1, 0, 0⟩, ⟨⟨4⟩, Orientation.default⟩⟩, ⟨[31, 42, 43, 47], 4, ⟨0, 0, 0⟩, ⟨⟨2⟩, Orientation.default⟩⟩, ⟨[42, 43, 47, 63], 4, ⟨0, 0, 0⟩, ⟨⟨2⟩, Orientation.default⟩⟩, ⟨[292, 293, 301, 309], 4, ⟨0, 0, 0⟩, ⟨⟨4⟩, Orientation.default⟩⟩, ⟨[292, 293, 301, 302], 4, ⟨1, 0, 0⟩, ⟨⟨4⟩, Orientation.default⟩⟩] := by decide

set_option maxHeartbeats 1600000 in
theorem tr_kv_L4 : ([⟨[93, 129, 130, 131], 4, ⟨0, 0, 0⟩, ⟨⟨3⟩, Orientation.default⟩⟩, ⟨[129, 130, 131, 165], 4, ⟨0, 0, 0⟩, ⟨⟨3⟩, Orientation.default⟩⟩, ⟨[123, 129, 130, 131], 4, ⟨0, 0, 0⟩, ⟨⟨3⟩, Orientation.default⟩⟩, ⟨[129, 130, 131, 135], 4, ⟨0, 0, 0⟩, ⟨⟨3⟩, Orientation.default⟩⟩, ⟨[128, 129, 130, 131], 4, ⟨0, 0, 0⟩, ⟨⟨3⟩, Orientation.default⟩⟩, ⟨[94, 129, 130, 131], 4, ⟨1, 0, 0⟩, ⟨⟨3⟩, Orientation.default⟩⟩, ⟨[129, 130, 131, 166], 4, ⟨1, 0, 0⟩, ⟨⟨3⟩, Orientation.default⟩⟩, ⟨[124, 129, 130, 131], 4, ⟨1, 0, 0⟩, ⟨⟨3⟩, Orientation.default⟩⟩, ⟨[129, 130, 131, 136], 4, ⟨1, 0, 0⟩, ⟨⟨3⟩, Orientation.default⟩⟩, ⟨[95, 129, 130, 131], 4, ⟨1, 0, 0⟩, ⟨⟨3⟩, Orientation.default⟩⟩, ⟨[129, 130, 131, 167], 4, ⟨1, 0, 0⟩, ⟨⟨3⟩, Orientation.default⟩⟩, ⟨[125, 129, 130, 131], 4, ⟨1, 0, 0⟩, ⟨⟨3⟩, Orientation.default⟩⟩, ⟨[129, 130, 131, 137], 4, ⟨1, 0, 0⟩, ⟨⟨3⟩, Orientation.default⟩⟩, ⟨[292, 293, 294, 295], 4, ⟨1, 0, 0⟩, ⟨⟨4⟩, Orientation.default⟩⟩, ⟨[26, 42, 43, 46], 4, ⟨0, 0, 0⟩, ⟨⟨2⟩, Orientation.default⟩⟩, ⟨[42, 43, 46, 58], 4, ⟨0, 0, 0⟩, ⟨⟨2⟩, Orientation.default⟩⟩, ⟨[38, 42, 43, 46], 4, ⟨0, 0, 0⟩, ⟨⟨2⟩, Orientation.default⟩⟩, ⟨[41, 42, 43, 46], 4, ⟨0, 0, 0⟩, ⟨⟨2⟩, Orientation.default⟩⟩, ⟨[27, 42, 43, 46], 4, ⟨0, 0, 0⟩, ⟨⟨2⟩, Orientation.default⟩⟩, ⟨[42, 43, 46, 59], 4, ⟨0, 0, 0⟩, ⟨⟨2⟩, Orientation.default⟩⟩, ⟨[39, 42, 43, 46], 4, ⟨0, 0, 0⟩, ⟨⟨2⟩, Orientation.default⟩⟩, ⟨[42, 43, 46, 47], 4, ⟨0, 0, 0⟩, ⟨⟨2⟩, Orientation.default⟩⟩, ⟨[292, 293, 294, 300], 4, ⟨0, 0, 0⟩, ⟨⟨4⟩, Orientation.default⟩⟩, ⟨[30, 42, 43, 46], 4, ⟨0, 0, 0⟩, ⟨⟨2⟩, Orientation.default⟩⟩, ⟨[42, 43, 46, 62], 4, ⟨0, 0, 0⟩, ⟨⟨2⟩, Orientation.default⟩⟩, ⟨[292, 293, 300, 308], 4, ⟨0, 0, 0⟩, ⟨⟨4⟩, Orientation.default⟩⟩, ⟨[42, 43, 45, 46], 4, ⟨0, 0, 0⟩, ⟨⟨2⟩, Orientation.default⟩⟩, ⟨[26, 42, 43, 47], 4, ⟨0, 0, 0⟩, ⟨⟨2⟩, Orientation.default⟩⟩, ⟨[42, 43, 47, 58], 4, ⟨0, 0, 0⟩, ⟨⟨2⟩, Orientation.default⟩⟩, ⟨[38, 42, 43, 47], 4, ⟨0, 0, 0⟩, ⟨⟨2⟩, Orientation.default⟩⟩, ⟨[42, 43, 46, 47], 4, ⟨0, 0, 0⟩, ⟨⟨2⟩, Orientation.default⟩⟩, ⟨[41, 42, 43, 47], 4, ⟨0, 0, 0⟩, ⟨⟨2⟩, Orientation.default⟩⟩, ⟨[27, 42, 43, 47], 4, ⟨0, 0, 0⟩, ⟨⟨2⟩, Orientation.default⟩⟩, ⟨[42, 43, 47, 59], 4, ⟨0, 0, 0⟩, ⟨⟨2⟩, Orientation.default⟩⟩, ⟨[39, 42, 43, 47], 4, ⟨0, 0, 0⟩, ⟨⟨2⟩, Orientation.default⟩⟩, ⟨[292, 293, 294, 301], 4, ⟨1, 0, 0⟩, ⟨⟨4⟩, Orientation.default⟩⟩, ⟨[31, 42, 43, 47], 4, ⟨0, 0, 0⟩, ⟨⟨2⟩, Orientation.default⟩⟩, ⟨[42, 43, 47, 63], 4, ⟨0, 0, 0⟩, ⟨⟨2⟩, Orientation.default⟩⟩, ⟨[292, 293, 301, 309], 4, ⟨0, 0, 0⟩, ⟨⟨4⟩, Orientation.default⟩⟩, ⟨[292, 293, 301, 302], 4, ⟨1, 0, 0⟩, ⟨⟨4⟩, Orientation.default⟩⟩] : List BlockArrangement).mapM (fun b => (blockHash b).map ((·, b))) = some [(⟨4, 100000, (0, 25000, 75000)⟩, ⟨[93, 129, 130, 131], 4, ⟨0, 0, 0⟩, ⟨⟨3⟩, Orientation.default⟩⟩), (⟨4, 100000, (0, 25000, 75000)⟩, ⟨[129, 130, 131, 165], 4, ⟨0, 0, 0⟩, ⟨⟨3⟩, Orientation.default⟩⟩), (⟨4, 100000, (0, 25000, 75000)⟩, ⟨[123, 129, 130, 131], 4, ⟨0, 0, 0⟩, ⟨⟨3⟩, Orientation.default⟩⟩), (⟨4, 100000, (0, 25000, 75000)⟩, ⟨[129, 130, 131, 135], 4, ⟨0, 0, 0⟩, ⟨⟨3⟩, Orientation.default⟩⟩), (⟨4, 100000, (0, 0, 100000)⟩, ⟨[128, 129, 130, 131], 4, ⟨0, 0, 0⟩, ⟨⟨3⟩, Orientation.default⟩⟩), (⟨4, 75000, (0, 25000, 50000)⟩, ⟨[94, 129, 130, 131], 4, ⟨1, 0, 0⟩, ⟨⟨3⟩, Orientation.default⟩⟩), (⟨4, 75000, (0, 25000, 50000)⟩, ⟨[129, 130, 131, 166], 4, ⟨1, 0, 0⟩, ⟨⟨3⟩, Orientation.default⟩⟩), (⟨4, 75000, (0, 25000, 50000)⟩, ⟨[124, 129, 130, 131], 4, ⟨1, 0, 0⟩, ⟨⟨3⟩, Orientation.default⟩⟩), (⟨4, 75000, (0, 25000, 50000)⟩, ⟨[129, 130, 131, 136], 4, ⟨1, 0, 0⟩, ⟨⟨3⟩, Orientation.default⟩⟩), (⟨4, 85355, (0, 25000, 75000)⟩, ⟨[95, 129, 130, 131], 4, ⟨1, 0, 0⟩, ⟨⟨3⟩, Orientation.default⟩⟩), (⟨4, 85355, (0, 25000, 75000)⟩, ⟨[129, 130, 131, 167], 4, ⟨1, 0, 0⟩, ⟨⟨3⟩, Orientation.default⟩⟩), (⟨4, 85355, (0, 25000, 75000)⟩, ⟨[125, 129, 130, 131], 4, ⟨1, 0, 0⟩, ⟨⟨3⟩, Orientation.default⟩⟩), (⟨4, 85355, (0, 25000, 75000)⟩, ⟨[129, 130, 131, 137], 4, ⟨1, 0, 0⟩, ⟨⟨3⟩, Orientation.default⟩⟩), (⟨4, 100000, (0, 0, 100000)⟩, ⟨[292, 293, 294, 295], 4, ⟨1, 0, 0⟩, ⟨⟨4⟩, Orientation.default⟩⟩), (⟨4, 75000, (25000, 25000, 25000)⟩, ⟨[26, 42, 43, 46], 4, ⟨0, 0, 0⟩, ⟨⟨2⟩, Orientation.default⟩⟩), (⟨4, 75000, (25000, 25000, 25000)⟩, ⟨[42, 43, 46, 58], 4, ⟨0, 0, 0⟩, ⟨⟨2⟩, Orientation.default⟩⟩), (⟨4, 75000, (0, 25000, 50000)⟩, ⟨[38, 42, 43, 46], 4, ⟨0, 0, 0⟩, ⟨⟨2⟩, Orientation.default⟩⟩), (⟨4, 75000, (0, 25000, 50000)⟩, ⟨[41, 42, 43, 46], 4, ⟨0, 0, 0⟩, ⟨⟨2⟩, Orientation.default⟩⟩), (⟨4, 85355, (25000, 25000, 50000)⟩, ⟨[27, 42, 43, 46], 4, ⟨0, 0, 0⟩, ⟨⟨2⟩, Orientation.default⟩⟩), (⟨4, 85355, (25000, 25000, 50000)⟩, ⟨[42, 43, 46, 59], 4, ⟨0, 0, 0⟩, ⟨⟨2⟩, Orientation.default⟩⟩), (⟨4, 85355, (0, 50000, 50000)⟩, ⟨[39, 42, 43, 46], 4, ⟨0, 0, 0⟩, ⟨⟨2⟩, Orientation.default⟩⟩), (⟨4, 85355, (0, 50000, 50000)⟩, ⟨[42, 43, 46, 47], 4, ⟨0, 0, 0⟩, ⟨⟨2⟩, Orientation.default⟩⟩), (⟨4, 100000, (0, 25000, 75000)⟩, ⟨[292, 293, 294, 300], 4, ⟨0, 0, 0⟩, ⟨⟨4⟩, Orientation.default⟩⟩), (⟨4, 85355, (25000, 25000, 50000)⟩, ⟨[30, 42, 43, 46], 4, ⟨0, 0, 0⟩, ⟨⟨2⟩, Orientation.default⟩⟩), (⟨4, 85355, (25000, 25000, 50000)⟩, ⟨[42, 43, 46, 62], 4, ⟨0, 0, 0⟩, ⟨⟨2⟩, Orientation.default⟩⟩), (⟨4, 100000, (0, 25000, 75000)⟩, ⟨[292, 293, 300, 308], 4, ⟨0, 0, 0⟩, ⟨⟨4⟩, Orientation.default⟩⟩), (⟨4, 85355, (0, 50000, 50000)⟩, ⟨[42, 43, 45, 46], 4, ⟨0, 0, 0⟩, ⟨⟨2⟩, Orientation.default⟩⟩), (⟨4, 85355, (25000, 25000, 50000)⟩, ⟨[26, 42, 43, 47], 4, ⟨0, 0, 0⟩, ⟨⟨2⟩, Orientation.default⟩⟩), (⟨4, 85355, (25000, 25000, 50000)⟩, ⟨[42, 43, 47, 58], 4, ⟨0, 0, 0⟩, ⟨⟨2⟩, Orientation.default⟩⟩), (⟨4, 85355, (0, 50000, 50000)⟩, ⟨[38, 42, 43, 47], 4, ⟨0, 0, 0⟩, ⟨⟨2⟩, Orientation.default⟩⟩), (⟨4, 85355, (0, 50000, 50000)⟩, ⟨[42, 43, 46, 47], 4, ⟨0, 0, 0⟩, ⟨⟨2⟩, Orientation.default⟩⟩), (⟨4, 85355, (0, 25000, 75000)⟩, ⟨[41, 42, 43, 47], 4, ⟨0, 0, 0⟩, ⟨⟨2⟩, Orientation.default⟩⟩), (⟨4, 95711, (25000, 25000, 75000)⟩, ⟨[27, 42, 43, 47], 4, ⟨0, 0, 0⟩, ⟨⟨2⟩, Orientation.default⟩⟩), (⟨4, 95711, (25000, 25000, 75000)⟩, ⟨[42, 43, 47, 59], 4, ⟨0, 0, 0⟩, ⟨⟨2⟩, Orientation.default⟩⟩), (⟨4, 95711, (0, 50000, 75000)⟩, ⟨[39, 42, 43, 47], 4, ⟨0, 0, 0⟩, ⟨⟨2⟩, Orientation.default⟩⟩), (⟨4, 75000, (0, 25000, 50000)⟩, ⟨[292, 293, 294, 301], 4, ⟨1, 0, 0⟩, ⟨⟨4⟩, Orientation.default⟩⟩), (⟨4, 103657, (25000, 50000, 75000)⟩, ⟨[31, 42, 43, 47], 4, ⟨0, 0, 0⟩, ⟨⟨2⟩, Orientation.default⟩⟩), (⟨4, 103657, (25000, 50000, 75000)⟩, ⟨[42, 43, 47, 63], 4, ⟨0, 0, 0⟩, ⟨⟨2⟩, Orientation.default⟩⟩), (⟨4, 116257, (0, 75000, 75000)⟩, ⟨[292, 293, 301, 309], 4, ⟨0, 0, 0⟩, ⟨⟨4⟩, Orientation.default⟩⟩), (⟨4, 85355, (0, 50000, 50000)⟩, ⟨[292, 293, 301, 302], 4, ⟨1, 0, 0⟩, ⟨⟨4⟩, Orientation.default⟩⟩)] := by decide

set_option maxHeartbeats 1600000 in
theorem tr_fold_L4 : ([(⟨4, 100000, (0, 25000, 75000)⟩, ⟨[93, 129, 130, 131], 4, ⟨0, 0, 0⟩, ⟨⟨3⟩, Orientation.default⟩⟩), (⟨4, 100000, (0, 25000, 75000)⟩, ⟨[129, 130, 131, 165], 4, ⟨0, 0, 0⟩, ⟨⟨3⟩, Orientation.default⟩⟩), (⟨4, 100000, (0, 25000, 75000)⟩, ⟨[123, 129, 130, 131], 4, ⟨0, 0, 0⟩, ⟨⟨3⟩, Orientation.default⟩⟩), (⟨4, 100000, (0, 25000, 75000)⟩, ⟨[129, 130, 131, 135], 4, ⟨0, 0, 0⟩, ⟨⟨3⟩, Orientation.default⟩⟩), (⟨4, 100000, (0, 0, 100000)⟩, ⟨[128, 129, 130, 131], 4, ⟨0, 0, 0⟩, ⟨⟨3⟩, Orientation.default⟩⟩), (⟨4, 75000, (0, 25000, 50000)⟩, ⟨[94, 129, 130, 131], 4, ⟨1, 0, 0⟩, ⟨⟨3⟩, Orientation.default⟩⟩), (⟨4, 75000, (0, 25000, 50000)⟩, ⟨[129, 130, 131, 166], 4, ⟨1, 0, 0⟩, ⟨⟨3⟩, Orientation.default⟩⟩), (⟨4, 75000, (0, 25000, 50000)⟩, ⟨[124, 129, 130, 131], 4, ⟨1, 0, 0⟩, ⟨⟨3⟩, Orientation.default⟩⟩), (⟨4, 75000, (0, 25000, 50000)⟩, ⟨[129, 130, 131, 136], 4, ⟨1, 0, 0⟩, ⟨⟨3⟩, Orientation.default⟩⟩), (⟨4, 85355, (0, 25000, 75000)⟩, ⟨[95, 129, 130, 131], 4, ⟨1, 0, 0⟩, ⟨⟨3⟩, Orientation.default⟩⟩), (⟨4, 85355, (0, 25000, 75000)⟩, ⟨[129, 130, 131, 167], 4, ⟨1, 0, 0⟩, ⟨⟨3⟩, Orientation.default⟩⟩), (⟨4, 85355, (0, 25000, 75000)⟩, ⟨[125, 129, 130, 131], 4, ⟨1, 0, 0⟩, ⟨⟨3⟩, Orientation.default⟩⟩), (⟨4, 85355, (0, 25000, 75000)⟩, ⟨[129, 130, 131, 137], 4, ⟨1, 0, 0⟩, ⟨⟨3⟩, Orientation.default⟩⟩), (⟨4, 100000, (0, 0, 100000)⟩, ⟨[292, 293, 294, 295], 4, ⟨1, 0, 0⟩, ⟨⟨4⟩, Orientation.default⟩⟩), (⟨4, 75000, (25000, 25000, 25000)⟩, ⟨[26, 42, 43, 46], 4, ⟨0, 0, 0⟩, ⟨⟨2⟩, Orientation.default⟩⟩), (⟨4, 75000, (25000, 25000, 25000)⟩, ⟨[42, 43, 46, 58], 4, ⟨0, 0, 0⟩, ⟨⟨2⟩, Orientation.default⟩⟩), (⟨4, 75000, (0, 25000, 50000)⟩, ⟨[38, 42, 43, 46], 4, ⟨0, 0, 0⟩, ⟨⟨2⟩, Orientation.default⟩⟩), (⟨4, 75000, (0, 25000, 50000)⟩, ⟨[41, 42, 43, 46], 4, ⟨0, 0, 0⟩, ⟨⟨2⟩, Orientation.default⟩⟩), (⟨4, 85355, (25000, 25000, 50000)⟩, ⟨[27, 42, 43, 46], 4, ⟨0, 0, 0⟩, ⟨⟨2⟩, Orientation.default⟩⟩), (⟨4, 85355, (25000, 25000, 50000)⟩, ⟨[42, 43, 46, 59], 4, ⟨0, 0, 0⟩, ⟨⟨2⟩, Orientation.default⟩⟩), (⟨4, 85355, (0, 50000, 50000)⟩, ⟨[39, 42, 43, 46], 4, ⟨0, 0, 0⟩, ⟨⟨2⟩, Orientation.default⟩⟩), (⟨4, 85355, (0, 50000, 50000)⟩, ⟨[42, 43, 46, 47], 4, ⟨0, 0, 0⟩, ⟨⟨2⟩, Orientation.default⟩⟩), (⟨4, 100000, (0, 25000, 75000)⟩, ⟨[292, 293, 294, 300], 4, ⟨0, 0, 0⟩, ⟨⟨4⟩, Orientation.default⟩⟩), (⟨4, 85355, (25000, 25000, 50000)⟩, ⟨[30, 42, 43, 46], 4, ⟨0, 0, 0⟩, ⟨⟨2⟩, Orientation.default⟩⟩), (⟨4, 85355, (25000, 25000, 50000)⟩, ⟨[42, 43, 46, 62], 4, ⟨0, 0, 0⟩, ⟨⟨2⟩, Orientation.default⟩⟩), (⟨4, 100000, (0, 25000, 75000)⟩, ⟨[292, 293, 300, 308], 4, ⟨0, 0, 0⟩, ⟨⟨4⟩, Orientation.default⟩⟩), (⟨4, 85355, (0, 50000, 50000)⟩, ⟨[42, 43, 45, 46], 4, ⟨0, 0, 0⟩, ⟨⟨2⟩, Orientation.default⟩⟩), (⟨4, 85355, (25000, 25000, 50000)⟩, ⟨[26, 42, 43, 47], 4, ⟨0, 0, 0⟩, ⟨⟨2⟩, Orientation.default⟩⟩), (⟨4, 85355, (25000, 25000, 50000)⟩, ⟨[42, 43, 47, 58], 4, ⟨0, 0, 0⟩, ⟨⟨2⟩, Orientation.default⟩⟩), (⟨4, 85355, (0, 50000, 50000)⟩, ⟨[38, 42, 43, 47], 4, ⟨0, 0, 0⟩, ⟨⟨2⟩, Orientation.default⟩⟩), (⟨4, 85355, (0, 50000, 50000)⟩, ⟨[42, 43, 46, 47], 4, ⟨0, 0, 0⟩, ⟨⟨2⟩, Orientation.default⟩⟩), (⟨4, 85355, (0, 25000, 75000)⟩, ⟨[41, 42, 43, 47], 4, ⟨0, 0, 0⟩, ⟨⟨2⟩, Orientation.default⟩⟩), (⟨4, 95711, (25000, 25000, 75000)⟩, ⟨[27, 42, 43, 47], 4, ⟨0, 0, 0⟩, ⟨⟨2⟩, Orientation.default⟩⟩), (⟨4, 95711, (25000, 25000, 75000)⟩, ⟨[42, 43, 47, 59], 4, ⟨0, 0, 0⟩, ⟨⟨2⟩, Orientation.default⟩⟩), (⟨4, 95711, (0, 50000, 75000)⟩, ⟨[39, 42, 43, 47], 4, ⟨0, 0, 0⟩, ⟨⟨2⟩, Orientation.default⟩⟩), (⟨4, 75000, (0, 25000, 50000)⟩, ⟨[292, 293, 294, 301], 4, ⟨1, 0, 0⟩, ⟨⟨4⟩, Orientation.default⟩⟩), (⟨4, 103657, (25000, 50000, 75000)⟩, ⟨[31, 42, 43, 47], 4, ⟨0, 0, 0⟩, ⟨⟨2⟩, Orientation.default⟩⟩), (⟨4, 103657, (25000, 50000, 75000)⟩, ⟨[42, 43, 47, 63], 4, ⟨0, 0, 0⟩, ⟨⟨2⟩, Orientation.default⟩⟩), (⟨4, 116257, (0, 75000, 75000)⟩, ⟨[292, 293, 301, 309], 4, ⟨0, 0, 0⟩, ⟨⟨4⟩, Orientation.default⟩⟩), (⟨4, 85355, (0, 50000, 50000)⟩, ⟨[292, 293, 301, 302], 4, ⟨1, 0, 0⟩, ⟨⟨4⟩, Orientation.default⟩⟩)] : List (BlockHash × BlockArrangement)).foldl (fun m kv => insertMap m kv.1 kv.2) ([] : LevelMap) = [(⟨4, 75000, (0, 25000, 50000)⟩, ⟨[292, 293, 294, 301], 4, ⟨1, 0, 0⟩, ⟨⟨4⟩, Orientation.default⟩⟩), (⟨4, 75000, (25000, 25000, 25000)⟩, ⟨[42, 43, 46, 58], 4, ⟨0, 0, 0⟩, ⟨⟨2⟩, Orientation.default⟩⟩), (⟨4, 85355, (0, 25000, 75000)⟩, ⟨[41, 42, 43, 47], 4, ⟨0, 0, 0⟩, ⟨⟨2⟩, Orientation.default⟩⟩), (⟨4, 85355, (0, 50000, 50000)⟩, ⟨[292, 293, 301, 302], 4, ⟨1, 0, 0⟩, ⟨⟨4⟩, Orientation.default⟩⟩), (⟨4, 85355, (25000, 25000, 50000)⟩, ⟨[42, 43, 47, 58], 4, ⟨0, 0, 0⟩, ⟨⟨2⟩, Orientation.default⟩⟩), (⟨4, 95711, (0, 50000, 75000)⟩, ⟨[39, 42, 43, 47], 4, ⟨0, 0, 0⟩, ⟨⟨2⟩, Orientation.default⟩⟩), (⟨4, 95711, (25000, 25000, 75000)⟩, ⟨[42, 43, 47, 59], 4, ⟨0, 0, 0⟩, ⟨⟨2⟩, Orientation.default⟩⟩), (⟨4, 100000, (0, 0, 100000)⟩, ⟨[292, 293, 294, 295], 4, ⟨1, 0, 0⟩, ⟨⟨4⟩, Orientation.default⟩⟩), (⟨4, 100000, (0, 25000, 75000)⟩, ⟨[292, 293, 300, 308], 4, ⟨0, 0, 0⟩, ⟨⟨4⟩, Orientation.default⟩⟩), (⟨4, 103657, (25000, 50000, 75000)⟩, ⟨[42, 43, 47, 63], 4, ⟨0, 0, 0⟩, ⟨⟨2⟩, Orientation.default⟩⟩), (⟨4, 116257, (0, 75000, 75000)⟩, ⟨[292, 293, 301, 309], 4, ⟨0, 0, 0⟩, ⟨⟨4⟩, Orientation.default⟩⟩)] := by decide

theorem tr_gvf_L4 : generate_variants_from ([⟨[129, 130, 131], 3, ⟨1, 0, 0⟩, ⟨⟨3⟩, Orientation.default⟩⟩, ⟨[42, 43, 46], 3, ⟨0, 0, 0⟩, ⟨⟨2⟩, Orientation.default⟩⟩, ⟨[42, 43, 47], 3, ⟨0, 0, 0⟩, ⟨⟨2⟩, Orientation.default⟩⟩] : List BlockArrangement) = some [(⟨4, 75000, (0, 25000, 50000)⟩, ⟨[292, 293, 294, 301], 4, ⟨1, 0, 0⟩, ⟨⟨4⟩, Orientation.default⟩⟩), (⟨4, 75000, (25000, 25000, 25000)⟩, ⟨[42, 43, 46, 58], 4, ⟨0, 0, 0⟩, ⟨⟨2⟩, Orientation.default⟩⟩), (⟨4, 85355, (0, 25000, 75000)⟩, ⟨[41, 42, 43, 47], 4, ⟨0, 0, 0⟩, ⟨⟨2⟩, Orientation.default⟩⟩), (⟨4, 85355, (0, 50000, 50000)⟩, ⟨[292, 293, 301, 302], 4, ⟨1, 0, 0⟩, ⟨⟨4⟩, Orientation.default⟩⟩), (⟨4, 85355, (25000, 25000, 50000)⟩, ⟨[42, 43, 47, 58], 4, ⟨0, 0, 0⟩, ⟨⟨2⟩, Orientation.default⟩⟩), (⟨4, 95711, (0, 50000, 75000)⟩, ⟨[39, 42, 43, 47], 4, ⟨0, 0, 0⟩, ⟨⟨2⟩, Orientation.default⟩⟩), (⟨4, 95711, (25000, 25000, 75000)⟩, ⟨[42, 43, 47, 59], 4, ⟨0, 0, 0⟩, ⟨⟨2⟩, Orientation.default⟩⟩), (⟨4, 100000, (0, 0, 100000)⟩, ⟨[292, 293, 294, 295], 4, ⟨1, 0, 0⟩, ⟨⟨4⟩, Orientation.default⟩⟩), (⟨4, 100000, (0, 25000, 75000)⟩, ⟨[292, 293, 300, 308], 4, ⟨0, 0, 0⟩, ⟨⟨4⟩, Orientation.default⟩⟩), (⟨4, 103657, (25000, 50000, 75000)⟩, ⟨[42, 43, 47, 63], 4, ⟨0, 0, 0⟩, ⟨⟨2⟩, Orientation.default⟩⟩), (⟨4, 116257, (0, 75000, 75000)⟩, ⟨[292, 293, 301, 309], 4, ⟨0, 0, 0⟩, ⟨⟨4⟩, Orientation.default⟩⟩)] := by
  unfold generate_variants_from
  have hv0 : (([] : List BlockArrangement)).mapM BlockArrangement.variations = some [] := rfl
  have hv1 := mapM_variations_cons tr_vars_r2 hv0
  have hv2 := mapM_variations_cons tr_vars_r1 hv1
  have hv3 := mapM_variations_cons tr_vars_r0 hv2
  rw [hv3, Option.some_bind', tr_flat_L4, tr_kv_L4, Option.map_some', tr_fold_L4]

theorem tr_hash_nba : blockHash nba = some (⟨1, 0, (0, 0, 0)⟩ : BlockHash) := by decide

theorem tr_snd_1 : ([(⟨1, 0, (0, 0, 0)⟩, nba)] : LevelMap).map Prod.snd = [nba] := by decide

theorem tr_snd_2 : ([(⟨2, 50000, (0, 0, 50000)⟩, domino)] : LevelMap).map Prod.snd = [domino] := by decide

theorem tr_snd_3 : ([(⟨3, 66667, (0, 0, 66667)⟩, ⟨[129, 130, 131], 3, ⟨1, 0, 0⟩, ⟨⟨3⟩, Orientation.default⟩⟩), (⟨3, 66667, (0, 33333, 33333)⟩, ⟨[42, 43, 46], 3, ⟨0, 0, 0⟩, ⟨⟨2⟩, Orientation.default⟩⟩), (⟨3, 80474, (0, 33333, 66667)⟩, ⟨[42, 43, 47], 3, ⟨0, 0, 0⟩, ⟨⟨2⟩, Orientation.default⟩⟩)] : LevelMap).map Prod.snd = [⟨[129, 130, 131], 3, ⟨1, 0, 0⟩, ⟨⟨3⟩, Orientation.default⟩⟩, ⟨[42, 43, 46], 3, ⟨0, 0, 0⟩, ⟨⟨2⟩, Orientation.default⟩⟩, ⟨[42, 43, 47], 3, ⟨0, 0, 0⟩, ⟨⟨2⟩, Orientation.default⟩⟩] := by decide

theorem tr_gen1 : generate 1 = some [[(⟨1, 0, (0, 0, 0)⟩, nba)]] := by
  unfold generate
  rw [new_eq_nba, Option.some_bind', tr_hash_nba, Option.some_bind']
  rfl

theorem tr_gen4 : generate 4 =
    some [[(⟨1, 0, (0, 0, 0)⟩, nba)], [(⟨2, 50000, (0, 0, 50000)⟩, domino)],
      [(⟨3, 66667, (0, 0, 66667)⟩, ⟨[129, 130, 131], 3, ⟨1, 0, 0⟩, ⟨⟨3⟩, Orientation.default⟩⟩), (⟨3, 66667, (0, 33333, 33333)⟩, ⟨[42, 43, 46], 3, ⟨0, 0, 0⟩, ⟨⟨2⟩, Orientation.default⟩⟩), (⟨3, 80474, (0, 33333, 66667)⟩, ⟨[42, 43, 47], 3, ⟨0, 0, 0⟩, ⟨⟨2⟩, Orientation.default⟩⟩)],
      [(⟨4, 75000, (0, 25000, 50000)⟩, ⟨[292, 293, 294, 301], 4, ⟨1, 0, 0⟩, ⟨⟨4⟩, Orientation.default⟩⟩), (⟨4, 75000, (25000, 25000, 25000)⟩, ⟨[42, 43, 46, 58], 4, ⟨0, 0, 0⟩, ⟨⟨2⟩, Orientation.default⟩⟩), (⟨4, 85355, (0, 25000, 75000)⟩, ⟨[41, 42, 43, 47], 4, ⟨0, 0, 0⟩, ⟨⟨2⟩, Orientation.default⟩⟩), (⟨4, 85355, (0, 50000, 50000)⟩, ⟨[292, 293, 301, 302], 4, ⟨1, 0, 0⟩, ⟨⟨4⟩, Orientation.default⟩⟩), (⟨4, 85355, (25000, 25000, 50000)⟩, ⟨[42, 43, 47, 58], 4, ⟨0, 0, 0⟩, ⟨⟨2⟩, Orientation.default⟩⟩), (⟨4, 95711, (0, 50000, 75000)⟩, ⟨[39, 42, 43, 47], 4, ⟨0, 0, 0⟩, ⟨⟨2⟩, Orientation.default⟩⟩), (⟨4, 95711, (25000, 25000, 75000)⟩, ⟨[42, 43, 47, 59], 4, ⟨0, 0, 0⟩, ⟨⟨2⟩, Orientation.default⟩⟩), (⟨4, 100000, (0, 0, 100000)⟩, ⟨[292, 293, 294, 295], 4, ⟨1, 0, 0⟩, ⟨⟨4⟩, Orientation.default⟩⟩), (⟨4, 100000, (0, 25000, 75000)⟩, ⟨[292, 293, 300, 308], 4, ⟨0, 0, 0⟩, ⟨⟨4⟩, Orientation.default⟩⟩), (⟨4, 103657, (25000, 50000, 75000)⟩, ⟨[42, 43, 47, 63], 4, ⟨0, 0, 0⟩, ⟨⟨2⟩, Orientation.default⟩⟩), (⟨4, 116257, (0, 75000, 75000)⟩, ⟨[292, 293, 301, 309], 4, ⟨0, 0, 0⟩, ⟨⟨4⟩, Orientation.default⟩⟩)]] := by
  unfold generate
  rw [new_eq_nba, Option.some_bind', tr_hash_nba, Option.some_bind',
      show (4 : Nat) - 1 = 3 from rfl,
      generateAux_step tr_snd_1 tr_gvf_L2, generateAux_step tr_snd_2 tr_gvf_L3,
      generateAux_step tr_snd_3 tr_gvf_L4]
  rfl


/-- C3: `resolve` after `unresolve` is NOT the identity on in-bounds points
once the mapper carries rotations about two axes: at the in-bounds point
`(1,0,0)` under `x_rot = 90°, y_rot = 90°`, `unresolve` yields index 26 but
`resolve 26` returns `(0,1,0)`.  (`unresolve` applies `apply_orientation`
with `negative()`, which does not invert `apply_orientation` because
rotations about different axes do not commute; `apply_inverse_orientation`
exists in `point.rs` precisely for that and is not used here.) -/
theorem resolve_unresolve_not_id :
    c3mapper.dimension.in_bounds ⟨1, 0, 0⟩ = true ∧
    c3mapper.unresolve ⟨1, 0, 0⟩ = some 26 ∧
    c3mapper.resolve 26 = some ⟨0, 1, 0⟩ ∧
    (c3mapper.unresolve ⟨1, 0, 0⟩).bind c3mapper.resolve ≠ some ⟨1, 0, 0⟩ := by
  decide

/-- Unfolding lemma: `has_neighbors` is the disjunction of `is_set` over
the six face-adjacent positions. -/
theorem filterMap_unresolve_any (m : Mapper) (bits : List Nat) (qs : List Point3D) :
    ((qs.filterMap m.unresolve).any (bitsetGet bits)) =
      qs.any fun q => ((m.unresolve q).map (bitsetGet bits)).getD false := by
  induction qs with
  | nil => rfl
  | cons q rest ih =>
      cases h : m.unresolve q with
      | none => simp [List.filterMap_cons, h, ih]
      | some i => simp [List.filterMap_cons, h, ih]

/-- `has_neighbors` restated through `is_set`. -/
theorem has_neighbors_eq_any (ba : BlockArrangement) (p : Point3D) :
    ba.has_neighbors p =
      (BlockArrangement.NEIGHBOR_OFFSETS.map (fun o => o.add p)).any ba.is_set := by
  unfold BlockArrangement.has_neighbors BlockArrangement.is_set
  exact filterMap_unresolve_any ba.mapper ba.bits _

/-- C7: adding at a point none of whose six face-adjacent positions is
occupied returns `Err(NotAdjacentToBlock)` and leaves the arrangement (its
block count and its occupied-cell set) unchanged. -/
theorem add_block_not_adjacent_errs (ba : BlockArrangement) (p : Point3D)
    (h : ∀ off ∈ BlockArrangement.NEIGHBOR_OFFSETS, ba.is_set (off.add p) = false) :
    ba.add_block_at p = some (.error .NotAdjacentToBlock, ba) := by
  have hn : ba.has_neighbors p = false := by
    rw [has_neighbors_eq_any]
    rw [List.any_eq_false]
    intro q hq
    obtain ⟨off, hoff, rfl⟩ := List.mem_map.mp hq
    simp [h off hoff]
  unfold BlockArrangement.add_block_at
  simp [hn]

/-- Witness for C7 at `new()` and the far-away point `(5,5,5)`. -/
theorem add_block_not_adjacent_errs_witness :
    (∀ off ∈ BlockArrangement.NEIGHBOR_OFFSETS, nba.is_set (off.add ⟨5, 5, 5⟩) = false) ∧
    nba.add_block_at ⟨5, 5, 5⟩ = some (.error .NotAdjacentToBlock, nba) :=
  ⟨by decide, add_block_not_adjacent_errs nba ⟨5, 5, 5⟩ (by decide)⟩

/-- C8 counterexample: in the single-block arrangement the origin cell is
occupied, yet re-adding it returns `Err(NotAdjacentToBlock)` (and not `Ok`),
because `has_neighbors` inspects only the six offsets, never the cell
itself. -/
theorem add_occupied_origin_errs :
    nba.is_set Point3D.origin = true ∧
    nba.add_block_at Point3D.origin = some (.error .NotAdjacentToBlock, nba) := by
  decide

/-- C8 amended: adding at an already-occupied point that also has an
occupied face-neighbor returns `Ok` and leaves the block count (indeed the
whole occupied-cell set) unchanged; only the centroid field is rewritten
with the recomputed centroid `c`. -/
theorem add_occupied_with_neighbor_ok (ba : BlockArrangement) (p : Point3D) (c : Point3D)
    (hset : ba.is_set p = true) (hn : ba.has_neighbors p = true)
    (hc : BlockArrangement.centerOfMassOf ba.mapper ba.bits = some c) :
    ba.add_block_at p = some (.ok (), { ba with center_off_mass := c }) := by
  unfold BlockArrangement.is_set at hset
  cases hu : ba.mapper.unresolve p with
  | none => rw [hu] at hset; simp at hset
  | some i =>
      rw [hu] at hset
      simp only [Option.map_some', Option.getD_some] at hset
      have hb : ba.mapper.dimension.in_bounds p = true := by
        by_contra hbf
        have : ba.mapper.unresolve p = none := by
          unfold Mapper.unresolve
          simp [Bool.not_eq_true] at hbf
          simp [hbf]
        rw [this] at hu
        exact Option.noConfusion hu
      have hbs : bitsetSet ba.bits i = ba.bits := by
        unfold bitsetSet
        simp [hset]
      unfold BlockArrangement.add_block_at
      simp [hn, hb, hu, hset, hbs, hc]

/-- Witness for the amended C8 at the domino and its occupied cell
`(1,0,0)`. -/
theorem add_occupied_with_neighbor_ok_witness :
    domino.is_set ⟨1, 0, 0⟩ = true ∧ domino.has_neighbors ⟨1, 0, 0⟩ = true ∧
    BlockArrangement.centerOfMassOf domino.mapper domino.bits = some Point3D.origin ∧
    domino.add_block_at ⟨1, 0, 0⟩ =
      some (.ok (), { domino with center_off_mass := Point3D.origin }) :=
  ⟨by decide, by decide, by decide,
    add_occupied_with_neighbor_ok domino ⟨1, 0, 0⟩ Point3D.origin
      (by decide) (by decide) (by decide)⟩

/-- C9: the variant generator on `new()` yields exactly 6 arrangements,
each of block count 2 — but they are not all mutually equal under `==`: the
comparison of the first variant (block at `(0,0,-1)`, still in the arm-1
box) with the second (block at `(0,0,1)`, grown to arm 2) aborts
(`resolve(...).expect(...)` panics, modelled `none`): the z-mirror probe
orientation, reached before any matching one, maps the boundary cell
`(0,0,-1)` to `(0,0,1)`, which is outside the arm-1 box. -/
theorem single_cell_variants_eq_aborts :
    (BlockArrangement.variations nba).map List.length = some 6 ∧
    (BlockArrangement.variations nba).map (List.map BlockArrangement.num_blocks) =
      some [2, 2, 2, 2, 2, 2] ∧
    ((BlockArrangement.variations nba).bind fun vs =>
      vs.head?.bind fun v0 => vs.tail.head?.bind fun v1 => v0.beq v1) = none := by
  rw [tr_vars_n1]
  decide

/-- C6 counterexample: the six variants of the single-cell arrangement all
carry the same fingerprint, and the map built by `generate_variants_from`
retains the LAST of them (block at `(1,0,0)`, arm-2 box), not the
first-seen one (block at `(0,0,-1)`, arm-1 box). -/
theorem variants_map_keeps_last_not_first :
    (BlockArrangement.variations nba).bind List.head? = some c6first ∧
    (BlockArrangement.variations nba).bind List.getLast? = some c6last ∧
    blockHash c6first = some c6hash ∧
    blockHash c6last = some c6hash ∧
    c6first ≠ c6last ∧
    generate_variants_from [nba] = some [(c6hash, c6last)] := by
  rw [tr_vars_n1, tr_gvf_L2]
  decide

/-- C5: the generation loop of `main.rs` does not reproduce the known
polycube counts: `generate 1` yields one level holding the single shape,
but `generate 4`'s four levels have sizes 1, 1, 3 and 11 — the final map
holds 11 entries of block count 4, not the expected 8 (the
truncated-centroid fingerprints are not translation invariant, so one
shape can split across several map keys). -/
theorem generate_four_yields_eleven_not_eight :
    (generate 1).map (List.map List.length) = some [1] ∧
    (generate 4).map (List.map List.length) = some [1, 1, 3, 11] ∧
    (generate 4).map (fun ls => (ls.getLast?.getD []).all fun kv => kv.2.num_blocks = 4) =
      some true ∧
    (generate 4).map (List.map List.length) ≠ some [1, 1, 3, 8] := by
  rw [tr_gen1, tr_gen4]
  decide

/-- C10: `is_set` is total at out-of-extent points: the index lookup
(`unresolve`) returns `None` there and `is_set` returns `false` — no panic
and no storage access happens. -/
theorem is_set_out_of_bounds_false (ba : BlockArrangement) (p : Point3D)
    (h : ba.mapper.dimension.in_bounds p = false) :
    ba.mapper.unresolve p = none ∧ ba.is_set p = false := by
  have hu : ba.mapper.unresolve p = none := by
    unfold Mapper.unresolve
    simp [h]
  refine ⟨hu, ?_⟩
  unfold BlockArrangement.is_set
  rw [hu]
  rfl

/-- Witness for C10 at `new()` and the out-of-extent point `(5,5,5)`. -/
theorem is_set_out_of_bounds_false_witness :
    nba.mapper.dimension.in_bounds ⟨5, 5, 5⟩ = false ∧
    (nba.mapper.unresolve ⟨5, 5, 5⟩ = none ∧ nba.is_set ⟨5, 5, 5⟩ = false) :=
  ⟨by decide, is_set_out_of_bounds_false nba ⟨5, 5, 5⟩ (by decide)⟩

/-! ### Orientation algebra (claim C2) -/

/-- A rotation followed by the rotation with the inverse amount about the
same axis is the identity. -/
theorem rotate_inverse_cancel (p : Point3D) (ax : Axis3D) (amt : RotationAmount) :
    (p.rotate ax amt).rotate ax amt.inverse = p := by
  cases p
  cases ax <;> cases amt <;>
    simp [Point3D.rotate, RotationAmount.iterations, RotationAmount.inverse,
      RotationAmount.sub, Point3D.rot2dIter, Point3D.rot2d]

/-- Mirroring is an involution. -/
theorem mirror_mirror (p : Point3D) (ax : Axis3D) : (p.mirror ax).mirror ax = p := by
  cases p
  cases ax <;> simp [Point3D.mirror]

/-- C2: `apply_inverse_orientation` undoes `apply_orientation`: for every
point and every orientation (all rotation amounts and mirror flags, a
superset of the 512 iterator combinations), the round trip is the
identity. -/
theorem apply_inverse_orientation_round_trip (p : Point3D) (o : Orientation) :
    (p.applyOrientation o).applyInverseOrientation o = p := by
  rcases o with ⟨xr, yr, zr, xm, ym, zm⟩
  cases xm <;> cases ym <;> cases zm <;>
    simp [Point3D.applyOrientation, Point3D.applyInverseOrientation,
      rotate_inverse_cancel, mirror_mirror]

/-! ### Fingerprint non-invariance (claim C4) -/

theorem cexA_step1 : addOk nba ⟨0, 0, -1⟩ = some c6first := by decide

theorem cexA_step2 : addOk c6first ⟨0, 1, -1⟩ = some aCex := by decide

theorem hashCexA_eq : hashCexA = some aCex := by
  unfold hashCexA
  rw [new_eq_nba, Option.some_bind', cexA_step1, Option.some_bind', cexA_step2]

theorem cexB_step2 : addOk c6first ⟨0, -1, 0⟩ =
    some (⟨[3, 5, 7], 3, Point3D.origin, ⟨⟨1⟩, Orientation.default⟩⟩ : BlockArrangement) := by
  decide

theorem cexB_step3 :
    (⟨[3, 5, 7], 3, Point3D.origin, ⟨⟨1⟩, Orientation.default⟩⟩ :
      BlockArrangement).set_orientation ⟨.Zero, .Zero, .Ninety, false, true, false⟩ =
    some bCex := by
  decide

theorem hashCexB_eq : hashCexB = some bCex := by
  unfold hashCexB
  rw [new_eq_nba, Option.some_bind', cexA_step1, Option.some_bind', cexB_step2,
      Option.some_bind', cexB_step3]

/-- C4 counterexample: two arrangements reachable through the public API
(`hashCexA` and `hashCexB`) that the orientation-searching equality reports
as equal (`==` returns `true`), yet whose fingerprints differ in both the
density and the axis-alignment triple. -/
theorem equal_arrangements_unequal_fingerprints :
    hashCexA = some aCex ∧ hashCexB = some bCex ∧
    aCex.beq bCex = some true ∧
    blockHash aCex = some ⟨3, 80474, (0, 33333, 66667)⟩ ∧
    blockHash bCex = some ⟨3, 66667, (0, 33333, 33333)⟩ ∧
    blockHash aCex ≠ blockHash bCex :=
  ⟨hashCexA_eq, hashCexB_eq, by decide, by decide, by decide, by decide⟩

/-! ### Last-wins collection (claim C6, amended) -/

/-- `Ordering.then` is `eq` exactly when both stages are. -/
theorem ordering_then_eq {o1 o2 : Ordering} : o1.then o2 = .eq ↔ o1 = .eq ∧ o2 = .eq := by
  cases o1 <;> simp [Ordering.then]

/-- The derived `Ord` of `BlockHash` agrees with equality. -/
theorem blockHash_cmp_eq_iff {a b : BlockHash} : BlockHash.cmp a b = .eq ↔ a = b := by
  cases a; cases b
  simp [BlockHash.cmp, ordering_then_eq, compare_eq_iff_eq, BlockHash.mk.injEq, Prod.ext_iff]

/-- Lookup after a `BTreeMap::insert`: the freshly inserted key reads the
new value, every other key is unaffected. -/
theorem lookup_insert (k k' : BlockHash) (v : BlockArrangement) (m : LevelMap) :
    lookupMap k (insertMap m k' v) = if k' = k then some v else lookupMap k m := by
  by_cases hk : k' = k
  · subst hk
    rw [if_pos rfl]
    induction m with
    | nil =>
        simp only [insertMap, lookupMap]
        rw [if_pos (blockHash_cmp_eq_iff.mpr rfl)]
    | cons kv rest ih =>
        obtain ⟨k0, v0⟩ := kv
        rcases hc : BlockHash.cmp k' k0 with _ | _ | _
        · simp only [insertMap, hc, lookupMap]
          rw [if_pos (blockHash_cmp_eq_iff.mpr rfl)]
        · simp only [insertMap, hc, lookupMap]
          rw [if_pos (blockHash_cmp_eq_iff.mpr rfl)]
        · simp only [insertMap, hc, lookupMap]
          rw [if_neg (fun h2 => Ordering.noConfusion h2), ih]
  · rw [if_neg hk]
    have hkne : BlockHash.cmp k k' ≠ .eq := fun h2 => hk (blockHash_cmp_eq_iff.mp h2).symm
    induction m with
    | nil =>
        simp only [insertMap, lookupMap]
        rw [if_neg hkne]
    | cons kv rest ih =>
        obtain ⟨k0, v0⟩ := kv
        rcases hc : BlockHash.cmp k' k0 with _ | _ | _
        · simp only [insertMap, hc, lookupMap]
          rw [if_neg hkne]
        · have hk0 : k' = k0 := blockHash_cmp_eq_iff.mp hc
          subst hk0
          simp only [insertMap, hc, lookupMap]
          rw [if_neg hkne, if_neg hkne]
        · simp only [insertMap, hc, lookupMap]
          rw [ih]

/-- Folding `BTreeMap::insert` over a key/value sequence: each key reads
the value of its LAST occurrence in the sequence (falling back to the
start map). -/
theorem fold_insert_lookup (k : BlockHash) (kvs : List (BlockHash × BlockArrangement))
    (m0 : LevelMap) :
    lookupMap k (kvs.foldl (fun m kv => insertMap m kv.1 kv.2) m0) =
      (lastValueWith k kvs).or (lookupMap k m0) := by
  induction kvs generalizing m0 with
  | nil => simp [lastValueWith]
  | cons kv rest ih =>
      obtain ⟨k', v'⟩ := kv
      rw [List.foldl_cons, ih, lookup_insert]
      simp only [lastValueWith]
      rw [Option.or_assoc]
      congr 1
      by_cases hk : k' = k
      · simp [hk]
      · simp [hk]

/-- C6 amended: the `BTreeMap` built by `collect()` in
`generate_variants_from` retains for every fingerprint the LAST variant of
the input sequence carrying it, not the first-seen one. -/
theorem map_collect_keeps_last (k : BlockHash) (kvs : List (BlockHash × BlockArrangement)) :
    lookupMap k (kvs.foldl (fun m kv => insertMap m kv.1 kv.2) []) = lastValueWith k kvs := by
  rw [fold_insert_lookup]
  simp [lookupMap]

/-! ### The equality search (claim C1) -/

/-- `set_orientation` installs the probe orientation. -/
theorem orientation_set_orientation (m : Mapper) (o : Orientation) :
    (m.set_orientation o).orientation = o := rfl

/-- `set_orientation` keeps the storage linearization. -/
theorem storagePoint_set_orientation (m : Mapper) (o : Orientation) (i : Nat) :
    (m.set_orientation o).storagePoint i = m.storagePoint i := rfl

/-- A non-panicking `resolve` returns the reoriented storage point. -/
theorem resolve_of_ne_none {m : Mapper} {i : Nat} (h : m.resolve i ≠ none) :
    m.resolve i = some ((m.storagePoint i).applyOrientation m.orientation) := by
  by_cases hb : m.dimension.in_bounds ((m.storagePoint i).applyOrientation m.orientation) = true
  · simp [Mapper.resolve, hb]
  · exact absurd (by simp [Mapper.resolve, hb]) h

/-- The resolve-and-check loop under a panic-free mapper is `List.all`. -/
theorem allResolveCheck_eq {m : Mapper} {f : Point3D → Bool} {bits : List Nat}
    (h : ∀ i ∈ bits, m.resolve i ≠ none) :
    BlockArrangement.allResolveCheck m f bits =
      some (bits.all fun i => f ((m.storagePoint i).applyOrientation m.orientation)) := by
  induction bits with
  | nil => rfl
  | cons i rest ih =>
      have hi := resolve_of_ne_none (h i (by simp))
      by_cases hf : f ((m.storagePoint i).applyOrientation m.orientation) = true
      · simp [BlockArrangement.allResolveCheck, hi, hf,
          ih (fun j hj => h j (by simp [hj]))]
      · simp [BlockArrangement.allResolveCheck, hi, hf]

/-- One orientation probe of the equality, written as a Boolean predicate
over the storage points, for a probe orientation that resolves all bits. -/
theorem eqCheckOrient_eq {a b : BlockArrangement} {o : Orientation}
    (h : ∀ i ∈ a.bits, (a.mapper.set_orientation o).resolve i ≠ none) :
    BlockArrangement.eqCheckOrient a b o =
      some (decide (a.num_blocks = b.num_blocks) &&
        a.bits.all fun i =>
          b.is_set_relative_to_center_of_mass
            (((a.mapper.storagePoint i).applyOrientation o).sub
              (a.center_off_mass.applyOrientation o))) := by
  unfold BlockArrangement.eqCheckOrient
  by_cases hn : a.num_blocks = b.num_blocks
  · rw [if_pos hn, allResolveCheck_eq h]
    simp only [storagePoint_set_orientation, orientation_set_orientation,
      decide_eq_true hn, Bool.true_and]
  · rw [if_neg hn]
    simp [hn]

/-- The orientation search returns `true` exactly when some listed probe
succeeds, provided no probe panics. -/
theorem eqRunAux_true_iff {a b : BlockArrangement} {os : List Orientation}
    (h : ∀ o ∈ os, BlockArrangement.eqCheckOrient a b o ≠ none) :
    BlockArrangement.eqRunAux a b os = some true ↔
      ∃ o ∈ os, BlockArrangement.eqCheckOrient a b o = some true := by
  induction os with
  | nil => simp [BlockArrangement.eqRunAux]
  | cons o rest ih =>
      have ho := h o (by simp)
      cases hc : BlockArrangement.eqCheckOrient a b o with
      | none => exact absurd hc ho
      | some bv =>
          cases bv
          · simp [BlockArrangement.eqRunAux, hc,
              ih (fun o' ho' => h o' (by simp [ho']))]
          · simp [BlockArrangement.eqRunAux, hc]

/-- Subtraction is preserved by `rotate`. -/
theorem rotate_sub (p q : Point3D) (ax : Axis3D) (amt : RotationAmount) :
    (p.sub q).rotate ax amt = (p.rotate ax amt).sub (q.rotate ax amt) := by
  cases p; cases q
  cases ax <;> cases amt <;>
    (simp [Point3D.rotate, Point3D.sub, RotationAmount.iterations,
       Point3D.rot2dIter, Point3D.rot2d, Point3D.mk.injEq] <;> omega)

/-- Subtraction is preserved by `mirror`. -/
theorem mirror_sub (p q : Point3D) (ax : Axis3D) :
    (p.sub q).mirror ax = (p.mirror ax).sub (q.mirror ax) := by
  cases p; cases q
  cases ax <;> (simp [Point3D.mirror, Point3D.sub, Point3D.mk.injEq] <;> omega)

/-- Subtraction is preserved by `apply_orientation`. -/
theorem applyOrientation_sub (p q : Point3D) (o : Orientation) :
    (p.sub q).applyOrientation o = (p.applyOrientation o).sub (q.applyOrientation o) := by
  rcases o with ⟨xr, yr, zr, xm, ym, zm⟩
  cases xm <;> cases ym <;> cases zm <;>
    simp [Point3D.applyOrientation, mirror_sub, rotate_sub]

/-- C1: under the panic-freedom precondition, `a == b` returns `true` iff
the block counts agree and some orientation of the 512-element iterator
list sends every centroid-relative coordinate of `a` onto an occupied
centroid-relative coordinate of `b`. -/
theorem beq_true_iff_spec (a b : BlockArrangement) (h : ResolvesEverywhere a) :
    a.beq b = some true ↔
      (a.num_blocks = b.num_blocks ∧ ∃ o ∈ orientationList,
        ∀ p ∈ centroidRelativeCoords a,
          b.is_set_relative_to_center_of_mass (p.applyOrientation o) = true) := by
  unfold BlockArrangement.beq
  have hnn : ∀ o ∈ orientationList, BlockArrangement.eqCheckOrient a b o ≠ none := by
    intro o ho
    rw [eqCheckOrient_eq (fun i hi => h i hi o ho)]
    simp
  rw [eqRunAux_true_iff hnn]
  constructor
  · rintro ⟨o, ho, hoeq⟩
    rw [eqCheckOrient_eq (fun i hi => h i hi o ho)] at hoeq
    have hb := Option.some.inj hoeq
    rw [Bool.and_eq_true] at hb
    obtain ⟨hnb, hall⟩ := hb
    refine ⟨of_decide_eq_true hnb, o, ho, ?_⟩
    intro p hp
    obtain ⟨i, hi, rfl⟩ := List.mem_map.mp hp
    have hone := List.all_eq_true.mp hall i hi
    rwa [applyOrientation_sub]
  · rintro ⟨hnb, o, ho, hall⟩
    refine ⟨o, ho, ?_⟩
    rw [eqCheckOrient_eq (fun i hi => h i hi o ho)]
    have hx : decide (a.num_blocks = b.num_blocks) = true := decide_eq_true hnb
    have hy : (a.bits.all fun i =>
        b.is_set_relative_to_center_of_mass
          (((a.mapper.storagePoint i).applyOrientation o).sub
            (a.center_off_mass.applyOrientation o))) = true := by
      rw [List.all_eq_true]
      intro i hi
      have hone := hall ((a.mapper.storagePoint i).sub a.center_off_mass)
        (List.mem_map_of_mem _ hi)
      rwa [applyOrientation_sub] at hone
    rw [hx, hy]
    rfl

set_option maxRecDepth 8000 in
/-- Witness for C1 at the single-cell arrangement compared with itself. -/
theorem beq_true_iff_spec_witness :
    ResolvesEverywhere nba ∧
    (nba.beq nba = some true ↔
      (nba.num_blocks = nba.num_blocks ∧ ∃ o ∈ orientationList,
        ∀ p ∈ centroidRelativeCoords nba,
          nba.is_set_relative_to_center_of_mass (p.applyOrientation o) = true)) :=
  ⟨by unfold ResolvesEverywhere; decide,
    beq_true_iff_spec nba nba (by unfold ResolvesEverywhere; decide)⟩

end Polycubes
